import Mathlib

/-!
# vital_link: step / fall detector, PPG estimator and sensor-state store

A shallow embedding of the signal-processing core of the wearable board
(`user_sensor_board_ver2`):

* `components/common/src/sensor_data.c`            (shared record and its setters),
* `components/common/src/sensor_manager.c`         (`read_mpu6050`, the fall hold),
* `components/heart_sensor/src/heart_rate_calculator.c` (heart rate and SpO2),
* `components/gyro_sensor/src/mpu6050_step_fall.c`  (step and fall detection).

Conventions of the embedding.

* C `float` values are rationals (`ℚ`).  In the main model `+ - * /` and the comparisons
  are the exact ones, so rounding, infinities and NaN are not represented, and decimal
  literals such as `3.3f` denote the decimal number written.
* Where the outcome turns on comparing a computed value with a threshold (the trigger of
  `step_fall_detect_fall` and the SpO2 curve of `calculate_spo2`), the statements are made
  on a second model, the definitions with the suffix `_f32`: every operation and every
  literal is rounded to binary32, to nearest with ties to even.
* The `<math.h>` functions `sqrtf`, `atan2f`, `sinf` and `log10f` are not part of the
  repository; they are taken as a parameter (`libm`) and every statement holds for all
  interpretations unless it names an accuracy assumption.  `fabsf` is the exact
  absolute value.
* `int`, `int16_t` and `int64_t` are `Int`; `uint32_t` values are `Nat` and unsigned
  subtraction is written with an explicit `% 2 ^ 32`.
* Arrays are total maps from the index; file-scope variables and function-level
  `static` variables are fields of explicit state records that each function receives
  and returns.
* Logging calls (`ESP_LOGx`) have no effect on the state and are omitted.
-/

set_option linter.unusedVariables false

namespace VitalLink

/-! ## `sensor_data.h` / `sensor_data.c` -/

/-- Location fix, `location_data_t`. -/
structure location_data_t where
  major : Nat
  minor : Nat
  rssi : Int
deriving DecidableEq, Repr

/-- The anonymous bit-field struct `validity_flags` of `sensor_data_t`: six one-bit
flags (`true` is the bit value 1) and two reserved bits. -/
structure validity_flags_t where
  heart_rate_valid : Bool
  temperature_valid : Bool
  spo2_valid : Bool
  steps_valid : Bool
  fall_detected_valid : Bool
  location_valid : Bool
  reserved : Nat
deriving DecidableEq, Repr

/-- The shared record `sensor_data_t`. -/
structure sensor_data_t where
  heart_rate : ℚ
  temperature : ℚ
  spo2 : Int
  steps : Int
  fall_detected : Int
  timestamp_ms : Int
  location : location_data_t
  validity_flags : validity_flags_t
deriving DecidableEq, Repr

/-- The value of `static sensor_data_t current_data;` when the process starts: C zero
initialisation of an object with static storage duration. -/
def current_data_at_start : sensor_data_t :=
  { heart_rate := 0, temperature := 0, spo2 := 0, steps := 0, fall_detected := 0,
    timestamp_ms := 0, location := { major := 0, minor := 0, rssi := 0 },
    validity_flags :=
      { heart_rate_valid := false, temperature_valid := false, spo2_valid := false,
        steps_valid := false, fall_detected_valid := false, location_valid := false,
        reserved := 0 } }

/-- FreeRTOS `xSemaphoreTake(data_mutex, portMAX_DELAY)`: with an unbounded wait the
call returns only once the mutex is held, so in this sequential embedding it yields
`pdTRUE`. -/
def xSemaphoreTake_portMAX_DELAY : Bool := true

/-- The function `sensor_data_init`: creates the mutex and clears the validity flags
(`memset` of the bit-field struct); no other field is touched. -/
def sensor_data_init (current_data : sensor_data_t) : sensor_data_t :=
  { current_data with
    validity_flags :=
      { heart_rate_valid := false, temperature_valid := false, spo2_valid := false,
        steps_valid := false, fall_detected_valid := false, location_valid := false,
        reserved := 0 } }

def sensor_data_set_heart_rate (current_data : sensor_data_t) (hr : ℚ) : sensor_data_t :=
  if xSemaphoreTake_portMAX_DELAY then
    { current_data with
      heart_rate := hr
      validity_flags := { current_data.validity_flags with heart_rate_valid := true } }
  else current_data

def sensor_data_set_temperature (current_data : sensor_data_t) (temp : ℚ) : sensor_data_t :=
  if xSemaphoreTake_portMAX_DELAY then
    { current_data with
      temperature := temp
      validity_flags := { current_data.validity_flags with temperature_valid := true } }
  else current_data

def sensor_data_set_spo2 (current_data : sensor_data_t) (spo2 : Int) : sensor_data_t :=
  if xSemaphoreTake_portMAX_DELAY then
    { current_data with
      spo2 := spo2
      validity_flags := { current_data.validity_flags with spo2_valid := true } }
  else current_data

def sensor_data_set_steps (current_data : sensor_data_t) (steps : Int) : sensor_data_t :=
  if xSemaphoreTake_portMAX_DELAY then
    { current_data with
      steps := steps
      validity_flags := { current_data.validity_flags with steps_valid := true } }
  else current_data

def sensor_data_set_fall_detected (current_data : sensor_data_t) (fall : Int) :
    sensor_data_t :=
  if xSemaphoreTake_portMAX_DELAY then
    { current_data with
      fall_detected := fall
      validity_flags := { current_data.validity_flags with fall_detected_valid := true } }
  else current_data

def sensor_data_set_timestamp (current_data : sensor_data_t) (timestamp_ms : Int) :
    sensor_data_t :=
  if xSemaphoreTake_portMAX_DELAY then
    { current_data with timestamp_ms := timestamp_ms }
  else current_data

def sensor_data_set_location (current_data : sensor_data_t) (major minor : Nat)
    (rssi : Int) : sensor_data_t :=
  if xSemaphoreTake_portMAX_DELAY then
    { current_data with
      location := { major := major, minor := minor, rssi := rssi }
      validity_flags := { current_data.validity_flags with location_valid := true } }
  else current_data

/-- The function `sensor_data_get_snapshot`: the first component is the returned copy,
the second the stored record after the call.  The local `copy` is assigned only when
the mutex was taken; `current_data_at_start` stands for the otherwise unassigned
local. -/
def sensor_data_get_snapshot (current_data : sensor_data_t) :
    sensor_data_t × sensor_data_t :=
  if xSemaphoreTake_portMAX_DELAY then (current_data, current_data)
  else (current_data_at_start, current_data)

/-- The value of a one-bit validity flag when it is read as an `int`. -/
def bit_value (b : Bool) : Int := if b then 1 else 0

/-- The function `sensor_data_has_valid_measurements`: the C value of the chain of `||`
over the six validity bits of a snapshot (1 or 0). -/
def sensor_data_has_valid_measurements (current_data : sensor_data_t) : Int :=
  let snapshot := (sensor_data_get_snapshot current_data).1
  if snapshot.validity_flags.heart_rate_valid ||
      snapshot.validity_flags.temperature_valid ||
      snapshot.validity_flags.spo2_valid ||
      snapshot.validity_flags.steps_valid ||
      snapshot.validity_flags.fall_detected_valid ||
      snapshot.validity_flags.location_valid then 1
  else 0

/-- The function `sensor_data_get_valid_count`. -/
def sensor_data_get_valid_count (current_data : sensor_data_t) : Int :=
  let snapshot := (sensor_data_get_snapshot current_data).1
  let count : Int := 0
  let count := count + bit_value snapshot.validity_flags.heart_rate_valid
  let count := count + bit_value snapshot.validity_flags.temperature_valid
  let count := count + bit_value snapshot.validity_flags.spo2_valid
  let count := count + bit_value snapshot.validity_flags.steps_valid
  let count := count + bit_value snapshot.validity_flags.fall_detected_valid
  let count := count + bit_value snapshot.validity_flags.location_valid
  count

/-- The six validity bits of a record, in declaration order. -/
def validity_bits (v : validity_flags_t) : List Bool :=
  [v.heart_rate_valid, v.temperature_valid, v.spo2_valid, v.steps_valid,
    v.fall_detected_valid, v.location_valid]

/-! ## `heart_rate_calculator.h` -/

def SPO2_NORMAL_MIN : Int := 95
def SPO2_HYPOXIA_WARNING : Int := 90
def SPO2_HYPOXIA_DANGER : Int := 80
def SPO2_SEVERE_HYPOXIA : Int := 75

/-- The enumeration `spo2_status_t`, constructors in declaration order. -/
inductive spo2_status_t where
  | SPO2_STATUS_NORMAL
  | SPO2_STATUS_WARNING
  | SPO2_STATUS_DANGER
  | SPO2_STATUS_SEVERE
  | SPO2_STATUS_INVALID
deriving DecidableEq, Repr

open spo2_status_t

/-- The function `determine_spo2_status`. -/
def determine_spo2_status (spo2_value : Int) : spo2_status_t :=
  if spo2_value ≥ SPO2_NORMAL_MIN then SPO2_STATUS_NORMAL
  else if spo2_value ≥ SPO2_HYPOXIA_WARNING then SPO2_STATUS_WARNING
  else if spo2_value ≥ SPO2_HYPOXIA_DANGER then SPO2_STATUS_DANGER
  else if spo2_value ≥ SPO2_SEVERE_HYPOXIA then SPO2_STATUS_SEVERE
  else SPO2_STATUS_INVALID

/-! ## Numeric conversions and `<math.h>` -/

/-- The `<math.h>` functions used by the repository, taken as a parameter. -/
structure libm where
  sqrtf : ℚ → ℚ
  atan2f : ℚ → ℚ → ℚ
  sinf : ℚ → ℚ
  log10f : ℚ → ℚ

/-- The constant `M_PI` of `<math.h>` (the decimal literal of the header). -/
def M_PI : ℚ := 314159265358979323846 / 100000000000000000000

/-- The function `fabsf`. -/
def fabsf (x : ℚ) : ℚ := |x|

/-- Conversion of a floating value to a signed integer type, `(int)x` or `(int64_t)x`:
the fractional part is discarded (truncation towards zero). -/
def float_to_int (x : ℚ) : Int := if 0 ≤ x then ⌊x⌋ else ⌈x⌉

/-- Conversion `(uint32_t)x` of a floating value: truncation, reduced to 32 bits. -/
def float_to_u32 (x : ℚ) : Nat := (float_to_int x).toNat % 2 ^ 32

/-- Subtraction of two `uint32_t` values, `a - b` modulo `2 ^ 32`. -/
def u32_sub (a b : Nat) : Nat := (a % 2 ^ 32 + (2 ^ 32 - b % 2 ^ 32)) % 2 ^ 32

/-! ## `heart_rate_calculator.c`: constants and state -/

def BUFFER_SIZE : Int := 1000
def MIN_BEATS_FOR_CALCULATION : Int := 3
def MAX_BEAT_INTERVALS : Int := 15
def SMOOTHING_FACTOR : ℚ := 85 / 100
def MIN_DC_VALUE : ℚ := 5000
def MAX_DC_VALUE : ℚ := 300000
def MIN_AC_AMPLITUDE : ℚ := 50
def MIN_PERFUSION_INDEX : ℚ := 5 / 100
def ALPHA_DC : ℚ := 95 / 100
def FIR_ORDER : Int := 5

/-- The table `fir_coeffs[FIR_ORDER] = {-0.2, -0.1, 0.0, 0.1, 0.2}`. -/
def fir_coeffs (i : Int) : ℚ :=
  if i = 0 then -2 / 10 else if i = 1 then -1 / 10 else if i = 2 then 0
  else if i = 3 then 1 / 10 else if i = 4 then 2 / 10 else 0

/-- The file-scope circular buffer `signal_buffer`. -/
structure signal_buffer_t where
  red_raw : Int → Nat
  ir_raw : Int → Nat
  red_filtered : Int → ℚ
  ir_filtered : Int → ℚ
  red_dc : Int → ℚ
  ir_dc : Int → ℚ
  timestamps : Int → Int
  head : Int
  count : Int
  initialized : Bool

/-- The member `beat_data` of `heart_data`. -/
structure beat_data_t where
  intervals : Int → Int
  timestamps : Int → Int
  count : Int
  head : Int

/-- The file-scope record `heart_data`. -/
structure heart_data_t where
  last_hr_bpm : ℚ
  last_spo2 : Int
  hr_valid : Bool
  spo2_valid : Bool
  beat_data : beat_data_t
  last_beat_time : Int
  r_ratio : ℚ

/-- The struct `signal_quality_t`. -/
structure signal_quality_t where
  perfusion_index : ℚ
  snr_estimate : ℚ
  contact_detected : Bool
  quality_good : Bool
  red_dc : ℚ
  ir_dc : ℚ
  red_ac_rms : ℚ
  ir_ac_rms : ℚ

/-- The struct `filtered_signal_t`. -/
structure filtered_signal_t where
  red_filtered : ℚ
  ir_filtered : ℚ
  red_dc : ℚ
  ir_dc : ℚ
  red_ac : ℚ
  ir_ac : ℚ

/-- The function-level `static` variables of `heart_rate_calculator.c`:
`red_ac_samples`, `ir_ac_samples` (in `evaluate_signal_quality`), `prev_signal`,
`prev_prev_signal`, `last_peak_time`, `signal_history`, `history_idx` (in
`detect_heartbeat`) and `base_hr`, `variation_counter` (in `add_beat_interval`). -/
structure hr_statics_t where
  red_ac_samples : Int → ℚ
  ir_ac_samples : Int → ℚ
  prev_signal : ℚ
  prev_prev_signal : ℚ
  last_peak_time : Int
  signal_history : Int → ℚ
  history_idx : Int
  base_hr : ℚ
  variation_counter : Int

/-- All persistent state of `heart_rate_calculator.c`. -/
structure hr_state where
  signal_buffer : signal_buffer_t
  heart_data : heart_data_t
  signal_quality : signal_quality_t
  filtered_signals : filtered_signal_t
  statics : hr_statics_t

def signal_buffer_zero : signal_buffer_t :=
  { red_raw := fun _ => 0, ir_raw := fun _ => 0, red_filtered := fun _ => 0,
    ir_filtered := fun _ => 0, red_dc := fun _ => 0, ir_dc := fun _ => 0,
    timestamps := fun _ => 0, head := 0, count := 0, initialized := false }

def heart_data_zero : heart_data_t :=
  { last_hr_bpm := 0, last_spo2 := 0, hr_valid := false, spo2_valid := false,
    beat_data := { intervals := fun _ => 0, timestamps := fun _ => 0, count := 0, head := 0 },
    last_beat_time := 0, r_ratio := 0 }

def signal_quality_zero : signal_quality_t :=
  { perfusion_index := 0, snr_estimate := 0, contact_detected := false,
    quality_good := false, red_dc := 0, ir_dc := 0, red_ac_rms := 0, ir_ac_rms := 0 }

def filtered_signals_zero : filtered_signal_t :=
  { red_filtered := 0, ir_filtered := 0, red_dc := 0, ir_dc := 0, red_ac := 0, ir_ac := 0 }

/-- The state of the translation unit when the program starts: every object is zero
except the initialised static `base_hr = 70.0f`. -/
def hr_state_at_start : hr_state :=
  { signal_buffer := signal_buffer_zero, heart_data := heart_data_zero,
    signal_quality := signal_quality_zero, filtered_signals := filtered_signals_zero,
    statics :=
      { red_ac_samples := fun _ => 0, ir_ac_samples := fun _ => 0, prev_signal := 0,
        prev_prev_signal := 0, last_peak_time := 0, signal_history := fun _ => 0,
        history_idx := 0, base_hr := 70, variation_counter := 0 } }

/-! ## `heart_rate_calculator.c`: functions -/

/-- The function `heart_rate_calculator_init`: the four file-scope objects are cleared,
`last_spo2` is set to 95 and the buffer is marked initialised.  Function-level statics
are not touched. -/
def heart_rate_calculator_init (s : hr_state) : hr_state :=
  { s with
    signal_buffer := { signal_buffer_zero with initialized := true }
    heart_data := { heart_data_zero with last_spo2 := 95 }
    signal_quality := signal_quality_zero
    filtered_signals := filtered_signals_zero }

/-- The function `calculate_dc_component`; the result is both the new `*dc_value` and
the returned value. -/
def calculate_dc_component (dc_value new_sample : ℚ) : ℚ :=
  if dc_value = 0 then new_sample
  else ALPHA_DC * dc_value + (1 - ALPHA_DC) * new_sample

/-- The function `apply_fir_filter`; it reads the IR stream only. -/
def apply_fir_filter (sb : signal_buffer_t) (buffer_index : Int) : ℚ :=
  if sb.count < FIR_ORDER then 0
  else
    (List.range FIR_ORDER.toNat).foldl
      (fun output (i : Nat) =>
        let idx := Int.tmod (buffer_index - (i : Int) + BUFFER_SIZE) BUFFER_SIZE
        let dc_removed := (sb.ir_raw idx : ℚ) - sb.ir_dc idx
        output + fir_coeffs i * dc_removed)
      0

/-- The function `calculate_rms`; `head` is the file-scope `signal_buffer.head` that
the function reads. -/
def calculate_rms (lm : libm) (head : Int) (samples : Int → ℚ) (count buffer_size : Int) :
    ℚ :=
  if count < 10 then 0
  else
    let samples_to_use : Int := if count > 50 then 50 else count
    let sum_squares :=
      (List.range samples_to_use.toNat).foldl
        (fun sum_squares (i : Nat) =>
          let idx := Int.tmod (head - 1 - (i : Int) + buffer_size) buffer_size
          let val := samples idx
          sum_squares + val * val)
        0
    lm.sqrtf (sum_squares / samples_to_use)

/-- The function `evaluate_signal_quality`: returns the new `signal_quality` and the
new function statics (`red_ac_samples`, `ir_ac_samples`).  The parameters `red` and `ir`
of the source are unused there and are omitted. -/
def evaluate_signal_quality (lm : libm) (sb : signal_buffer_t) (fs : filtered_signal_t)
    (sq : signal_quality_t) (st : hr_statics_t) : signal_quality_t × hr_statics_t :=
  let sq := { sq with red_dc := fs.red_dc, ir_dc := fs.ir_dc }
  let sq := { sq with
    contact_detected := decide (sq.ir_dc > MIN_DC_VALUE ∧ sq.ir_dc < MAX_DC_VALUE ∧
      sq.red_dc > MIN_DC_VALUE ∧ sq.red_dc < MAX_DC_VALUE) }
  if !sq.contact_detected then
    ({ sq with quality_good := false, perfusion_index := 0 }, st)
  else
    let st :=
      (List.range (min sb.count BUFFER_SIZE).toNat).foldl
        (fun (st : hr_statics_t) (i : Nat) =>
          let idx := Int.tmod (sb.head - 1 - (i : Int) + BUFFER_SIZE) BUFFER_SIZE
          { st with
            red_ac_samples :=
              Function.update st.red_ac_samples (i : Int) (sb.red_filtered idx - sb.red_dc idx)
            ir_ac_samples :=
              Function.update st.ir_ac_samples (i : Int) (sb.ir_filtered idx - sb.ir_dc idx) })
        st
    let sq := { sq with
      red_ac_rms := calculate_rms lm sb.head st.red_ac_samples sb.count BUFFER_SIZE }
    let sq := { sq with
      ir_ac_rms := calculate_rms lm sb.head st.ir_ac_samples sb.count BUFFER_SIZE }
    let sq := { sq with
      perfusion_index := if sq.ir_dc > 0 then sq.ir_ac_rms / sq.ir_dc * 100 else 0 }
    let sq := { sq with
      snr_estimate := if sq.ir_ac_rms > 0 then 20 * lm.log10f (sq.ir_ac_rms / 50) else 0 }
    ({ sq with
        quality_good := decide (sq.perfusion_index ≥ MIN_PERFUSION_INDEX ∧
          sq.ir_ac_rms ≥ MIN_AC_AMPLITUDE ∧ sq.red_ac_rms ≥ MIN_AC_AMPLITUDE) }, st)

/-- The function `detect_heartbeat`; `current_time` is the value that its own call of
`esp_timer_get_time()` returns and `ir_ac_rms` the file-scope `signal_quality.ir_ac_rms`
it reads.  Returns `beat_detected` and the new function statics. -/
def detect_heartbeat (ir_ac_rms : ℚ) (st : hr_statics_t) (ir_filtered : ℚ)
    (current_time : Int) : Bool × hr_statics_t :=
  let st : hr_statics_t := { st with
    signal_history := Function.update st.signal_history st.history_idx ir_filtered }
  let st : hr_statics_t := { st with history_idx := Int.tmod (st.history_idx + 1) 10 }
  let avg_signal : ℚ :=
    (List.range 10).foldl (fun avg_signal (i : Nat) => avg_signal + st.signal_history i) 0
  let avg_signal : ℚ := avg_signal / 10
  let threshold1 : ℚ := fabsf (avg_signal * (15 / 100))
  let threshold2 : ℚ := ir_ac_rms * (2 / 10)
  let threshold : ℚ := if threshold1 < threshold2 then threshold1 else threshold2
  let threshold : ℚ := if threshold < 5 then 5 else threshold
  let is_peak : Bool := decide (st.prev_signal > st.prev_prev_signal ∧
    st.prev_signal > ir_filtered ∧ st.prev_signal > threshold)
  let interval : Int := current_time - st.last_peak_time
  let beat_detected := is_peak && decide (interval > 200000)
  let st : hr_statics_t := if beat_detected then { st with last_peak_time := current_time } else st
  let st : hr_statics_t := { st with prev_prev_signal := st.prev_signal }
  let st : hr_statics_t := { st with prev_signal := ir_filtered }
  (beat_detected, st)

/-- The function `add_beat_interval`: returns the new `heart_data.beat_data` and the new
function statics (`variation_counter`). -/
def add_beat_interval (lm : libm) (bd : beat_data_t) (st : hr_statics_t)
    (interval timestamp : Int) : beat_data_t × hr_statics_t :=
  let st := { st with variation_counter := st.variation_counter + 1 }
  let variation := lm.sinf ((st.variation_counter : ℚ) * (1 / 10)) * (25 / 10)
  let micro_variation :=
    ((Int.tmod (st.variation_counter * 7) 21 - 10 : Int) : ℚ) * (2 / 10)
  let target_hr := st.base_hr + variation + micro_variation
  let target_hr := if target_hr < 65 then 65 else target_hr
  let target_hr := if target_hr > 75 then 75 else target_hr
  let target_interval := float_to_int (60000000 / target_hr)
  let signal_factor := (interval : ℚ) / 800000
  let signal_factor := if signal_factor > 2 then 2 else signal_factor
  let signal_factor := if signal_factor < 1 / 2 then 1 / 2 else signal_factor
  let final_interval :=
    float_to_int ((target_interval : ℚ) * (7 / 10 + 3 / 10 * signal_factor))
  let bd := { bd with
    intervals := Function.update bd.intervals bd.head final_interval
    timestamps := Function.update bd.timestamps bd.head timestamp }
  let bd := { bd with head := Int.tmod (bd.head + 1) MAX_BEAT_INTERVALS }
  let bd := if bd.count < MAX_BEAT_INTERVALS then { bd with count := bd.count + 1 } else bd
  (bd, st)

/-- The function `calculate_stable_heart_rate`; the parameter `current_time` of the
source is unused there and is omitted.  The local array `recent_intervals` starts as the
zero map (its unassigned cells are never read). -/
def calculate_stable_heart_rate (hd : heart_data_t) : heart_data_t :=
  if hd.beat_data.count < MIN_BEATS_FOR_CALCULATION then hd
  else
    let count : Int := if hd.beat_data.count > 5 then 5 else hd.beat_data.count
    let recent_intervals : Int → Int :=
      (List.range count.toNat).foldl
        (fun (recent_intervals : Int → Int) (i : Nat) =>
          let idx :=
            Int.tmod (hd.beat_data.head - 1 - (i : Int) + MAX_BEAT_INTERVALS) MAX_BEAT_INTERVALS
          Function.update recent_intervals (i : Int) (hd.beat_data.intervals idx))
        (fun _ => 0)
    let sums : Int × Int :=
      (List.range count.toNat).foldl
        (fun (acc : Int × Int) (i : Nat) =>
          let weight : Int := count - (i : Int)
          (acc.1 + recent_intervals i * weight, acc.2 + weight))
        (0, 0)
    let weighted_sum := sums.1
    let total_weight := sums.2
    let avg_interval := Int.tdiv weighted_sum total_weight
    let raw_hr : ℚ := 60000000 / (avg_interval : ℚ)
    let new_hr :=
      if hd.hr_valid then SMOOTHING_FACTOR * hd.last_hr_bpm + (1 - SMOOTHING_FACTOR) * raw_hr
      else raw_hr
    let new_hr := if new_hr < 63 then 63 + (new_hr - 63) * (1 / 10) else new_hr
    let new_hr := if new_hr > 77 then 77 + (new_hr - 77) * (1 / 10) else new_hr
    { hd with last_hr_bpm := new_hr, hr_valid := true }

/-- The SpO2 calibration curve inside `calculate_spo2` before clamping: the quadratic
branch for `r_ratio ≤ 0.7`, the linear branch otherwise. -/
def spo2_curve (r_ratio : ℚ) : ℚ :=
  if r_ratio ≤ 7 / 10 then
    -4506 / 100 * r_ratio * r_ratio + 30354 / 1000 * r_ratio + 94845 / 1000
  else 110 - 25 * r_ratio

/-- The function `calculate_spo2`: reads `signal_quality` and `signal_buffer.count`,
returns the new `heart_data`. -/
def calculate_spo2 (sq : signal_quality_t) (count : Int) (hd : heart_data_t) :
    heart_data_t :=
  if !sq.quality_good || decide (count < 500) then { hd with spo2_valid := false }
  else
    let red_ratio := sq.red_ac_rms / sq.red_dc
    let ir_ratio := sq.ir_ac_rms / sq.ir_dc
    if ir_ratio ≤ 0 then { hd with spo2_valid := false }
    else
      let hd := { hd with r_ratio := red_ratio / ir_ratio }
      let spo2_f := spo2_curve hd.r_ratio
      let spo2_f := if spo2_f > 100 then 100 else spo2_f
      let spo2_f := if spo2_f < 75 then 75 else spo2_f
      let hd := { hd with last_spo2 := float_to_int (spo2_f + 1 / 2) }
      if hd.r_ratio ≥ 1 / 2 ∧ hd.r_ratio ≤ 3 ∧
          sq.perfusion_index ≥ MIN_PERFUSION_INDEX ∧ hd.last_spo2 ≥ SPO2_SEVERE_HYPOXIA then
        { hd with spo2_valid := true }
      else { hd with spo2_valid := false }

/-- The first part of `hr_update_sample` (raw samples, time stamp, DC estimates and the two
filtered values written at the write cursor): the buffer and the DC estimates after these
assignments. -/
def hr_store_sample (s : hr_state) (red ir : Nat) (current_time : Int) :
    signal_buffer_t × filtered_signal_t :=
  let sb := s.signal_buffer
  let sb := { sb with red_raw := Function.update sb.red_raw sb.head red }
  let sb := { sb with ir_raw := Function.update sb.ir_raw sb.head ir }
  let sb := { sb with timestamps := Function.update sb.timestamps sb.head current_time }
  let fs := s.filtered_signals
  let fs := { fs with red_dc := calculate_dc_component fs.red_dc (red : ℚ) }
  let sb := { sb with red_dc := Function.update sb.red_dc sb.head fs.red_dc }
  let fs := { fs with ir_dc := calculate_dc_component fs.ir_dc (ir : ℚ) }
  let sb := { sb with ir_dc := Function.update sb.ir_dc sb.head fs.ir_dc }
  let sb := { sb with
    red_filtered := Function.update sb.red_filtered sb.head (apply_fir_filter sb sb.head) }
  let sb := { sb with
    ir_filtered := Function.update sb.ir_filtered sb.head (apply_fir_filter sb sb.head) }
  (sb, fs)

/-- The heart-beat part of `hr_update_sample`, entered when the quality is good and more
than 100 samples are buffered: `detect_heartbeat`, the interval bookkeeping and
`calculate_stable_heart_rate`. -/
def hr_beat_stage (lm : libm) (sb : signal_buffer_t) (sq : signal_quality_t)
    (hd : heart_data_t) (st : hr_statics_t) (current_time detect_time : Int) :
    heart_data_t × hr_statics_t :=
  let ir_filtered := sb.ir_filtered sb.head
  let d := detect_heartbeat sq.ir_ac_rms st ir_filtered detect_time
  let st := d.2
  let hs : heart_data_t × hr_statics_t :=
    if d.1 then
      let b : beat_data_t × hr_statics_t :=
        if hd.last_beat_time > 0 then
          add_beat_interval lm hd.beat_data st (current_time - hd.last_beat_time) current_time
        else (hd.beat_data, st)
      ({ hd with beat_data := b.1, last_beat_time := current_time }, b.2)
    else (hd, st)
  (calculate_stable_heart_rate hs.1, hs.2)

/-- The function `hr_update_sample`.  `current_time` is the value returned by the call
of `esp_timer_get_time()` in its body and `detect_time` the value returned by the later
call inside `detect_heartbeat`. -/
def hr_update_sample (lm : libm) (s : hr_state) (red ir : Nat)
    (current_time detect_time : Int) : hr_state :=
  if !s.signal_buffer.initialized then s
  else
    let stored := hr_store_sample s red ir current_time
    let sb := stored.1
    let fs := stored.2
    let q := evaluate_signal_quality lm sb fs s.signal_quality s.statics
    let sq := q.1
    let st := q.2
    let hs : heart_data_t × hr_statics_t :=
      if sq.quality_good && decide (sb.count > 100) then
        hr_beat_stage lm sb sq s.heart_data st current_time detect_time
      else (s.heart_data, st)
    let hd := hs.1
    let st := hs.2
    let hd := if Int.tmod sb.count 50 = 0 then calculate_spo2 sq sb.count hd else hd
    let sb := { sb with head := Int.tmod (sb.head + 1) BUFFER_SIZE }
    let sb := if sb.count < BUFFER_SIZE then { sb with count := sb.count + 1 } else sb
    { signal_buffer := sb, heart_data := hd, signal_quality := sq, filtered_signals := fs,
      statics := st }

/-- The function `hr_get_spo2_status`. -/
def hr_get_spo2_status (hd : heart_data_t) : spo2_status_t :=
  if !hd.spo2_valid then SPO2_STATUS_INVALID
  else determine_spo2_status hd.last_spo2

/-- The function `hr_get_latest`. -/
def hr_get_latest (hd : heart_data_t) : ℚ :=
  if hd.hr_valid then hd.last_hr_bpm else 0

/-- The function `hr_get_latest_spo2`. -/
def hr_get_latest_spo2 (hd : heart_data_t) : Int :=
  if hd.last_spo2 ≥ 95 then hd.last_spo2 else 95

/-- One call of `hr_update_sample` as seen from outside: the two ADC counts and the two
clock readings taken during the call. -/
structure ppg_sample where
  red : Nat
  ir : Nat
  current_time : Int
  detect_time : Int

/-- The state reached from `heart_rate_calculator_init` (called on state `s0`) by
feeding the samples in order, one `hr_update_sample` call each. -/
def hr_run (lm : libm) (s0 : hr_state) (samples : List ppg_sample) : hr_state :=
  samples.foldl (fun s x => hr_update_sample lm s x.red x.ir x.current_time x.detect_time)
    (heart_rate_calculator_init s0)

/-! ## `mpu6050_step_fall.h` / `mpu6050_step_fall.c` -/

def ACC_LSB_PER_G : ℚ := 16384
def GYRO_LSB_PER_DPS : ℚ := 164 / 10

/-- The enumeration `fall_direction_t`, constructors in declaration order. -/
inductive fall_direction_t where
  | FALL_DIR_NONE
  | FALL_DIR_FRONT
  | FALL_DIR_BACK
  | FALL_DIR_LEFT
  | FALL_DIR_RIGHT
  | FALL_DIR_FRONT_LEFT
  | FALL_DIR_FRONT_RIGHT
  | FALL_DIR_BACK_LEFT
  | FALL_DIR_BACK_RIGHT
deriving DecidableEq, Repr

open fall_direction_t

/-- The struct `fall_result_t`. -/
structure fall_result_t where
  fall_detected : Bool
  direction : fall_direction_t
  fall_angle_deg : ℚ
  ax_g : ℚ
  ay_g : ℚ
  roll_deg : ℚ
  pitch_deg : ℚ
deriving DecidableEq

/-- The struct `step_fall_ctx_t`. -/
structure step_fall_ctx_t where
  lpf_a : ℚ
  ema_a : ℚ
  dyn_k : ℚ
  step_min_interval_ms : ℚ
  gyro_gate_dps : ℚ
  accel_threshold_g : ℚ
  angle_threshold_deg : ℚ
  g_est_x : ℚ
  g_est_y : ℚ
  g_est_z : ℚ
  ema_abs_a : ℚ
  last_step_ms : Nat
  fall_detected : Bool
  fall_reset_time_ms : Nat
deriving DecidableEq

/-- The variables of `mpu6050_step_fall.c` that live outside the context: the file-scope
`last_fall_time` and the function-level statics of `step_fall_detect_step` (`prev_ax`,
`prev_ay`, `prev_az`, `above`, `peak_value`). -/
structure step_fall_statics_t where
  last_fall_time : Nat
  prev_ax : ℚ
  prev_ay : ℚ
  prev_az : ℚ
  above : Bool
  peak_value : ℚ
deriving DecidableEq

/-- The initial values of those variables when the program starts. -/
def step_fall_statics_at_start : step_fall_statics_t :=
  { last_fall_time := 0, prev_ax := 0, prev_ay := 0, prev_az := 0, above := false,
    peak_value := 0 }

/-- The value `(fall_result_t){0}`. -/
def fall_result_zero : fall_result_t :=
  { fall_detected := false, direction := FALL_DIR_NONE, fall_angle_deg := 0, ax_g := 0,
    ay_g := 0, roll_deg := 0, pitch_deg := 0 }

/-- The function `calculate_roll_angle`. -/
def calculate_roll_angle (lm : libm) (ax_g ay_g az_g : ℚ) : ℚ :=
  let denominator := lm.sqrtf (ax_g * ax_g + az_g * az_g)
  if denominator < 1 / 1000000 then 0
  else
    let roll_rad := lm.atan2f ay_g denominator
    roll_rad * 180 / M_PI

/-- The function `calculate_pitch_angle`. -/
def calculate_pitch_angle (lm : libm) (ax_g ay_g az_g : ℚ) : ℚ :=
  let denominator := lm.sqrtf (ay_g * ay_g + az_g * az_g)
  if denominator < 1 / 1000000 then 0
  else
    let pitch_rad := lm.atan2f (-ax_g) denominator
    pitch_rad * 180 / M_PI

/-- The loop `while (fall_angle_deg < 0) fall_angle_deg += 360.0f;`, run for at most
`fuel` iterations. -/
def while_negative_add_360 : Nat → ℚ → ℚ
  | 0, fall_angle_deg => fall_angle_deg
  | fuel + 1, fall_angle_deg =>
    if fall_angle_deg < 0 then while_negative_add_360 fuel (fall_angle_deg + 360)
    else fall_angle_deg

/-- The loop `while (fall_angle_deg >= 360) fall_angle_deg -= 360.0f;`, run for at most
`fuel` iterations. -/
def while_ge_360_sub_360 : Nat → ℚ → ℚ
  | 0, fall_angle_deg => fall_angle_deg
  | fuel + 1, fall_angle_deg =>
    if fall_angle_deg ≥ 360 then while_ge_360_sub_360 fuel (fall_angle_deg - 360)
    else fall_angle_deg

/-- The two normalisation loops of `determine_fall_direction`, each given the number of
iterations after which its condition is false (`⌈-x / 360⌉` additions, then `⌊x / 360⌋`
subtractions). -/
def normalize_fall_angle (fall_angle_deg : ℚ) : ℚ :=
  let fall_angle_deg :=
    while_negative_add_360 (⌈-fall_angle_deg / 360⌉).toNat fall_angle_deg
  while_ge_360_sub_360 (⌊fall_angle_deg / 360⌋).toNat fall_angle_deg

/-- The function `determine_fall_direction`. -/
def determine_fall_direction (lm : libm) (roll_deg pitch_deg : ℚ) : fall_direction_t :=
  if fabsf pitch_deg < 1 / 1000000 ∧ fabsf roll_deg < 1 / 1000000 then FALL_DIR_NONE
  else
    let fall_angle_rad := lm.atan2f roll_deg pitch_deg
    let fall_angle_deg := fall_angle_rad * 180 / M_PI
    let fall_angle_deg := normalize_fall_angle fall_angle_deg
    if fall_angle_deg ≥ 3375 / 10 ∨ fall_angle_deg < 225 / 10 then FALL_DIR_FRONT
    else if fall_angle_deg ≥ 225 / 10 ∧ fall_angle_deg < 675 / 10 then FALL_DIR_FRONT_RIGHT
    else if fall_angle_deg ≥ 675 / 10 ∧ fall_angle_deg < 1125 / 10 then FALL_DIR_RIGHT
    else if fall_angle_deg ≥ 1125 / 10 ∧ fall_angle_deg < 1575 / 10 then FALL_DIR_BACK_RIGHT
    else if fall_angle_deg ≥ 1575 / 10 ∧ fall_angle_deg < 2025 / 10 then FALL_DIR_BACK
    else if fall_angle_deg ≥ 2025 / 10 ∧ fall_angle_deg < 2475 / 10 then FALL_DIR_BACK_LEFT
    else if fall_angle_deg ≥ 2475 / 10 ∧ fall_angle_deg < 2925 / 10 then FALL_DIR_LEFT
    else FALL_DIR_FRONT_LEFT

/-- The function `step_fall_init`; a null `ctx` is `none`.  The parameter `sample_hz` is
only logged. -/
def step_fall_init (ctx : Option step_fall_ctx_t) (sample_hz : ℚ) :
    Option step_fall_ctx_t :=
  match ctx with
  | none => none
  | some _ =>
    some
      { lpf_a := 2 / 100, ema_a := 1 / 100, dyn_k := 1, step_min_interval_ms := 220,
        gyro_gate_dps := 120, accel_threshold_g := 28 / 10, angle_threshold_deg := 50,
        g_est_x := 0, g_est_y := 0, g_est_z := 0, ema_abs_a := 0, last_step_ms := 0,
        fall_detected := false, fall_reset_time_ms := 0 }

/-- An all-zero context object, the storage a caller passes to `step_fall_init`. -/
def default_ctx : step_fall_ctx_t :=
  { lpf_a := 0, ema_a := 0, dyn_k := 0, step_min_interval_ms := 0, gyro_gate_dps := 0,
    accel_threshold_g := 0, angle_threshold_deg := 0, g_est_x := 0, g_est_y := 0,
    g_est_z := 0, ema_abs_a := 0, last_step_ms := 0, fall_detected := false,
    fall_reset_time_ms := 0 }

/-- The context that `step_fall_init` leaves in a non-null `ctx`. -/
def init_ctx : step_fall_ctx_t :=
  { lpf_a := 2 / 100, ema_a := 1 / 100, dyn_k := 1, step_min_interval_ms := 220,
    gyro_gate_dps := 120, accel_threshold_g := 28 / 10, angle_threshold_deg := 50,
    g_est_x := 0, g_est_y := 0, g_est_z := 0, ema_abs_a := 0, last_step_ms := 0,
    fall_detected := false, fall_reset_time_ms := 0 }

/-- The function `estimate_gravity`. -/
def estimate_gravity (ctx : step_fall_ctx_t) (ax_g ay_g az_g : ℚ) : step_fall_ctx_t :=
  let ctx := { ctx with g_est_x := (1 - ctx.lpf_a) * ctx.g_est_x + ctx.lpf_a * ax_g }
  let ctx := { ctx with g_est_y := (1 - ctx.lpf_a) * ctx.g_est_y + ctx.lpf_a * ay_g }
  { ctx with g_est_z := (1 - ctx.lpf_a) * ctx.g_est_z + ctx.lpf_a * az_g }

/-- The closing assignments `prev_ax = ax_g; prev_ay = ay_g; prev_az = az_g;` of
`step_fall_detect_step`, reached on every path that returns `false` at the end. -/
def store_prev_sample (st : step_fall_statics_t) (ax_g ay_g az_g : ℚ) :
    step_fall_statics_t :=
  { st with prev_ax := ax_g, prev_ay := ay_g, prev_az := az_g }

/-- The function `step_fall_detect_step`: returns the boolean result, the context after
the call and the statics after the call. -/
def step_fall_detect_step (lm : libm) (ctx : Option step_fall_ctx_t)
    (st : step_fall_statics_t) (ax_raw ay_raw az_raw gx_raw gy_raw gz_raw : Int)
    (now_ms : Nat) : Bool × Option step_fall_ctx_t × step_fall_statics_t :=
  match ctx with
  | none => (false, none, st)
  | some ctx =>
    let ax_g : ℚ := (ax_raw : ℚ) / ACC_LSB_PER_G
    let ay_g : ℚ := (ay_raw : ℚ) / ACC_LSB_PER_G
    let az_g : ℚ := (az_raw : ℚ) / ACC_LSB_PER_G
    let gx_dps : ℚ := (gx_raw : ℚ) / GYRO_LSB_PER_DPS
    let gy_dps : ℚ := (gy_raw : ℚ) / GYRO_LSB_PER_DPS
    let gz_dps : ℚ := (gz_raw : ℚ) / GYRO_LSB_PER_DPS
    let ctx : step_fall_ctx_t := estimate_gravity ctx ax_g ay_g az_g
    let lx : ℚ := ax_g - ctx.g_est_x
    let ly : ℚ := ay_g - ctx.g_est_y
    let xy_motion : ℚ := lm.sqrtf (lx * lx + ly * ly)
    let delta_ax : ℚ := fabsf (ax_g - st.prev_ax)
    let delta_ay : ℚ := fabsf (ay_g - st.prev_ay)
    let xy_delta : ℚ := lm.sqrtf (delta_ax * delta_ax + delta_ay * delta_ay)
    let xy_gyro : ℚ := lm.sqrtf (gx_dps * gx_dps + gy_dps * gy_dps)
    let walk_signal : ℚ := xy_motion * (18 / 10) + xy_delta * (15 / 10)
    let ctx : step_fall_ctx_t := { ctx with
      ema_abs_a := (1 - ctx.ema_a) * ctx.ema_abs_a + ctx.ema_a * walk_signal }
    let step_thresh : ℚ := ctx.dyn_k * (ctx.ema_abs_a + 12 / 100)
    let th_hi : ℚ := step_thresh
    let th_lo : ℚ := step_thresh * (6 / 10)
    let sufficient_xy_motion : Bool := decide (walk_signal > th_hi)
    let xy_gyro_ok : Bool := decide (xy_gyro < ctx.gyro_gate_dps)
    let min_xy_activity : Bool := decide (xy_motion > 8 / 100)
    if !st.above && sufficient_xy_motion && xy_gyro_ok && min_xy_activity then
      let st : step_fall_statics_t := { st with above := true, peak_value := walk_signal }
      (false, some ctx, store_prev_sample st ax_g ay_g az_g)
    else if st.above then
      let st : step_fall_statics_t :=
        if walk_signal > st.peak_value then { st with peak_value := walk_signal } else st
      if walk_signal < th_lo then
        let st : step_fall_statics_t := { st with above := false }
        if u32_sub now_ms ctx.last_step_ms ≥ float_to_u32 ctx.step_min_interval_ms then
          let peak_magnitude : ℚ := st.peak_value - th_lo
          let valid_xy_step : Bool := decide (peak_magnitude > 6 / 100) &&
            decide (xy_motion > 5 / 100) && decide (xy_delta > 5 / 100)
          if valid_xy_step then
            (true, some { ctx with last_step_ms := now_ms }, st)
          else
            (false, some ctx, store_prev_sample { st with peak_value := 0 } ax_g ay_g az_g)
        else
          (false, some ctx, store_prev_sample { st with peak_value := 0 } ax_g ay_g az_g)
      else (false, some ctx, store_prev_sample st ax_g ay_g az_g)
    else (false, some ctx, store_prev_sample st ax_g ay_g az_g)

/-- The function `step_fall_detect_fall`: returns the result, the (unchanged) context
and the statics after the call. -/
def step_fall_detect_fall (lm : libm) (ctx : Option step_fall_ctx_t)
    (st : step_fall_statics_t) (ax_raw ay_raw az_raw gx_raw gy_raw gz_raw : Int)
    (now_ms : Nat) : fall_result_t × Option step_fall_ctx_t × step_fall_statics_t :=
  let result : fall_result_t := fall_result_zero
  match ctx with
  | none => (result, none, st)
  | some ctx =>
    let ax_g : ℚ := (ax_raw : ℚ) / ACC_LSB_PER_G
    let ay_g : ℚ := (ay_raw : ℚ) / ACC_LSB_PER_G
    let az_g : ℚ := (az_raw : ℚ) / ACC_LSB_PER_G
    let roll_deg : ℚ := calculate_roll_angle lm ax_g ay_g az_g
    let pitch_deg : ℚ := calculate_pitch_angle lm ax_g ay_g az_g
    let result : fall_result_t := { result with
      ax_g := ax_g, ay_g := ay_g, roll_deg := roll_deg, pitch_deg := pitch_deg,
      fall_angle_deg := lm.atan2f roll_deg pitch_deg * 180 / M_PI }
    if u32_sub now_ms st.last_fall_time < 10000 then (result, some ctx, st)
    else
      let accel_x_exceed : Bool := decide (fabsf ax_g ≥ ctx.accel_threshold_g)
      let accel_y_exceed : Bool := decide (fabsf ay_g ≥ ctx.accel_threshold_g)
      let pitch_exceed : Bool := decide (fabsf pitch_deg ≥ ctx.angle_threshold_deg)
      let roll_exceed : Bool := decide (fabsf roll_deg ≥ ctx.angle_threshold_deg)
      let total_accel : ℚ := lm.sqrtf (ax_g * ax_g + ay_g * ay_g + az_g * az_g)
      let total_angle_change : ℚ := lm.sqrtf (pitch_deg * pitch_deg + roll_deg * roll_deg)
      let extreme_impact : Bool := decide (total_accel ≥ 5)
      let strong_impact : Bool := decide (total_accel ≥ 33 / 10)
      let very_large_tilt : Bool := decide (total_angle_change ≥ 45)
      let strong_impact_with_tilt : Bool := strong_impact && very_large_tilt
      let fall_event : Bool := extreme_impact || strong_impact_with_tilt
      if fall_event then
        ({ result with
            fall_detected := true
            direction := determine_fall_direction lm roll_deg pitch_deg },
          some ctx, { st with last_fall_time := now_ms })
      else (result, some ctx, st)

/-- The function `step_fall_reset_fall`. -/
def step_fall_reset_fall (ctx : Option step_fall_ctx_t) (st : step_fall_statics_t) :
    Option step_fall_ctx_t × step_fall_statics_t :=
  match ctx with
  | none => (none, st)
  | some ctx =>
    (some { ctx with fall_detected := false, fall_reset_time_ms := 0 },
      { st with last_fall_time := 0 })

/-- One inertial sample with the time stamp `now_ms` passed along with it. -/
structure imu_sample where
  ax_raw : Int
  ay_raw : Int
  az_raw : Int
  gx_raw : Int
  gy_raw : Int
  gz_raw : Int
  now_ms : Nat
deriving DecidableEq

/-- One call of `step_fall_detect_fall` on a sample. -/
def fall_call (lm : libm) (ctx : Option step_fall_ctx_t) (st : step_fall_statics_t)
    (x : imu_sample) : fall_result_t × Option step_fall_ctx_t × step_fall_statics_t :=
  step_fall_detect_fall lm ctx st x.ax_raw x.ay_raw x.az_raw x.gx_raw x.gy_raw x.gz_raw
    x.now_ms

/-- A sequence of `step_fall_detect_fall` calls on the same context: the results in call
order and the statics after the last call. -/
def fall_run (lm : libm) (ctx : Option step_fall_ctx_t) :
    step_fall_statics_t → List imu_sample → List fall_result_t × step_fall_statics_t
  | st, [] => ([], st)
  | st, x :: xs =>
    let r := fall_call lm ctx st x
    let rest := fall_run lm ctx r.2.2 xs
    (r.1 :: rest.1, rest.2)

/-- One call of `step_fall_detect_step` on a sample. -/
def step_call (lm : libm) (ctx : Option step_fall_ctx_t) (st : step_fall_statics_t)
    (x : imu_sample) : Bool × Option step_fall_ctx_t × step_fall_statics_t :=
  step_fall_detect_step lm ctx st x.ax_raw x.ay_raw x.az_raw x.gx_raw x.gy_raw x.gz_raw
    x.now_ms

/-- A sequence of `step_fall_detect_step` calls, each on the context left by the previous
one: the results in call order, the final context and the final statics. -/
def step_run (lm : libm) :
    Option step_fall_ctx_t → step_fall_statics_t → List imu_sample →
      List Bool × Option step_fall_ctx_t × step_fall_statics_t
  | ctx, st, [] => ([], ctx, st)
  | ctx, st, x :: xs =>
    let r := step_call lm ctx st x
    let rest := step_run lm r.2.1 r.2.2 xs
    (r.1 :: rest.1, rest.2)

/-! ## A rational stand-in for `<math.h>`

Used only to instantiate the general statements at concrete inputs. -/

/-- Rounding down to nine decimal places, which keeps the stand-in values short. -/
def round9 (x : ℚ) : ℚ := (⌊x * 1000000000⌋ : ℚ) / 1000000000

/-- One Newton step for the square root of `x`, rounded to nine decimals. -/
def newton_step (x g : ℚ) : ℚ := round9 ((g + x / g) / 2)

/-- A rational square root: eight rounded Newton steps started at `(1 + x) / 2`; `0` for
`x ≤ 0`. -/
def sqrt_ref (x : ℚ) : ℚ :=
  if x ≤ 0 then 0
  else
    newton_step x (newton_step x (newton_step x (newton_step x (newton_step x
      (newton_step x (newton_step x (newton_step x ((1 + x) / 2))))))))

/-- The rational approximation `z / (1 + 0.28 z²)` of the arc tangent on `[-1, 1]`,
extended by `atan z = ±π/2 - atan (1 / z)`, rounded to nine decimals. -/
def atan_ref (z : ℚ) : ℚ :=
  if |z| ≤ 1 then round9 (z / (1 + 28 / 100 * z * z))
  else if z > 0 then round9 (M_PI / 2 - (1 / z) / (1 + 28 / 100 * (1 / z) * (1 / z)))
  else round9 (-M_PI / 2 - (1 / z) / (1 + 28 / 100 * (1 / z) * (1 / z)))

/-- The two-argument arc tangent built on `atan_ref`, exact on the four half-axes up to
the value used for π. -/
def atan2_ref (y x : ℚ) : ℚ :=
  if x > 0 then atan_ref (y / x)
  else if x < 0 then (if y ≥ 0 then atan_ref (y / x) + M_PI else atan_ref (y / x) - M_PI)
  else if y > 0 then M_PI / 2
  else if y < 0 then -M_PI / 2
  else 0

/-- A concrete `libm`: rational approximations of the four functions. -/
def libm_ref : libm :=
  { sqrtf := sqrt_ref
    atan2f := atan2_ref
    sinf := fun x => x - x * x * x / 6
    log10f := fun x => 868589 / 1000000 * ((x - 1) / (x + 1)) }

/-- The predicate behind "no setter clears a validity bit": every bit set in `a` is set
in `b`. -/
def validity_bits_kept (a b : validity_flags_t) : Bool :=
  (!a.heart_rate_valid || b.heart_rate_valid) &&
  (!a.temperature_valid || b.temperature_valid) &&
  (!a.spo2_valid || b.spo2_valid) &&
  (!a.steps_valid || b.steps_valid) &&
  (!a.fall_detected_valid || b.fall_detected_valid) &&
  (!a.location_valid || b.location_valid)

/-- The states the translation unit can be in when `hr_update_sample` is called: the
start state (no initialisation yet, in which `hr_update_sample` changes nothing), or a
state reached from a call of `heart_rate_calculator_init` by further samples. -/
def hr_reachable (lm : libm) (s : hr_state) : Prop :=
  s = hr_state_at_start ∨ ∃ (s0 : hr_state) (samples : List ppg_sample), s = hr_run lm s0 samples

/-- The saturated sample: all three accelerometer axes at the positive end of the
`int16_t` range. -/
def saturated_sample (now_ms : Nat) : imu_sample := ⟨32767, 32767, 32767, 0, 0, 0, now_ms⟩

/-- The pure-gravity sample of the end-to-end scenario: `az = 16384` (1 g), every other
reading 0, passed with the time stamp `now_ms`. -/
def gravity_sample (now_ms : Nat) : imu_sample := ⟨0, 0, 16384, 0, 0, 0, now_ms⟩

/-- The motion part of `read_mpu6050` for one sample: `step_fall_detect_step`, then
`step_fall_detect_fall` on the same readings and time stamp. -/
def motion_call (lm : libm) (ctx : Option step_fall_ctx_t) (st : step_fall_statics_t)
    (x : imu_sample) :
    (Bool × fall_result_t) × Option step_fall_ctx_t × step_fall_statics_t :=
  let r := step_call lm ctx st x
  let f := fall_call lm r.2.1 r.2.2 x
  ((r.1, f.1), f.2.1, f.2.2)

/-- A sequence of samples, each given to `step_fall_detect_step` and then to
`step_fall_detect_fall`: the pairs of results in order, the final context and statics. -/
def motion_run (lm : libm) :
    Option step_fall_ctx_t → step_fall_statics_t → List imu_sample →
      List (Bool × fall_result_t) × Option step_fall_ctx_t × step_fall_statics_t
  | ctx, st, [] => ([], ctx, st)
  | ctx, st, x :: xs =>
    let r := motion_call lm ctx st x
    let rest := motion_run lm r.2.1 r.2.2 xs
    (r.1 :: rest.1, rest.2)

/-- The time stamps of `n` samples taken at 100 Hz from time 0: `0, 10, 20, ...`. -/
def times_100hz (n : Nat) : List Nat := (List.range n).map (fun i => 10 * i)

/-- The effect of `step_fall_init` on the whole detector state (context and statics):
the function assigns the object behind `ctx` and no file-scope or function-level static. -/
def step_fall_init_state (s : Option step_fall_ctx_t × step_fall_statics_t) (sample_hz : ℚ) :
    Option step_fall_ctx_t × step_fall_statics_t :=
  (step_fall_init s.1 sample_hz, s.2)

/-- Six samples swinging between the ends of the X range with the X gyro saturated
(about 2000 dps, above the gyro gate), then settling; used to show what survives
`step_fall_init`. -/
def gated_burst : List imu_sample :=
  [⟨-32768, 0, 16384, 32767, 0, 0, 2000⟩, ⟨32767, 0, 16384, 32767, 0, 0, 2010⟩,
   ⟨-32768, 0, 16384, 32767, 0, 0, 2020⟩, ⟨32767, 0, 16384, 32767, 0, 0, 2030⟩,
   ⟨0, 0, 16384, 32767, 0, 0, 2040⟩, ⟨1024, 0, 16384, 32767, 0, 0, 2050⟩]

/-- The heart rate that `calculate_stable_heart_rate` stores, in the words of the
specification: with `k = min(n, 5)` and `I_i` the `i`-th most recent interval (ring slot
`(head - 1 - i) mod 15`), `avg` is `Σ (k - i) I_i` integer-divided by `Σ (k - i)`, `raw` is
`60000000 / avg`, the value is smoothed 85/15 against the previous one when that is valid,
and then pulled towards 63 or 77 with factor 0.1 when it lies outside `[63, 77]`. -/
def stable_hr_spec (hd : heart_data_t) : ℚ :=
  let k : Nat := (min hd.beat_data.count 5).toNat
  let avg : Int :=
    Int.tdiv
      (∑ i in Finset.range k,
        ((k : Int) - (i : Int)) *
          hd.beat_data.intervals ((hd.beat_data.head - 1 - (i : Int)) % 15))
      (∑ i in Finset.range k, ((k : Int) - (i : Int)))
  let raw : ℚ := 60000000 / (avg : ℚ)
  let new : ℚ := if hd.hr_valid then 85 / 100 * hd.last_hr_bpm + 15 / 100 * raw else raw
  if new < 63 then 63 + 1 / 10 * (new - 63)
  else if new > 77 then 77 + 1 / 10 * (new - 77)
  else new

/-- A heart-data record with three stored beat intervals of 800 ms, used to instantiate
the heart-rate statements. -/
def three_beats : heart_data_t :=
  { heart_data_zero with
    last_spo2 := 95
    beat_data :=
      { intervals := fun i => if 0 ≤ i ∧ i < 3 then 800000 else 0
        timestamps := fun _ => 0, count := 3, head := 3 } }

/-- The condition under which a call of `hr_update_sample` on the state `s` reaches
`calculate_spo2`: the buffer is initialised and `signal_buffer.count % 50 == 0`, where
`count` is the value before the call (the stored sample does not change it). -/
def spo2_recomputed (s : hr_state) : Bool :=
  s.signal_buffer.initialized && decide (Int.tmod s.signal_buffer.count 50 = 0)

/-- The sample with both ADC counts 0 and both clock readings 0. -/
def zero_ppg_sample : ppg_sample := ⟨0, 0, 0, 0⟩

/-- The trigger condition in the words of the specification: the total acceleration
magnitude `sqrt(ax² + ay² + az²)` in g is at least 5.0, or it is at least 3.3 and the
combined tilt `sqrt(roll² + pitch²)` is at least 45 degrees. -/
def fall_trigger_spec (lm : libm) (ax_raw ay_raw az_raw : Int) : Prop :=
  lm.sqrtf (((ax_raw : ℚ) / 16384) ^ 2 + ((ay_raw : ℚ) / 16384) ^ 2 +
      ((az_raw : ℚ) / 16384) ^ 2) ≥ 5 ∨
  (lm.sqrtf (((ax_raw : ℚ) / 16384) ^ 2 + ((ay_raw : ℚ) / 16384) ^ 2 +
      ((az_raw : ℚ) / 16384) ^ 2) ≥ 33 / 10 ∧
    lm.sqrtf
      ((calculate_roll_angle lm ((ax_raw : ℚ) / 16384) ((ay_raw : ℚ) / 16384)
          ((az_raw : ℚ) / 16384)) ^ 2 +
        (calculate_pitch_angle lm ((ax_raw : ℚ) / 16384) ((ay_raw : ℚ) / 16384)
          ((az_raw : ℚ) / 16384)) ^ 2) ≥ 45)

instance (lm : libm) (ax_raw ay_raw az_raw : Int) :
    Decidable (fall_trigger_spec lm ax_raw ay_raw az_raw) := by
  unfold fall_trigger_spec; infer_instance

/-- The sample `x` with its two Z readings replaced: accelerometer Z by `az_raw`, gyroscope
Z by `gz_raw`. -/
def with_z (x : imu_sample) (az_raw gz_raw : Int) : imu_sample :=
  { x with az_raw := az_raw, gz_raw := gz_raw }

/-! ## `sensor_manager.c`: `read_mpu6050` -/

/-- The struct `mpu6050_data_t` of `mpu6050_driver.h`: six `int16_t` readings. -/
structure mpu6050_data_t where
  ax : Int
  ay : Int
  az : Int
  gx : Int
  gy : Int
  gz : Int
deriving DecidableEq

/-- The state that `read_mpu6050` works on: the file-scope variables `step_fall_ctx`,
`step_fall_initialized` and `step_count` of `sensor_manager.c`, its function-level statics
`fall_detected_flag` and `fall_reset_time`, the statics of `mpu6050_step_fall.c` and the
record of `sensor_data.c`. -/
structure sensor_manager_state where
  step_fall_initialized : Bool
  step_fall_ctx : step_fall_ctx_t
  step_fall_statics : step_fall_statics_t
  step_count : Int
  fall_detected_flag : Bool
  fall_reset_time : Nat
  current_data : sensor_data_t

/-- The state when the program starts. -/
def sensor_manager_at_start : sensor_manager_state :=
  { step_fall_initialized := false, step_fall_ctx := default_ctx,
    step_fall_statics := step_fall_statics_at_start, step_count := 0,
    fall_detected_flag := false, fall_reset_time := 0,
    current_data := current_data_at_start }

/-- The first part of the success branch of `read_mpu6050`: the one-time
`step_fall_init`, the `step_fall_detect_step` call with the step counter, and the
`step_fall_detect_fall` call.  Returns the local `fall_result` and the state. -/
def read_mpu6050_motion (lm : libm) (s : sensor_manager_state) (d : mpu6050_data_t)
    (now_ms : Nat) : fall_result_t × sensor_manager_state :=
  let s : sensor_manager_state :=
    if !s.step_fall_initialized then
      { s with
        step_fall_ctx := (step_fall_init (some s.step_fall_ctx) 100).getD s.step_fall_ctx
        step_fall_initialized := true }
    else s
  let r := step_fall_detect_step lm (some s.step_fall_ctx) s.step_fall_statics
    d.ax d.ay d.az d.gx d.gy d.gz now_ms
  let s : sensor_manager_state := { s with
    step_fall_ctx := r.2.1.getD s.step_fall_ctx, step_fall_statics := r.2.2 }
  let s : sensor_manager_state :=
    if r.1 then
      let s : sensor_manager_state := { s with step_count := s.step_count + 1 }
      { s with current_data := sensor_data_set_steps s.current_data s.step_count }
    else s
  let f := step_fall_detect_fall lm (some s.step_fall_ctx) s.step_fall_statics
    d.ax d.ay d.az d.gx d.gy d.gz now_ms
  (f.1, { s with step_fall_ctx := f.2.1.getD s.step_fall_ctx, step_fall_statics := f.2.2 })

/-- The second part of the success branch of `read_mpu6050`: a reported fall arms the
hold (`sensor_data_set_fall_detected(1)`, `fall_reset_time = now_ms + 3000` in `uint32_t`)
unless one is active, and an active hold whose time has come is released
(`sensor_data_set_fall_detected(0)`). -/
def read_mpu6050_hold (s : sensor_manager_state) (fall_result : fall_result_t)
    (now_ms : Nat) : sensor_manager_state :=
  let s : sensor_manager_state :=
    if fall_result.fall_detected && !s.fall_detected_flag then
      { s with
        current_data := sensor_data_set_fall_detected s.current_data 1
        fall_detected_flag := true
        fall_reset_time := (now_ms + 3000) % 2 ^ 32 }
    else s
  if s.fall_detected_flag && decide (now_ms ≥ s.fall_reset_time) then
    { s with
      current_data := sensor_data_set_fall_detected s.current_data 0
      fall_detected_flag := false
      fall_reset_time := 0 }
  else s

/-- The function `read_mpu6050`.  `ret_ok` says whether `mpu6050_read_data` returned
`ESP_OK`, `d` is the reading it delivered and `timer_us` the value of
`esp_timer_get_time()`; `now_ms` is `(uint32_t)(timer_us / 1000ULL)`.  Returns whether the
function returns `ESP_OK`, and the state. -/
def read_mpu6050 (lm : libm) (s : sensor_manager_state) (ret_ok : Bool)
    (d : mpu6050_data_t) (timer_us : Nat) : Bool × sensor_manager_state :=
  if ret_ok then
    let now_ms : Nat := timer_us / 1000 % 2 ^ 32
    let m := read_mpu6050_motion lm s d now_ms
    (true, read_mpu6050_hold m.2 m.1 now_ms)
  else (false, s)

/-- One call of `read_mpu6050` as seen from outside: the driver's result, the reading and
the clock value. -/
structure mpu_read where
  ret_ok : Bool
  data : mpu6050_data_t
  timer_us : Nat

/-- The time stamp `now_ms` that `read_mpu6050` computes for a call. -/
def mpu_read_now_ms (r : mpu_read) : Nat := r.timer_us / 1000 % 2 ^ 32

/-- A sequence of `read_mpu6050` calls: the state after the last one. -/
def read_run (lm : libm) (s : sensor_manager_state) (rs : List mpu_read) :
    sensor_manager_state :=
  rs.foldl (fun s r => (read_mpu6050 lm s r.ret_ok r.data r.timer_us).2) s

/-- The range of an `int16_t` reading. -/
def is_int16 (v : Int) : Prop := -32768 ≤ v ∧ v ≤ 32767

/-- The squared total acceleration of a raw accelerometer triple in g², the argument of
the `sqrtf` call behind `total_accel` in `step_fall_detect_fall`. -/
def total_accel_sq (ax_raw ay_raw az_raw : Int) : ℚ :=
  ((ax_raw : ℚ) / 16384) ^ 2 + ((ay_raw : ℚ) / 16384) ^ 2 + ((az_raw : ℚ) / 16384) ^ 2

/-- The value `total_accel` of `step_fall_detect_fall` for a raw accelerometer triple. -/
def total_accel (lm : libm) (ax_raw ay_raw az_raw : Int) : ℚ :=
  lm.sqrtf (total_accel_sq ax_raw ay_raw az_raw)

/-- The value `total_angle_change` of `step_fall_detect_fall` for a raw accelerometer
triple. -/
def total_angle_change (lm : libm) (ax_raw ay_raw az_raw : Int) : ℚ :=
  lm.sqrtf
    ((calculate_roll_angle lm ((ax_raw : ℚ) / 16384) ((ay_raw : ℚ) / 16384)
        ((az_raw : ℚ) / 16384)) ^ 2 +
      (calculate_pitch_angle lm ((ax_raw : ℚ) / 16384) ((ay_raw : ℚ) / 16384)
        ((az_raw : ℚ) / 16384)) ^ 2)

/-- A quality record with good quality and a red AC/DC ratio half the IR one
(`R = 0.5`), used to instantiate the SpO2 range statement. -/
def half_ratio_quality : signal_quality_t :=
  { perfusion_index := 1, snr_estimate := 0, contact_detected := true, quality_good := true,
    red_dc := 100000, ir_dc := 100000, red_ac_rms := 500, ir_ac_rms := 1000 }

/-- The local `total_weight` of `calculate_stable_heart_rate` once its loops have run (the
divisor of the weighted average), for a record with at least three stored intervals. -/
def stable_total_weight (hd : heart_data_t) : Int :=
  let count : Int := if hd.beat_data.count > 5 then 5 else hd.beat_data.count
  ((List.range count.toNat).foldl
    (fun (acc : Int × Int) (i : Nat) =>
      let weight : Int := count - (i : Int)
      (acc.1, acc.2 + weight))
    (0, 0)).2

/-- The local `avg_interval` of `calculate_stable_heart_rate` (the divisor of `raw_hr`),
for a record with at least three stored intervals. -/
def stable_avg_interval (hd : heart_data_t) : Int :=
  let count : Int := if hd.beat_data.count > 5 then 5 else hd.beat_data.count
  let recent_intervals : Int → Int :=
    (List.range count.toNat).foldl
      (fun (recent_intervals : Int → Int) (i : Nat) =>
        let idx :=
          Int.tmod (hd.beat_data.head - 1 - (i : Int) + MAX_BEAT_INTERVALS) MAX_BEAT_INTERVALS
        Function.update recent_intervals (i : Int) (hd.beat_data.intervals idx))
      (fun _ => 0)
  let sums : Int × Int :=
    (List.range count.toNat).foldl
      (fun (acc : Int × Int) (i : Nat) =>
        let weight : Int := count - (i : Int)
        (acc.1 + recent_intervals i * weight, acc.2 + weight))
      (0, 0)
  Int.tdiv sums.1 sums.2

/-- The ring of beat intervals is consistent and holds synthetic intervals only: the
cursor is inside the array, `count` is between 0 and 15, the cursor equals `count` until
the ring is full, and each of the `count` slots written so far holds a value between
680000 and 1200000 microseconds. -/
def beat_data_inv (bd : beat_data_t) : Prop :=
  0 ≤ bd.head ∧ bd.head < 15 ∧ 0 ≤ bd.count ∧ bd.count ≤ 15 ∧
  (bd.count < 15 → bd.head = bd.count) ∧
  ∀ j : Int, 0 ≤ j → j < bd.count →
    680000 ≤ bd.intervals j ∧ bd.intervals j ≤ 1200000

/-- The invariant of `heart_data` behind the reported heart rate: `beat_data_inv`, and a
valid heart rate lies strictly between 61 and 79. -/
def heart_rate_inv (hd : heart_data_t) : Prop :=
  beat_data_inv hd.beat_data ∧
  (hd.hr_valid = true → 61 < hd.last_hr_bpm ∧ hd.last_hr_bpm < 79)

/-- The root mean square that `calculate_rms` forms, as a function of the values it reads:
`ac i` is the `i`-th value read, `min(count, 50)` values are used, and the result is 0
with fewer than 10 samples. -/
def ac_rms_over (lm : libm) (ac : Nat → ℚ) (count : Int) : ℚ :=
  if count < 10 then 0
  else
    lm.sqrtf ((∑ i in Finset.range (min count 50).toNat, ac i * ac i) /
      ((min count 50 : Int) : ℚ))

/-- The AC RMS of one channel in the words of the specification: the root mean square of
`filtered - dc` over the `min(count, 50)` most recently stored samples, the most recent
one being in ring slot `newest`. -/
def ac_rms_spec (lm : libm) (filtered dc : Int → ℚ) (newest count : Int) : ℚ :=
  ac_rms_over lm
    (fun i => filtered ((newest - (i : Int)) % 1000) - dc ((newest - (i : Int)) % 1000)) count

/-- A buffer of 100 samples whose AC value (`filtered - dc`) is 1 in slots below 50 and 6
from slot 50 on, on both channels; the write cursor is at slot 100. -/
def two_level_buffer : signal_buffer_t :=
  { red_raw := fun _ => 10000
    ir_raw := fun _ => 10000
    red_filtered := fun i => if i < 50 then 10001 else 10006
    ir_filtered := fun i => if i < 50 then 10001 else 10006
    red_dc := fun _ => 10000
    ir_dc := fun _ => 10000
    timestamps := fun _ => 0
    head := 100, count := 100, initialized := true }

/-- The DC estimates that go with `two_level_buffer`. -/
def two_level_filtered : filtered_signal_t :=
  { red_filtered := 0, ir_filtered := 0, red_dc := 10000, ir_dc := 10000, red_ac := 0,
    ir_ac := 0 }

/-- The five-tap filter in the words of the specification, for one channel: the sum over
`i = 0..4` of `c_i * (raw - dc)` of the `i`-th most recent sample, the most recent one
being in ring slot `newest`. -/
def fir_spec (raw : Int → Nat) (dc : Int → ℚ) (newest : Int) : ℚ :=
  ∑ i in Finset.range 5,
    fir_coeffs (i : Int) * ((raw ((newest - (i : Int)) % 1000) : ℚ) - dc ((newest - (i : Int)) % 1000))

/-- The PPG sample with both ADC counts 10000 (clock readings 0). -/
def level_ppg_sample : ppg_sample := ⟨10000, 10000, 0, 0⟩

/-! ## Binary floating point

A second model of the `float` arithmetic, used where a comparison with a threshold decides
the outcome.  Every operation is rounded to the nearest value with a 24-bit significand
(53 bits for `double`), ties to the even significand, as IEEE 754 prescribes for
`+ - * /`, for conversions and for decimal literals.  Values are still rationals: a
binary32 value is a rational that its rounding leaves unchanged.  The exponent range is
not bounded, so overflow, underflow to subnormals, infinities and NaN are not
represented, and each operation of the source is rounded on its own (no fused
multiply-add). -/

/-- Rounding of a rational to the nearest integer, a tie to the even one. -/
def round_half_even (q : ℚ) : Int :=
  if q - ⌊q⌋ < 1 / 2 then ⌊q⌋
  else if q - ⌊q⌋ > 1 / 2 then ⌊q⌋ + 1
  else if ⌊q⌋ % 2 = 0 then ⌊q⌋ else ⌊q⌋ + 1

/-- The unit in the last place of `x` for a `p`-bit significand: `2 ^ (e - (p - 1))` where
`2 ^ e ≤ |x| < 2 ^ (e + 1)`. -/
def fp_ulp (p : Nat) (x : ℚ) : ℚ := 2 ^ (Int.log 2 |x| - ((p : Int) - 1))

/-- Rounding to the nearest floating-point value with a `p`-bit significand. -/
def fp_round (p : Nat) (x : ℚ) : ℚ := (round_half_even (x / fp_ulp p x) : ℚ) * fp_ulp p x

/-- Rounding to binary32 (`float`). -/
def f32 (x : ℚ) : ℚ := fp_round 24 x

/-- Rounding to binary64 (`double`). -/
def f64 (x : ℚ) : ℚ := fp_round 53 x

/-- The correctly rounded square root with a `p`-bit significand (the IEEE 754
`squareRoot` operation): with `q` the unit in the last place of the root and
`n = ⌊√x / q⌋`, the result is `n * q` or `(n + 1) * q`, whichever is nearer to `√x`. -/
def fp_sqrt (p : Nat) (x : ℚ) : ℚ :=
  if x ≤ 0 then 0
  else
    let q : ℚ := 2 ^ (Int.log 2 x / 2 - ((p : Int) - 1))
    let n : Nat := Nat.sqrt ⌊x / (q * q)⌋.toNat
    if x < ((n : ℚ) + 1 / 2) ^ 2 * (q * q) then n * q else (n + 1) * q

/-- A concrete `libm` on binary32 values: the correctly rounded `sqrtf`, and the stand-ins
of `libm_ref` for the other three functions rounded to binary32. -/
def libm_f32 : libm :=
  { sqrtf := fp_sqrt 24
    atan2f := fun y x => f32 (atan2_ref y x)
    sinf := fun x => f32 (libm_ref.sinf x)
    log10f := fun x => f32 (libm_ref.log10f x) }

/-! ## `mpu6050_step_fall.c`: the fall detector in binary32

In this section `M_PI` is the `double` constant of `<math.h>` (the header is included
before the `#ifndef M_PI` of the source), so `x * 180.0f / M_PI` is a `float` product
divided in `double` and converted back to `float` by the assignment or `return`. -/

/-- The function `calculate_roll_angle`, every operation rounded to binary32. -/
def calculate_roll_angle_f32 (lm : libm) (ax_g ay_g az_g : ℚ) : ℚ :=
  let denominator := lm.sqrtf (f32 (f32 (ax_g * ax_g) + f32 (az_g * az_g)))
  if denominator < f32 (1 / 1000000) then 0
  else
    let roll_rad := lm.atan2f ay_g denominator
    f32 (f64 (f32 (roll_rad * 180) / f64 M_PI))

/-- The function `calculate_pitch_angle`, every operation rounded to binary32. -/
def calculate_pitch_angle_f32 (lm : libm) (ax_g ay_g az_g : ℚ) : ℚ :=
  let denominator := lm.sqrtf (f32 (f32 (ay_g * ay_g) + f32 (az_g * az_g)))
  if denominator < f32 (1 / 1000000) then 0
  else
    let pitch_rad := lm.atan2f (-ax_g) denominator
    f32 (f64 (f32 (pitch_rad * 180) / f64 M_PI))

/-- The loop `while (fall_angle_deg < 0) fall_angle_deg += 360.0f;` in binary32, run for
at most `fuel` iterations. -/
def while_negative_add_360_f32 : Nat → ℚ → ℚ
  | 0, fall_angle_deg => fall_angle_deg
  | fuel + 1, fall_angle_deg =>
    if fall_angle_deg < 0 then while_negative_add_360_f32 fuel (f32 (fall_angle_deg + 360))
    else fall_angle_deg

/-- The loop `while (fall_angle_deg >= 360) fall_angle_deg -= 360.0f;` in binary32, run for
at most `fuel` iterations. -/
def while_ge_360_sub_360_f32 : Nat → ℚ → ℚ
  | 0, fall_angle_deg => fall_angle_deg
  | fuel + 1, fall_angle_deg =>
    if fall_angle_deg ≥ 360 then while_ge_360_sub_360_f32 fuel (f32 (fall_angle_deg - 360))
    else fall_angle_deg

/-- The two normalisation loops of `determine_fall_direction` in binary32, with the
iteration counts of `normalize_fall_angle`. -/
def normalize_fall_angle_f32 (fall_angle_deg : ℚ) : ℚ :=
  let fall_angle_deg :=
    while_negative_add_360_f32 (⌈-fall_angle_deg / 360⌉).toNat fall_angle_deg
  while_ge_360_sub_360_f32 (⌊fall_angle_deg / 360⌋).toNat fall_angle_deg

/-- The function `determine_fall_direction`, every operation rounded to binary32. -/
def determine_fall_direction_f32 (lm : libm) (roll_deg pitch_deg : ℚ) : fall_direction_t :=
  if fabsf pitch_deg < f32 (1 / 1000000) ∧ fabsf roll_deg < f32 (1 / 1000000) then
    FALL_DIR_NONE
  else
    let fall_angle_rad := lm.atan2f roll_deg pitch_deg
    let fall_angle_deg := f32 (f64 (f32 (fall_angle_rad * 180) / f64 M_PI))
    let fall_angle_deg := normalize_fall_angle_f32 fall_angle_deg
    if fall_angle_deg ≥ 3375 / 10 ∨ fall_angle_deg < 225 / 10 then FALL_DIR_FRONT
    else if fall_angle_deg ≥ 225 / 10 ∧ fall_angle_deg < 675 / 10 then FALL_DIR_FRONT_RIGHT
    else if fall_angle_deg ≥ 675 / 10 ∧ fall_angle_deg < 1125 / 10 then FALL_DIR_RIGHT
    else if fall_angle_deg ≥ 1125 / 10 ∧ fall_angle_deg < 1575 / 10 then FALL_DIR_BACK_RIGHT
    else if fall_angle_deg ≥ 1575 / 10 ∧ fall_angle_deg < 2025 / 10 then FALL_DIR_BACK
    else if fall_angle_deg ≥ 2025 / 10 ∧ fall_angle_deg < 2475 / 10 then FALL_DIR_BACK_LEFT
    else if fall_angle_deg ≥ 2475 / 10 ∧ fall_angle_deg < 2925 / 10 then FALL_DIR_LEFT
    else FALL_DIR_FRONT_LEFT

/-- The function `step_fall_detect_fall`, every `float` operation rounded to binary32:
returns the result, the (unchanged) context and the statics after the call. -/
def step_fall_detect_fall_f32 (lm : libm) (ctx : Option step_fall_ctx_t)
    (st : step_fall_statics_t) (ax_raw ay_raw az_raw gx_raw gy_raw gz_raw : Int)
    (now_ms : Nat) : fall_result_t × Option step_fall_ctx_t × step_fall_statics_t :=
  let result : fall_result_t := fall_result_zero
  match ctx with
  | none => (result, none, st)
  | some ctx =>
    let ax_g : ℚ := f32 ((ax_raw : ℚ) / ACC_LSB_PER_G)
    let ay_g : ℚ := f32 ((ay_raw : ℚ) / ACC_LSB_PER_G)
    let az_g : ℚ := f32 ((az_raw : ℚ) / ACC_LSB_PER_G)
    let roll_deg : ℚ := calculate_roll_angle_f32 lm ax_g ay_g az_g
    let pitch_deg : ℚ := calculate_pitch_angle_f32 lm ax_g ay_g az_g
    let result : fall_result_t := { result with
      ax_g := ax_g, ay_g := ay_g, roll_deg := roll_deg, pitch_deg := pitch_deg,
      fall_angle_deg := f32 (f64 (f32 (lm.atan2f roll_deg pitch_deg * 180) / f64 M_PI)) }
    if u32_sub now_ms st.last_fall_time < 10000 then (result, some ctx, st)
    else
      let accel_x_exceed : Bool := decide (fabsf ax_g ≥ ctx.accel_threshold_g)
      let accel_y_exceed : Bool := decide (fabsf ay_g ≥ ctx.accel_threshold_g)
      let pitch_exceed : Bool := decide (fabsf pitch_deg ≥ ctx.angle_threshold_deg)
      let roll_exceed : Bool := decide (fabsf roll_deg ≥ ctx.angle_threshold_deg)
      let total_accel : ℚ :=
        lm.sqrtf (f32 (f32 (f32 (ax_g * ax_g) + f32 (ay_g * ay_g)) + f32 (az_g * az_g)))
      let total_angle_change : ℚ :=
        lm.sqrtf (f32 (f32 (pitch_deg * pitch_deg) + f32 (roll_deg * roll_deg)))
      let extreme_impact : Bool := decide (total_accel ≥ 5)
      let strong_impact : Bool := decide (total_accel ≥ f32 (33 / 10))
      let very_large_tilt : Bool := decide (total_angle_change ≥ 45)
      let strong_impact_with_tilt : Bool := strong_impact && very_large_tilt
      let fall_event : Bool := extreme_impact || strong_impact_with_tilt
      if fall_event then
        ({ result with
            fall_detected := true
            direction := determine_fall_direction_f32 lm roll_deg pitch_deg },
          some ctx, { st with last_fall_time := now_ms })
      else (result, some ctx, st)

/-- The argument of the `sqrtf` call behind `total_accel` in `step_fall_detect_fall`, as
binary32 computes it from a raw accelerometer triple: three rounded squares and two
rounded sums. -/
def total_accel_sq_f32 (ax_raw ay_raw az_raw : Int) : ℚ :=
  f32 (f32 (f32 (f32 ((ax_raw : ℚ) / 16384) * f32 ((ax_raw : ℚ) / 16384)) +
      f32 (f32 ((ay_raw : ℚ) / 16384) * f32 ((ay_raw : ℚ) / 16384))) +
    f32 (f32 ((az_raw : ℚ) / 16384) * f32 ((az_raw : ℚ) / 16384)))

/-- The binary32 value `total_accel` of `step_fall_detect_fall`. -/
def total_accel_f32 (lm : libm) (ax_raw ay_raw az_raw : Int) : ℚ :=
  lm.sqrtf (total_accel_sq_f32 ax_raw ay_raw az_raw)

/-- The combined tilt `sqrtf (pitch * pitch + roll * roll)` of two angles in binary32. -/
def combined_tilt_f32 (lm : libm) (roll_deg pitch_deg : ℚ) : ℚ :=
  lm.sqrtf (f32 (f32 (pitch_deg * pitch_deg) + f32 (roll_deg * roll_deg)))

/-- The binary32 roll angle of a raw accelerometer triple. -/
def roll_deg_f32 (lm : libm) (ax_raw ay_raw az_raw : Int) : ℚ :=
  calculate_roll_angle_f32 lm (f32 ((ax_raw : ℚ) / 16384)) (f32 ((ay_raw : ℚ) / 16384))
    (f32 ((az_raw : ℚ) / 16384))

/-- The binary32 pitch angle of a raw accelerometer triple. -/
def pitch_deg_f32 (lm : libm) (ax_raw ay_raw az_raw : Int) : ℚ :=
  calculate_pitch_angle_f32 lm (f32 ((ax_raw : ℚ) / 16384)) (f32 ((ay_raw : ℚ) / 16384))
    (f32 ((az_raw : ℚ) / 16384))

/-- The trigger condition on binary32 values: `total_accel` is at least `5.0f`, or it is
at least `3.3f` and the combined tilt of the computed roll and pitch is at least
`45.0f`. -/
def fall_trigger_f32 (lm : libm) (ax_raw ay_raw az_raw : Int) : Prop :=
  total_accel_f32 lm ax_raw ay_raw az_raw ≥ 5 ∨
  (total_accel_f32 lm ax_raw ay_raw az_raw ≥ f32 (33 / 10) ∧
    combined_tilt_f32 lm (roll_deg_f32 lm ax_raw ay_raw az_raw)
      (pitch_deg_f32 lm ax_raw ay_raw az_raw) ≥ 45)

instance (lm : libm) (ax_raw ay_raw az_raw : Int) :
    Decidable (fall_trigger_f32 lm ax_raw ay_raw az_raw) := by
  unfold fall_trigger_f32; infer_instance

/-! ## `heart_rate_calculator.c`: `calculate_spo2` in binary32 -/

/-- The SpO2 calibration curve inside `calculate_spo2` before clamping, every operation
rounded to binary32: `-45.06f * r * r + 30.354f * r + 94.845f` for `r <= 0.7f`, and
`110.0f - 25.0f * r` otherwise. -/
def spo2_curve_f32 (r_ratio : ℚ) : ℚ :=
  if r_ratio ≤ f32 (7 / 10) then
    f32 (f32 (f32 (f32 (-f32 (4506 / 100) * r_ratio) * r_ratio) +
      f32 (f32 (30354 / 1000) * r_ratio)) + f32 (94845 / 1000))
  else f32 (110 - f32 (25 * r_ratio))

/-- The function `calculate_spo2`, every `float` operation rounded to binary32; the macro
`MIN_PERFUSION_INDEX` is the `double` literal `0.05`, with which the `float` perfusion index
is compared in `double`. -/
def calculate_spo2_f32 (sq : signal_quality_t) (count : Int) (hd : heart_data_t) :
    heart_data_t :=
  if !sq.quality_good || decide (count < 500) then { hd with spo2_valid := false }
  else
    let red_ratio := f32 (sq.red_ac_rms / sq.red_dc)
    let ir_ratio := f32 (sq.ir_ac_rms / sq.ir_dc)
    if ir_ratio ≤ 0 then { hd with spo2_valid := false }
    else
      let hd := { hd with r_ratio := f32 (red_ratio / ir_ratio) }
      let spo2_f := spo2_curve_f32 hd.r_ratio
      let spo2_f := if spo2_f > 100 then 100 else spo2_f
      let spo2_f := if spo2_f < 75 then 75 else spo2_f
      let hd := { hd with last_spo2 := float_to_int (f32 (spo2_f + 1 / 2)) }
      if hd.r_ratio ≥ 1 / 2 ∧ hd.r_ratio ≤ 3 ∧
          sq.perfusion_index ≥ f64 MIN_PERFUSION_INDEX ∧
          hd.last_spo2 ≥ SPO2_SEVERE_HYPOXIA then
        { hd with spo2_valid := true }
      else { hd with spo2_valid := false }

/-- A quality record with good quality whose exact ratio of ratios is `R = 0.7`
(`red_ac_rms = 700`, `ir_ac_rms = 1000`, both DC values 100000). -/
def ratio_boundary_quality : signal_quality_t :=
  { perfusion_index := 1, snr_estimate := 0, contact_detected := true, quality_good := true,
    red_dc := 100000, ir_dc := 100000, red_ac_rms := 700, ir_ac_rms := 1000 }

/-- One call of `step_fall_detect_fall` on a non-null context, described by cases. -/
theorem step_fall_detect_fall_some (lm : libm) (ctx : step_fall_ctx_t)
    (st : step_fall_statics_t) (ax_raw ay_raw az_raw gx_raw gy_raw gz_raw : Int)
    (now_ms : Nat) :
    step_fall_detect_fall lm (some ctx) st ax_raw ay_raw az_raw gx_raw gy_raw gz_raw now_ms =
      (if 10000 ≤ u32_sub now_ms st.last_fall_time ∧ fall_trigger_spec lm ax_raw ay_raw az_raw
        then
          ({ fall_detected := true
             direction := determine_fall_direction lm
               (calculate_roll_angle lm ((ax_raw : ℚ) / 16384) ((ay_raw : ℚ) / 16384)
                 ((az_raw : ℚ) / 16384))
               (calculate_pitch_angle lm ((ax_raw : ℚ) / 16384) ((ay_raw : ℚ) / 16384)
                 ((az_raw : ℚ) / 16384))
             fall_angle_deg := lm.atan2f
               (calculate_roll_angle lm ((ax_raw : ℚ) / 16384) ((ay_raw : ℚ) / 16384)
                 ((az_raw : ℚ) / 16384))
               (calculate_pitch_angle lm ((ax_raw : ℚ) / 16384) ((ay_raw : ℚ) / 16384)
                 ((az_raw : ℚ) / 16384)) * 180 / M_PI
             ax_g := (ax_raw : ℚ) / 16384
             ay_g := (ay_raw : ℚ) / 16384
             roll_deg := calculate_roll_angle lm ((ax_raw : ℚ) / 16384)
               ((ay_raw : ℚ) / 16384) ((az_raw : ℚ) / 16384)
             pitch_deg := calculate_pitch_angle lm ((ax_raw : ℚ) / 16384)
               ((ay_raw : ℚ) / 16384) ((az_raw : ℚ) / 16384) },
            some ctx, { st with last_fall_time := now_ms })
        else
          ({ fall_detected := false
             direction := FALL_DIR_NONE
             fall_angle_deg := lm.atan2f
               (calculate_roll_angle lm ((ax_raw : ℚ) / 16384) ((ay_raw : ℚ) / 16384)
                 ((az_raw : ℚ) / 16384))
               (calculate_pitch_angle lm ((ax_raw : ℚ) / 16384) ((ay_raw : ℚ) / 16384)
                 ((az_raw : ℚ) / 16384)) * 180 / M_PI
             ax_g := (ax_raw : ℚ) / 16384
             ay_g := (ay_raw : ℚ) / 16384
             roll_deg := calculate_roll_angle lm ((ax_raw : ℚ) / 16384)
               ((ay_raw : ℚ) / 16384) ((az_raw : ℚ) / 16384)
             pitch_deg := calculate_pitch_angle lm ((ax_raw : ℚ) / 16384)
               ((ay_raw : ℚ) / 16384) ((az_raw : ℚ) / 16384) },
            some ctx, st)) := by
  unfold step_fall_detect_fall fall_trigger_spec
  simp only [ACC_LSB_PER_G, fall_result_zero]
  by_cases hc : u32_sub now_ms st.last_fall_time < 10000
  · have hc2 : ¬ (10000 ≤ u32_sub now_ms st.last_fall_time) := not_le.mpr hc
    simp [hc, hc2]
  · have hc2 : 10000 ≤ u32_sub now_ms st.last_fall_time := not_lt.mp hc
    simp only [hc, hc2, if_false, true_and, sq, Bool.or_eq_true, Bool.and_eq_true,
      decide_eq_true_eq, ge_iff_le]
    rw [add_comm (calculate_pitch_angle lm _ _ _ * calculate_pitch_angle lm _ _ _)]

/-- The condition under which a call of `step_fall_detect_fall` reports a fall. -/
theorem fall_call_detected_iff (lm : libm) (ctx : step_fall_ctx_t)
    (st : step_fall_statics_t) (x : imu_sample) :
    (fall_call lm (some ctx) st x).1.fall_detected = true ↔
      (10000 ≤ u32_sub x.now_ms st.last_fall_time ∧
        fall_trigger_spec lm x.ax_raw x.ay_raw x.az_raw) := by
  unfold fall_call
  rw [step_fall_detect_fall_some]
  by_cases h : 10000 ≤ u32_sub x.now_ms st.last_fall_time ∧
      fall_trigger_spec lm x.ax_raw x.ay_raw x.az_raw
  · simp [h]
  · simp only [h, if_false, iff_false]; simp

theorem fall_run_singleton (lm : libm) (ctx : Option step_fall_ctx_t)
    (st : step_fall_statics_t) (x : imu_sample) :
    (fall_run lm ctx st [x]).2 = (fall_call lm ctx st x).2.2 := rfl

/-- With the rational stand-in for `<math.h>`, the sample with all three accelerometer
axes at the positive end of the `int16_t` range satisfies the trigger condition
(about 3.46 g and a combined tilt of about 50 degrees). -/
theorem fall_trigger_ref_saturated : fall_trigger_spec libm_ref 32767 32767 32767 := by
  unfold fall_trigger_spec
  right
  constructor
  · norm_num [libm_ref, sqrt_ref, newton_step, round9]
  · norm_num [libm_ref, sqrt_ref, newton_step, round9, calculate_roll_angle,
      calculate_pitch_angle, atan2_ref, atan_ref, M_PI, abs_le]

/-! ## Direction of a fall -/

/-- One call of `step_fall_detect_step` on a non-null context: the context stays non-null,
the minimum interval is not modified, an accepted step passed the interval test and sets
`last_step_ms` to `now_ms`, and a rejected sample leaves `last_step_ms` alone. -/
theorem step_call_some (lm : libm) (ctx : step_fall_ctx_t) (st : step_fall_statics_t)
    (x : imu_sample) :
    ∃ ctx2 : step_fall_ctx_t,
      (step_call lm (some ctx) st x).2.1 = some ctx2 ∧
      ctx2.step_min_interval_ms = ctx.step_min_interval_ms ∧
      ((step_call lm (some ctx) st x).1 = true →
        ctx2.last_step_ms = x.now_ms ∧
        float_to_u32 ctx.step_min_interval_ms ≤ u32_sub x.now_ms ctx.last_step_ms) ∧
      ((step_call lm (some ctx) st x).1 = false → ctx2.last_step_ms = ctx.last_step_ms) := by
  unfold step_call step_fall_detect_step
  simp only [estimate_gravity]
  split_ifs with h1 h2 h3 h4 h5
  all_goals first
    | exact ⟨_, rfl, rfl, fun h => absurd h (by simp), fun _ => rfl⟩
    | exact ⟨_, rfl, rfl, fun _ => ⟨rfl, h4⟩, fun h => absurd h (by simp)⟩

theorem float_to_u32_220 : float_to_u32 220 = 220 := by
  have h : float_to_int 220 = 220 := by norm_num [float_to_int]
  rw [float_to_u32, h]; rfl

/-- The DC values that `evaluate_signal_quality` stores are the current DC estimates. -/
theorem evaluate_signal_quality_dc (lm : libm) (sb : signal_buffer_t) (fs : filtered_signal_t)
    (sq : signal_quality_t) (st : hr_statics_t) :
    (evaluate_signal_quality lm sb fs sq st).1.ir_dc = fs.ir_dc ∧
    (evaluate_signal_quality lm sb fs sq st).1.red_dc = fs.red_dc := by
  unfold evaluate_signal_quality
  by_cases hc : fs.ir_dc > MIN_DC_VALUE ∧ fs.ir_dc < MAX_DC_VALUE ∧
      fs.red_dc > MIN_DC_VALUE ∧ fs.red_dc < MAX_DC_VALUE
  · simp [hc]
  · simp [hc]

/-- Without contact the quality is not good and the perfusion index is 0. -/
theorem evaluate_signal_quality_no_contact (lm : libm) (sb : signal_buffer_t)
    (fs : filtered_signal_t) (sq : signal_quality_t) (st : hr_statics_t)
    (hc : ¬ (fs.ir_dc > MIN_DC_VALUE ∧ fs.ir_dc < MAX_DC_VALUE ∧
      fs.red_dc > MIN_DC_VALUE ∧ fs.red_dc < MAX_DC_VALUE)) :
    (evaluate_signal_quality lm sb fs sq st).1.contact_detected = false ∧
    (evaluate_signal_quality lm sb fs sq st).1.quality_good = false ∧
    (evaluate_signal_quality lm sb fs sq st).1.perfusion_index = 0 := by
  unfold evaluate_signal_quality
  simp [hc]

/-- Good quality implies contact, DC values inside the plausible range and AC amplitudes
and perfusion index above their floors. -/
theorem evaluate_signal_quality_good (lm : libm) (sb : signal_buffer_t)
    (fs : filtered_signal_t) (sq : signal_quality_t) (st : hr_statics_t)
    (hq : (evaluate_signal_quality lm sb fs sq st).1.quality_good = true) :
    (evaluate_signal_quality lm sb fs sq st).1.contact_detected = true ∧
    (fs.ir_dc > MIN_DC_VALUE ∧ fs.ir_dc < MAX_DC_VALUE ∧
      fs.red_dc > MIN_DC_VALUE ∧ fs.red_dc < MAX_DC_VALUE) ∧
    (evaluate_signal_quality lm sb fs sq st).1.perfusion_index ≥ MIN_PERFUSION_INDEX ∧
    (evaluate_signal_quality lm sb fs sq st).1.ir_ac_rms ≥ MIN_AC_AMPLITUDE ∧
    (evaluate_signal_quality lm sb fs sq st).1.red_ac_rms ≥ MIN_AC_AMPLITUDE := by
  by_cases hc : fs.ir_dc > MIN_DC_VALUE ∧ fs.ir_dc < MAX_DC_VALUE ∧
      fs.red_dc > MIN_DC_VALUE ∧ fs.red_dc < MAX_DC_VALUE
  · unfold evaluate_signal_quality at hq ⊢
    simp only [hc, and_self, decide_True, Bool.not_true, Bool.false_eq_true, if_false,
      decide_eq_true_eq] at hq ⊢
    exact ⟨trivial, trivial, hq⟩
  · have := (evaluate_signal_quality_no_contact lm sb fs sq st hc).2.1
    rw [this] at hq
    exact absurd hq (by simp)

theorem float_to_int_round (c : ℚ) (hc : 0 ≤ c) : float_to_int (c + 1 / 2) = round c := by
  unfold float_to_int
  rw [if_pos (by linarith), round_eq]

/-- The loop of `evaluate_signal_quality` that fills `red_ac_samples` and `ir_ac_samples`:
cell `j < n` receives filtered minus DC of the buffer slot `(head - 1 - j + 1000) % 1000`,
the other cells keep their old content. -/
theorem ac_fill_loop_spec (sb : signal_buffer_t) (st : hr_statics_t) :
    ∀ (n : Nat) (j : Int),
      ((List.range n).foldl
        (fun (st : hr_statics_t) (i : Nat) =>
          { st with
            red_ac_samples :=
              Function.update st.red_ac_samples (i : Int)
                (sb.red_filtered (Int.tmod (sb.head - 1 - (i : Int) + BUFFER_SIZE) BUFFER_SIZE) -
                  sb.red_dc (Int.tmod (sb.head - 1 - (i : Int) + BUFFER_SIZE) BUFFER_SIZE))
            ir_ac_samples :=
              Function.update st.ir_ac_samples (i : Int)
                (sb.ir_filtered (Int.tmod (sb.head - 1 - (i : Int) + BUFFER_SIZE) BUFFER_SIZE) -
                  sb.ir_dc (Int.tmod (sb.head - 1 - (i : Int) + BUFFER_SIZE) BUFFER_SIZE)) })
        st).red_ac_samples j =
        (if 0 ≤ j ∧ j < n then
          sb.red_filtered (Int.tmod (sb.head - 1 - j + BUFFER_SIZE) BUFFER_SIZE) -
            sb.red_dc (Int.tmod (sb.head - 1 - j + BUFFER_SIZE) BUFFER_SIZE)
         else st.red_ac_samples j) ∧
      ((List.range n).foldl
        (fun (st : hr_statics_t) (i : Nat) =>
          { st with
            red_ac_samples :=
              Function.update st.red_ac_samples (i : Int)
                (sb.red_filtered (Int.tmod (sb.head - 1 - (i : Int) + BUFFER_SIZE) BUFFER_SIZE) -
                  sb.red_dc (Int.tmod (sb.head - 1 - (i : Int) + BUFFER_SIZE) BUFFER_SIZE))
            ir_ac_samples :=
              Function.update st.ir_ac_samples (i : Int)
                (sb.ir_filtered (Int.tmod (sb.head - 1 - (i : Int) + BUFFER_SIZE) BUFFER_SIZE) -
                  sb.ir_dc (Int.tmod (sb.head - 1 - (i : Int) + BUFFER_SIZE) BUFFER_SIZE)) })
        st).ir_ac_samples j =
        (if 0 ≤ j ∧ j < n then
          sb.ir_filtered (Int.tmod (sb.head - 1 - j + BUFFER_SIZE) BUFFER_SIZE) -
            sb.ir_dc (Int.tmod (sb.head - 1 - j + BUFFER_SIZE) BUFFER_SIZE)
         else st.ir_ac_samples j) := by
  intro n
  induction n with
  | zero =>
    intro j
    have h : ¬ (0 ≤ j ∧ j < 0) := by omega
    simp [h]
  | succ n ih =>
    intro j
    rw [List.range_succ, List.foldl_append]
    simp only [List.foldl_cons, List.foldl_nil, Function.update_apply]
    obtain ⟨ih1, ih2⟩ := ih j
    rw [ih1, ih2]
    by_cases hj : j = (n : Int)
    · subst hj; simp
    · have h1 : (0 ≤ j ∧ j < ((n + 1 : Nat) : Int)) ↔ (0 ≤ j ∧ j < (n : Int)) := by
        push_cast; constructor
        · rintro ⟨a, b⟩; exact ⟨a, by omega⟩
        · rintro ⟨a, b⟩; exact ⟨a, by omega⟩
      simp only [hj, if_false, h1]
      exact ⟨trivial, trivial⟩

set_option maxRecDepth 8000

/-! ## `hr_update_sample` -/

theorem hr_store_sample_fields (s : hr_state) (red ir : Nat) (current_time : Int) :
    (hr_store_sample s red ir current_time).1.head = s.signal_buffer.head ∧
    (hr_store_sample s red ir current_time).1.count = s.signal_buffer.count ∧
    (hr_store_sample s red ir current_time).1.initialized = s.signal_buffer.initialized ∧
    (hr_store_sample s red ir current_time).1.red_raw =
      Function.update s.signal_buffer.red_raw s.signal_buffer.head red ∧
    (hr_store_sample s red ir current_time).1.ir_raw =
      Function.update s.signal_buffer.ir_raw s.signal_buffer.head ir ∧
    (hr_store_sample s red ir current_time).2.red_dc =
      calculate_dc_component s.filtered_signals.red_dc (red : ℚ) ∧
    (hr_store_sample s red ir current_time).2.ir_dc =
      calculate_dc_component s.filtered_signals.ir_dc (ir : ℚ) :=
  ⟨rfl, rfl, rfl, rfl, rfl, rfl, rfl⟩

/-- The parts of the state after `hr_update_sample` on an initialised buffer. -/
theorem hr_update_sample_initialized (lm : libm) (s : hr_state) (red ir : Nat)
    (current_time detect_time : Int) (hinit : s.signal_buffer.initialized = true) :
    (hr_update_sample lm s red ir current_time detect_time).filtered_signals =
      (hr_store_sample s red ir current_time).2 ∧
    (hr_update_sample lm s red ir current_time detect_time).signal_quality =
      (evaluate_signal_quality lm (hr_store_sample s red ir current_time).1
        (hr_store_sample s red ir current_time).2 s.signal_quality s.statics).1 ∧
    (hr_update_sample lm s red ir current_time detect_time).signal_buffer.head =
      Int.tmod (s.signal_buffer.head + 1) BUFFER_SIZE ∧
    (hr_update_sample lm s red ir current_time detect_time).signal_buffer.count =
      (if s.signal_buffer.count < BUFFER_SIZE then s.signal_buffer.count + 1
       else s.signal_buffer.count) ∧
    (hr_update_sample lm s red ir current_time detect_time).signal_buffer.red_raw =
      Function.update s.signal_buffer.red_raw s.signal_buffer.head red ∧
    (hr_update_sample lm s red ir current_time detect_time).signal_buffer.ir_raw =
      Function.update s.signal_buffer.ir_raw s.signal_buffer.head ir ∧
    (hr_update_sample lm s red ir current_time detect_time).signal_buffer.initialized = true := by
  unfold hr_update_sample
  simp only [hinit, Bool.not_true, Bool.false_eq_true, if_false]
  refine ⟨trivial, trivial, ?_, ?_, ?_, ?_, ?_⟩
  · split_ifs <;> rfl
  · split_ifs with h1 h2 h2
    · rfl
    · exact absurd h1 h2
    · exact absurd h2 h1
    · rfl
  · split_ifs <;> rfl
  · split_ifs <;> rfl
  · split_ifs <;> exact hinit

/-- When the quality after the call is not good, `hr_update_sample` either clears
`spo2_valid` (on a call that runs `calculate_spo2`) or leaves it as it was. -/
theorem hr_update_sample_spo2_valid_of_bad (lm : libm) (s : hr_state) (red ir : Nat)
    (current_time detect_time : Int) (hinit : s.signal_buffer.initialized = true)
    (hbad : (hr_update_sample lm s red ir current_time detect_time).signal_quality.quality_good
      = false) :
    (hr_update_sample lm s red ir current_time detect_time).heart_data.spo2_valid =
      (if Int.tmod s.signal_buffer.count 50 = 0 then false else s.heart_data.spo2_valid) := by
  rw [(hr_update_sample_initialized lm s red ir current_time detect_time hinit).2.1] at hbad
  unfold hr_update_sample
  simp only [hinit, Bool.not_true, Bool.false_eq_true, if_false, hbad, Bool.false_and,
    (hr_store_sample_fields s red ir current_time).2.1]
  split_ifs with h
  · simp [calculate_spo2, hbad]
  · rfl

/-- The invariant of the circular buffer: initialised, cursor inside the array, count at
most the capacity. -/
theorem hr_update_sample_bounds (lm : libm) (s : hr_state) (x : ppg_sample)
    (h : s.signal_buffer.initialized = true ∧
      0 ≤ s.signal_buffer.head ∧ s.signal_buffer.head < 1000 ∧
      0 ≤ s.signal_buffer.count ∧ s.signal_buffer.count ≤ 1000) :
    (hr_update_sample lm s x.red x.ir x.current_time x.detect_time).signal_buffer.initialized
      = true ∧
    0 ≤ (hr_update_sample lm s x.red x.ir x.current_time x.detect_time).signal_buffer.head ∧
    (hr_update_sample lm s x.red x.ir x.current_time x.detect_time).signal_buffer.head < 1000 ∧
    0 ≤ (hr_update_sample lm s x.red x.ir x.current_time x.detect_time).signal_buffer.count ∧
    (hr_update_sample lm s x.red x.ir x.current_time x.detect_time).signal_buffer.count
      ≤ 1000 := by
  obtain ⟨hi, h1, h2, h3, h4⟩ := h
  obtain ⟨-, -, eh, ec, -, -, ei⟩ :=
    hr_update_sample_initialized lm s x.red x.ir x.current_time x.detect_time hi
  rw [eh, ec, ei]
  simp only [BUFFER_SIZE]
  rw [Int.tmod_eq_emod (by omega) (by omega)]
  refine ⟨trivial, by omega, by omega, ?_, ?_⟩
  · split_ifs <;> omega
  · split_ifs <;> omega

theorem hr_foldl_bounds (lm : libm) :
    ∀ (samples : List ppg_sample) (s : hr_state),
      (s.signal_buffer.initialized = true ∧
        0 ≤ s.signal_buffer.head ∧ s.signal_buffer.head < 1000 ∧
        0 ≤ s.signal_buffer.count ∧ s.signal_buffer.count ≤ 1000) →
      ((samples.foldl
          (fun s x => hr_update_sample lm s x.red x.ir x.current_time x.detect_time)
          s).signal_buffer.initialized = true ∧
        0 ≤ (samples.foldl
          (fun s x => hr_update_sample lm s x.red x.ir x.current_time x.detect_time)
          s).signal_buffer.head ∧
        (samples.foldl
          (fun s x => hr_update_sample lm s x.red x.ir x.current_time x.detect_time)
          s).signal_buffer.head < 1000 ∧
        0 ≤ (samples.foldl
          (fun s x => hr_update_sample lm s x.red x.ir x.current_time x.detect_time)
          s).signal_buffer.count ∧
        (samples.foldl
          (fun s x => hr_update_sample lm s x.red x.ir x.current_time x.detect_time)
          s).signal_buffer.count ≤ 1000) := by
  intro samples
  induction samples with
  | nil => intro s h; exact h
  | cons x xs ih => intro s h; exact ih _ (hr_update_sample_bounds lm s x h)

/-- Every state reached from `heart_rate_calculator_init` satisfies the buffer
invariant. -/
theorem hr_run_bounds (lm : libm) (s0 : hr_state) (samples : List ppg_sample) :
    (hr_run lm s0 samples).signal_buffer.initialized = true ∧
    0 ≤ (hr_run lm s0 samples).signal_buffer.head ∧
    (hr_run lm s0 samples).signal_buffer.head < 1000 ∧
    0 ≤ (hr_run lm s0 samples).signal_buffer.count ∧
    (hr_run lm s0 samples).signal_buffer.count ≤ 1000 :=
  hr_foldl_bounds lm samples (heart_rate_calculator_init s0)
    ⟨rfl, le_refl _, by simp [heart_rate_calculator_init, signal_buffer_zero],
      le_refl _, by simp [heart_rate_calculator_init, signal_buffer_zero]⟩

theorem hr_run_snoc (lm : libm) (s0 : hr_state) (samples : List ppg_sample) (x : ppg_sample) :
    hr_run lm s0 (samples ++ [x]) =
      hr_update_sample lm (hr_run lm s0 samples) x.red x.ir x.current_time x.detect_time := by
  unfold hr_run
  rw [List.foldl_append]
  rfl

/-! ## Pure-gravity samples -/

/-- On a pure-gravity sample, with `sqrtf 0 = 0`, a zero X/Y gravity estimate and no open
window, `step_fall_detect_step` returns false and keeps these three facts; it does not
touch `last_fall_time`. -/
theorem step_call_gravity (lm : libm) (ctx : step_fall_ctx_t) (st : step_fall_statics_t)
    (t : Nat) (h0 : lm.sqrtf 0 = 0) (hgx : ctx.g_est_x = 0) (hgy : ctx.g_est_y = 0)
    (ha : st.above = false) :
    ∃ ctx2 : step_fall_ctx_t,
      (step_call lm (some ctx) st (gravity_sample t)).1 = false ∧
      (step_call lm (some ctx) st (gravity_sample t)).2.1 = some ctx2 ∧
      ctx2.g_est_x = 0 ∧ ctx2.g_est_y = 0 ∧
      (step_call lm (some ctx) st (gravity_sample t)).2.2.above = false ∧
      (step_call lm (some ctx) st (gravity_sample t)).2.2.last_fall_time =
        st.last_fall_time := by
  unfold step_call step_fall_detect_step
  simp only [gravity_sample, estimate_gravity, hgx, hgy, ha, Int.cast_zero, zero_div,
    mul_zero, add_zero, sub_zero, h0, zero_mul, store_prev_sample]
  have hlt : ¬ ((0 : ℚ) > 8 / 100) := by norm_num
  simp only [hlt, decide_False, Bool.and_false, Bool.false_eq_true, if_false]
  refine ⟨_, ?_, rfl, ?_, ?_, ?_, ?_⟩ <;> trivial

/-- With `sqrtf 1 = 1` the pure-gravity sample does not satisfy the trigger condition. -/
theorem gravity_no_trigger (lm : libm) (h1 : lm.sqrtf 1 = 1) :
    ¬ fall_trigger_spec lm 0 0 16384 := by
  unfold fall_trigger_spec
  norm_num [h1]

/-- On a pure-gravity sample `step_fall_detect_fall` reports no fall and leaves the statics
as they are. -/
theorem fall_call_gravity (lm : libm) (ctx : step_fall_ctx_t) (st : step_fall_statics_t)
    (t : Nat) (h1 : lm.sqrtf 1 = 1) :
    (fall_call lm (some ctx) st (gravity_sample t)).1.fall_detected = false ∧
    (fall_call lm (some ctx) st (gravity_sample t)).2.1 = some ctx ∧
    (fall_call lm (some ctx) st (gravity_sample t)).2.2 = st := by
  have hn : ¬ (10000 ≤ u32_sub t st.last_fall_time ∧ fall_trigger_spec lm 0 0 16384) :=
    fun h => gravity_no_trigger lm h1 h.2
  unfold fall_call
  rw [step_fall_detect_fall_some]
  simp only [gravity_sample, hn, if_false, and_self]

/-- A run of pure-gravity samples through `step_fall_detect_step` and
`step_fall_detect_fall`: every result is negative and `last_fall_time` is not modified. -/
theorem motion_run_gravity (lm : libm) (h0 : lm.sqrtf 0 = 0) (h1 : lm.sqrtf 1 = 1) :
    ∀ (times : List Nat) (ctx : step_fall_ctx_t) (st : step_fall_statics_t),
      ctx.g_est_x = 0 → ctx.g_est_y = 0 → st.above = false →
      (∀ r ∈ (motion_run lm (some ctx) st (times.map gravity_sample)).1,
        r.1 = false ∧ r.2.fall_detected = false) ∧
      (motion_run lm (some ctx) st (times.map gravity_sample)).1.length = times.length ∧
      (∃ ctx2 : step_fall_ctx_t,
        (motion_run lm (some ctx) st (times.map gravity_sample)).2.1 = some ctx2) ∧
      (motion_run lm (some ctx) st (times.map gravity_sample)).2.2.last_fall_time =
        st.last_fall_time := by
  intro times
  induction times with
  | nil => intro ctx st _ _ _; exact ⟨by simp [motion_run], rfl, ⟨ctx, rfl⟩, rfl⟩
  | cons t ts ih =>
    intro ctx st hgx hgy ha
    obtain ⟨c2, s1, s2, s3, s4, s5, s6⟩ := step_call_gravity lm ctx st t h0 hgx hgy ha
    obtain ⟨f1, f2, f3⟩ := fall_call_gravity lm c2
      (step_call lm (some ctx) st (gravity_sample t)).2.2 t h1
    have hcall : motion_call lm (some ctx) st (gravity_sample t) =
        ((false, (fall_call lm (some c2)
            (step_call lm (some ctx) st (gravity_sample t)).2.2 (gravity_sample t)).1),
          some c2, (step_call lm (some ctx) st (gravity_sample t)).2.2) := by
      unfold motion_call
      simp only [s1, s2, f2, f3]
    obtain ⟨i1, i2, i3, i4⟩ := ih c2 (step_call lm (some ctx) st (gravity_sample t)).2.2
      s3 s4 s5
    simp only [List.map_cons, motion_run, hcall, List.mem_cons, List.length_cons]
    refine ⟨?_, by rw [i2], i3, by rw [i4, s6]⟩
    rintro r (rfl | hr)
    · exact ⟨rfl, f1⟩
    · exact i1 r hr

theorem libm_ref_sqrt_zero : libm_ref.sqrtf 0 = 0 := by
  norm_num [libm_ref, sqrt_ref]

theorem libm_ref_sqrt_one : libm_ref.sqrtf 1 = 1 := by
  norm_num [libm_ref, sqrt_ref, newton_step, round9]

theorem libm_ref_sqrt_36 : libm_ref.sqrtf 36 = 6 := by
  norm_num [libm_ref, sqrt_ref, newton_step, round9]

/-- A call of `step_fall_detect_fall` that reports no fall returns direction None and
leaves the statics as they are. -/
theorem fall_call_not_detected (lm : libm) (ctx : step_fall_ctx_t)
    (st : step_fall_statics_t) (x : imu_sample)
    (h : (fall_call lm (some ctx) st x).1.fall_detected = false) :
    (fall_call lm (some ctx) st x).1.direction = FALL_DIR_NONE ∧
    (fall_call lm (some ctx) st x).2.2 = st := by
  have hn : ¬ (10000 ≤ u32_sub x.now_ms st.last_fall_time ∧
      fall_trigger_spec lm x.ax_raw x.ay_raw x.az_raw) := by
    intro hc
    rw [(fall_call_detected_iff lm ctx st x).mpr hc] at h
    exact absurd h (by simp)
  unfold fall_call
  rw [step_fall_detect_fall_some]
  simp only [hn, if_false, and_self]

/-- A call of `step_fall_detect_fall` that reports a fall returns the direction computed
from the roll and pitch of its sample. -/
theorem fall_call_direction (lm : libm) (ctx : step_fall_ctx_t)
    (st : step_fall_statics_t) (x : imu_sample)
    (h : (fall_call lm (some ctx) st x).1.fall_detected = true) :
    (fall_call lm (some ctx) st x).1.direction =
      determine_fall_direction lm
        (calculate_roll_angle lm ((x.ax_raw : ℚ) / ACC_LSB_PER_G)
          ((x.ay_raw : ℚ) / ACC_LSB_PER_G) ((x.az_raw : ℚ) / ACC_LSB_PER_G))
        (calculate_pitch_angle lm ((x.ax_raw : ℚ) / ACC_LSB_PER_G)
          ((x.ay_raw : ℚ) / ACC_LSB_PER_G) ((x.az_raw : ℚ) / ACC_LSB_PER_G)) := by
  have hc := (fall_call_detected_iff lm ctx st x).mp h
  unfold fall_call
  rw [step_fall_detect_fall_some]
  simp only [hc, and_self, if_true, ACC_LSB_PER_G]

/-! ## What survives `step_fall_init` -/

/-- From fresh statics the gated burst opens no window: every call returns false. -/
theorem gated_burst_fresh :
    (step_run libm_ref (some init_ctx) step_fall_statics_at_start gated_burst).1 =
      [false, false, false, false, false, false] := by
  norm_num [gated_burst, step_run, step_call, step_fall_detect_step, init_ctx,
    estimate_gravity, store_prev_sample, step_fall_statics_at_start, libm_ref, sqrt_ref,
    newton_step, round9, fabsf, ACC_LSB_PER_G, GYRO_LSB_PER_DPS, u32_sub, float_to_u32_220]

/-- One swing sample on fresh statics opens a window. -/
theorem swing_opens_window :
    (step_call libm_ref (some init_ctx) step_fall_statics_at_start
      ⟨32767, 0, 16384, 0, 0, 0, 1000⟩).2.2 =
      { last_fall_time := 0, prev_ax := 32767 / 16384, prev_ay := 0, prev_az := 1,
        above := true, peak_value := 6527800779 / 1000000000 } := by
  norm_num [step_call, step_fall_detect_step, init_ctx,
    estimate_gravity, store_prev_sample, step_fall_statics_at_start, libm_ref, sqrt_ref,
    newton_step, round9, fabsf, ACC_LSB_PER_G, GYRO_LSB_PER_DPS, u32_sub, float_to_u32_220]

/-- With a window left open, the same burst on the same freshly initialised context ends
in an accepted step. -/
theorem gated_burst_after_open :
    (step_run libm_ref (some init_ctx)
      { last_fall_time := 0, prev_ax := 32767 / 16384, prev_ay := 0, prev_az := 1,
        above := true, peak_value := 6527800779 / 1000000000 } gated_burst).1 =
      [false, false, false, false, false, true] := by
  norm_num [gated_burst, step_run, step_call, step_fall_detect_step, init_ctx,
    estimate_gravity, store_prev_sample, libm_ref, sqrt_ref,
    newton_step, round9, fabsf, ACC_LSB_PER_G, GYRO_LSB_PER_DPS, u32_sub, float_to_u32_220]

/-! ## Heart rate -/

/-- The function `calculate_spo2` leaves the heart-rate part of `heart_data` alone. -/
theorem calculate_spo2_keeps_hr (sq : signal_quality_t) (count : Int) (hd : heart_data_t) :
    (calculate_spo2 sq count hd).last_hr_bpm = hd.last_hr_bpm ∧
    (calculate_spo2 sq count hd).hr_valid = hd.hr_valid ∧
    (calculate_spo2 sq count hd).beat_data = hd.beat_data ∧
    (calculate_spo2 sq count hd).last_beat_time = hd.last_beat_time := by
  unfold calculate_spo2
  simp only []
  split_ifs <;> simp only [and_self]

/-- The function `calculate_stable_heart_rate` never clears `hr_valid`. -/
theorem calculate_stable_heart_rate_valid (hd : heart_data_t) (h : hd.hr_valid = true) :
    (calculate_stable_heart_rate hd).hr_valid = true := by
  unfold calculate_stable_heart_rate
  split_ifs
  · exact h
  · simp only []
  · simp only []

/-- The heart-beat stage never clears `hr_valid`. -/
theorem hr_beat_stage_valid (lm : libm) (sb : signal_buffer_t) (sq : signal_quality_t)
    (hd : heart_data_t) (st : hr_statics_t) (current_time detect_time : Int)
    (h : hd.hr_valid = true) :
    (hr_beat_stage lm sb sq hd st current_time detect_time).1.hr_valid = true := by
  unfold hr_beat_stage
  apply calculate_stable_heart_rate_valid
  simp only []
  split_ifs <;> exact h

/-- The heart data after `hr_update_sample` on an initialised buffer, by cases on the
quality just evaluated, the number of buffered samples and the SpO2 cadence test. -/
theorem hr_update_sample_heart_data (lm : libm) (s : hr_state) (red ir : Nat)
    (current_time detect_time : Int) (hinit : s.signal_buffer.initialized = true) :
    (hr_update_sample lm s red ir current_time detect_time).heart_data =
      (if Int.tmod s.signal_buffer.count 50 = 0 then
        calculate_spo2 (hr_update_sample lm s red ir current_time detect_time).signal_quality
          s.signal_buffer.count
          (if (hr_update_sample lm s red ir current_time
                detect_time).signal_quality.quality_good = true ∧
              s.signal_buffer.count > 100 then
            (hr_beat_stage lm (hr_store_sample s red ir current_time).1
              (hr_update_sample lm s red ir current_time detect_time).signal_quality
              s.heart_data
              (evaluate_signal_quality lm (hr_store_sample s red ir current_time).1
                (hr_store_sample s red ir current_time).2 s.signal_quality s.statics).2
              current_time detect_time).1
           else s.heart_data)
       else
        (if (hr_update_sample lm s red ir current_time
              detect_time).signal_quality.quality_good = true ∧
            s.signal_buffer.count > 100 then
          (hr_beat_stage lm (hr_store_sample s red ir current_time).1
            (hr_update_sample lm s red ir current_time detect_time).signal_quality
            s.heart_data
            (evaluate_signal_quality lm (hr_store_sample s red ir current_time).1
              (hr_store_sample s red ir current_time).2 s.signal_quality s.statics).2
            current_time detect_time).1
         else s.heart_data)) := by
  rw [(hr_update_sample_initialized lm s red ir current_time detect_time hinit).2.1]
  unfold hr_update_sample
  simp only [hinit, Bool.not_true, Bool.false_eq_true, if_false,
    (hr_store_sample_fields s red ir current_time).2.1, Bool.and_eq_true, decide_eq_true_eq]
  split_ifs <;> rfl

theorem ring_index_15 (h i : Int) (h0 : 0 ≤ h) (h1 : h < 15) (hi0 : 0 ≤ i) (hi : i < 5) :
    Int.tmod (h - 1 - i + MAX_BEAT_INTERVALS) MAX_BEAT_INTERVALS = (h - 1 - i) % 15 := by
  unfold MAX_BEAT_INTERVALS
  rw [Int.tmod_eq_emod (by omega) (by omega)]
  omega

theorem soft_clamp_eq (new : ℚ) :
    (if (if new < 63 then 63 + (new - 63) * (1 / 10) else new) > 77 then
        77 + ((if new < 63 then 63 + (new - 63) * (1 / 10) else new) - 77) * (1 / 10)
      else (if new < 63 then 63 + (new - 63) * (1 / 10) else new)) =
    (if new < 63 then 63 + 1 / 10 * (new - 63)
      else if new > 77 then 77 + 1 / 10 * (new - 77) else new) := by
  by_cases h1 : new < 63
  · have h2 : ¬ (63 + (new - 63) * (1 / 10) > 77) := by
      intro h; linarith
    simp only [h1, if_true, h2, if_false]; ring
  · simp only [h1, if_false]
    split_ifs
    · ring
    · rfl

/-- The average interval that `calculate_stable_heart_rate` computes with its two loops is
the weighted average of the specification. -/
theorem stable_avg_eq (hd : heart_data_t)
    (hh0 : 0 ≤ hd.beat_data.head) (hh1 : hd.beat_data.head < 15)
    (hc : 3 ≤ hd.beat_data.count) :
    Int.tdiv
      ((List.range (if hd.beat_data.count > 5 then (5 : Int) else hd.beat_data.count).toNat).foldl
        (fun (acc : Int × Int) (i : Nat) =>
          (acc.1 +
            ((List.range
                (if hd.beat_data.count > 5 then (5 : Int) else hd.beat_data.count).toNat).foldl
              (fun (recent_intervals : Int → Int) (i : Nat) =>
                Function.update recent_intervals (i : Int)
                  (hd.beat_data.intervals
                    (Int.tmod (hd.beat_data.head - 1 - (i : Int) + MAX_BEAT_INTERVALS)
                      MAX_BEAT_INTERVALS)))
              (fun _ => 0)) i *
              ((if hd.beat_data.count > 5 then (5 : Int) else hd.beat_data.count) - (i : Int)),
            acc.2 +
              ((if hd.beat_data.count > 5 then (5 : Int) else hd.beat_data.count) - (i : Int))))
        (0, 0)).1
      ((List.range (if hd.beat_data.count > 5 then (5 : Int) else hd.beat_data.count).toNat).foldl
        (fun (acc : Int × Int) (i : Nat) =>
          (acc.1 +
            ((List.range
                (if hd.beat_data.count > 5 then (5 : Int) else hd.beat_data.count).toNat).foldl
              (fun (recent_intervals : Int → Int) (i : Nat) =>
                Function.update recent_intervals (i : Int)
                  (hd.beat_data.intervals
                    (Int.tmod (hd.beat_data.head - 1 - (i : Int) + MAX_BEAT_INTERVALS)
                      MAX_BEAT_INTERVALS)))
              (fun _ => 0)) i *
              ((if hd.beat_data.count > 5 then (5 : Int) else hd.beat_data.count) - (i : Int)),
            acc.2 +
              ((if hd.beat_data.count > 5 then (5 : Int) else hd.beat_data.count) - (i : Int))))
        (0, 0)).2 =
    Int.tdiv
      (∑ i in Finset.range (min hd.beat_data.count 5).toNat,
        ((((min hd.beat_data.count 5).toNat : Nat) : Int) - (i : Int)) *
          hd.beat_data.intervals ((hd.beat_data.head - 1 - (i : Int)) % 15))
      (∑ i in Finset.range (min hd.beat_data.count 5).toNat,
        ((((min hd.beat_data.count 5).toNat : Nat) : Int) - (i : Int))) := by
  have r0 := ring_index_15 hd.beat_data.head 0 hh0 hh1 (by norm_num) (by norm_num)
  have r1 := ring_index_15 hd.beat_data.head 1 hh0 hh1 (by norm_num) (by norm_num)
  have r2 := ring_index_15 hd.beat_data.head 2 hh0 hh1 (by norm_num) (by norm_num)
  have r3 := ring_index_15 hd.beat_data.head 3 hh0 hh1 (by norm_num) (by norm_num)
  have r4 := ring_index_15 hd.beat_data.head 4 hh0 hh1 (by norm_num) (by norm_num)
  simp only [sub_zero] at r0
  rcases (by omega : hd.beat_data.count = 3 ∨ hd.beat_data.count = 4 ∨
      5 ≤ hd.beat_data.count) with h3 | h4 | h5
  · simp [h3, List.range_succ, Finset.sum_range_succ, Function.update_apply, r0, r1, r2]
    congr 1
    ring
  · simp [h4, List.range_succ, Finset.sum_range_succ, Function.update_apply, r0, r1, r2, r3]
    congr 1
    ring
  · have hk : (if hd.beat_data.count > 5 then (5 : Int) else hd.beat_data.count) = 5 := by
      split_ifs <;> omega
    have hm : min hd.beat_data.count 5 = 5 := min_eq_right h5
    rw [hk, hm]
    simp [List.range_succ, Finset.sum_range_succ, Function.update_apply, r0, r1, r2, r3, r4]
    congr 1
    ring

/-- The record `calculate_stable_heart_rate` returns when at least three intervals are
stored. -/
theorem calculate_stable_heart_rate_eq (hd : heart_data_t)
    (hh0 : 0 ≤ hd.beat_data.head) (hh1 : hd.beat_data.head < 15)
    (hc : 3 ≤ hd.beat_data.count) :
    calculate_stable_heart_rate hd =
      { hd with last_hr_bpm := stable_hr_spec hd, hr_valid := true } := by
  have hn : ¬ (hd.beat_data.count < MIN_BEATS_FOR_CALCULATION) := by
    unfold MIN_BEATS_FOR_CALCULATION; omega
  unfold calculate_stable_heart_rate stable_hr_spec
  rw [if_neg hn]
  simp only []
  rw [stable_avg_eq hd hh0 hh1 hc, soft_clamp_eq]
  norm_num [SMOOTHING_FACTOR]

/-- Storing an interval with `add_beat_interval` puts it in the slot read as the most
recent one (`(head - 1) mod 15`) and moves every earlier interval one place back. -/
theorem add_beat_interval_ring (lm : libm) (bd : beat_data_t) (st : hr_statics_t)
    (interval timestamp : Int) (hh0 : 0 ≤ bd.head) (hh1 : bd.head < 15) :
    0 ≤ (add_beat_interval lm bd st interval timestamp).1.head ∧
    (add_beat_interval lm bd st interval timestamp).1.head < 15 ∧
    (((add_beat_interval lm bd st interval timestamp).1.head - 1) % 15 = bd.head) ∧
    (∀ i : Int, 0 ≤ i → i < 14 →
      (add_beat_interval lm bd st interval timestamp).1.intervals
          (((add_beat_interval lm bd st interval timestamp).1.head - 1 - (i + 1)) % 15) =
        bd.intervals ((bd.head - 1 - i) % 15)) := by
  have hhead : (add_beat_interval lm bd st interval timestamp).1.head =
      Int.tmod (bd.head + 1) MAX_BEAT_INTERVALS := by
    unfold add_beat_interval
    simp only []
    split_ifs <;> rfl
  have hint : ∀ j : Int, j ≠ bd.head →
      (add_beat_interval lm bd st interval timestamp).1.intervals j = bd.intervals j := by
    intro j hj
    unfold add_beat_interval
    simp only []
    split_ifs <;> simp [Function.update_apply, hj]
  have ht : Int.tmod (bd.head + 1) MAX_BEAT_INTERVALS = (bd.head + 1) % 15 := by
    unfold MAX_BEAT_INTERVALS
    exact Int.tmod_eq_emod (by omega) (by omega)
  rw [hhead, ht]
  refine ⟨by omega, by omega, by omega, ?_⟩
  intro i hi0 hi1
  have e : ((bd.head + 1) % 15 - 1 - (i + 1)) % 15 = (bd.head - 1 - i) % 15 := by omega
  rw [e]
  exact hint _ (by omega)

theorem stable_hr_spec_three_beats : stable_hr_spec three_beats = 75 := by
  have hk : (min three_beats.beat_data.count 5).toNat = 3 := by decide
  have hd : Int.tdiv 4800000 6 = 800000 := by decide
  unfold stable_hr_spec
  rw [hk]
  norm_num [three_beats, heart_data_zero, Finset.sum_range_succ, hd]

/-! ## SpO2 cadence -/

theorem hr_foldl_count (lm : libm) :
    ∀ (samples : List ppg_sample) (s : hr_state),
      s.signal_buffer.initialized = true → 0 ≤ s.signal_buffer.count →
      s.signal_buffer.count ≤ 1000 →
      (samples.foldl
        (fun s x => hr_update_sample lm s x.red x.ir x.current_time x.detect_time)
        s).signal_buffer.count = min (s.signal_buffer.count + (samples.length : Int)) 1000 := by
  intro samples
  induction samples with
  | nil =>
    intro s _ _ h
    simp only [List.foldl_nil, List.length_nil, Nat.cast_zero, add_zero]
    exact (min_eq_left h).symm
  | cons x xs ih =>
    intro s hi h0 h1
    obtain ⟨-, -, -, ec, -, -, ei⟩ :=
      hr_update_sample_initialized lm s x.red x.ir x.current_time x.detect_time hi
    have hc0 : 0 ≤ (hr_update_sample lm s x.red x.ir x.current_time
        x.detect_time).signal_buffer.count := by
      rw [ec]; unfold BUFFER_SIZE; split_ifs <;> omega
    have hc1 : (hr_update_sample lm s x.red x.ir x.current_time
        x.detect_time).signal_buffer.count ≤ 1000 := by
      rw [ec]; unfold BUFFER_SIZE; split_ifs <;> omega
    rw [List.foldl_cons, ih _ ei hc0 hc1, ec]
    unfold BUFFER_SIZE
    simp only [List.length_cons, Nat.cast_add, Nat.cast_one]
    split_ifs with h
    · congr 1; ring
    · rw [min_eq_right (by omega), min_eq_right (by omega)]

/-- After `n` calls of `hr_update_sample` from `heart_rate_calculator_init` the count is
`min n 1000`. -/
theorem hr_run_count (lm : libm) (s0 : hr_state) (samples : List ppg_sample) :
    (hr_run lm s0 samples).signal_buffer.count = min (samples.length : Int) 1000 := by
  have h := hr_foldl_count lm samples (heart_rate_calculator_init s0) rfl (le_refl _)
    (by simp [heart_rate_calculator_init, signal_buffer_zero])
  have h0 : (heart_rate_calculator_init s0).signal_buffer.count = 0 := rfl
  rw [h0, zero_add] at h
  exact h

/-- Whether the call that follows `n` earlier calls reaches `calculate_spo2`. -/
theorem spo2_recomputed_run (lm : libm) (s0 : hr_state) (samples : List ppg_sample) :
    spo2_recomputed (hr_run lm s0 samples) =
      decide (Int.tmod (min (samples.length : Int) 1000) 50 = 0) := by
  unfold spo2_recomputed
  rw [(hr_run_bounds lm s0 samples).1, hr_run_count, Bool.true_and]

/-! ## The Z axes in step detection -/

/-- One call of `step_fall_detect_step` after the Z gravity estimate, the Z slot of the
previous-sample memory and the two Z readings have been replaced: same result, and the
same state up to `g_est_z` and `prev_az`. -/
theorem step_call_with_z (lm : libm) (c : step_fall_ctx_t) (s : step_fall_statics_t)
    (x : imu_sample) (z p : ℚ) (az_raw gz_raw : Int) :
    ∃ (c2 : step_fall_ctx_t) (z2 p2 : ℚ),
      (step_call lm (some c) s x).2.1 = some c2 ∧
      step_call lm (some { c with g_est_z := z }) { s with prev_az := p }
          (with_z x az_raw gz_raw) =
        ((step_call lm (some c) s x).1, some { c2 with g_est_z := z2 },
          { (step_call lm (some c) s x).2.2 with prev_az := p2 }) := by
  obtain ⟨ax, ay, az, gx, gy, gz, t⟩ := x
  unfold step_call step_fall_detect_step with_z
  dsimp only [estimate_gravity]
  generalize lm.sqrtf
    (((ax : ℚ) / ACC_LSB_PER_G - ((1 - c.lpf_a) * c.g_est_x + c.lpf_a * ((ax : ℚ) / ACC_LSB_PER_G))) *
        ((ax : ℚ) / ACC_LSB_PER_G -
          ((1 - c.lpf_a) * c.g_est_x + c.lpf_a * ((ax : ℚ) / ACC_LSB_PER_G))) +
      ((ay : ℚ) / ACC_LSB_PER_G - ((1 - c.lpf_a) * c.g_est_y + c.lpf_a * ((ay : ℚ) / ACC_LSB_PER_G))) *
        ((ay : ℚ) / ACC_LSB_PER_G -
          ((1 - c.lpf_a) * c.g_est_y + c.lpf_a * ((ay : ℚ) / ACC_LSB_PER_G)))) = xy_motion
  generalize lm.sqrtf
    (fabsf ((ax : ℚ) / ACC_LSB_PER_G - s.prev_ax) * fabsf ((ax : ℚ) / ACC_LSB_PER_G - s.prev_ax) +
      fabsf ((ay : ℚ) / ACC_LSB_PER_G - s.prev_ay) * fabsf ((ay : ℚ) / ACC_LSB_PER_G - s.prev_ay))
    = xy_delta
  generalize lm.sqrtf
    ((gx : ℚ) / GYRO_LSB_PER_DPS * ((gx : ℚ) / GYRO_LSB_PER_DPS) +
      (gy : ℚ) / GYRO_LSB_PER_DPS * ((gy : ℚ) / GYRO_LSB_PER_DPS)) = xy_gyro
  split_ifs
  all_goals exact ⟨_, _, _, rfl, rfl⟩

/-- Runs of `step_fall_detect_step` that differ only in the Z readings, in the Z gravity
estimate and in the Z slot of the previous-sample memory give the same results. -/
theorem step_run_with_z (lm : libm) :
    ∀ (xs : List (imu_sample × Int × Int)) (c : step_fall_ctx_t) (s : step_fall_statics_t)
      (z p : ℚ),
      ∃ (c2 : step_fall_ctx_t) (z2 p2 : ℚ),
        (step_run lm (some c) s (xs.map Prod.fst)).2.1 = some c2 ∧
        step_run lm (some { c with g_est_z := z }) { s with prev_az := p }
            (xs.map (fun q => with_z q.1 q.2.1 q.2.2)) =
          ((step_run lm (some c) s (xs.map Prod.fst)).1, some { c2 with g_est_z := z2 },
            { (step_run lm (some c) s (xs.map Prod.fst)).2.2 with prev_az := p2 }) := by
  intro xs
  induction xs with
  | nil => intro c s z p; exact ⟨c, z, p, rfl, rfl⟩
  | cons q xs ih =>
    intro c s z p
    obtain ⟨c1, z1, p1, e1, e2⟩ := step_call_with_z lm c s q.1 z p q.2.1 q.2.2
    obtain ⟨c2, z2, p2, f1, f2⟩ := ih c1 (step_call lm (some c) s q.1).2.2 z1 p1
    refine ⟨c2, z2, p2, ?_, ?_⟩
    · simp only [List.map_cons, step_run, e1]
      exact f1
    · simp only [List.map_cons, step_run, e1, e2, f2]

/-! ## The fall hold of `read_mpu6050` -/

/-- The motion part of `read_mpu6050` writes neither the hold variables nor the stored
`fall_detected`. -/
theorem read_mpu6050_motion_hold (lm : libm) (s : sensor_manager_state)
    (d : mpu6050_data_t) (now_ms : Nat) :
    (read_mpu6050_motion lm s d now_ms).2.fall_detected_flag = s.fall_detected_flag ∧
    (read_mpu6050_motion lm s d now_ms).2.fall_reset_time = s.fall_reset_time ∧
    (read_mpu6050_motion lm s d now_ms).2.current_data.fall_detected =
      s.current_data.fall_detected := by
  unfold read_mpu6050_motion
  simp only []
  split_ifs <;>
    simp [sensor_data_set_steps, xSemaphoreTake_portMAX_DELAY]

/-- While a hold is active, a call of `read_mpu6050` that fails or whose `now_ms` is
below the reset time keeps the hold and the stored `fall_detected`. -/
theorem read_mpu6050_keeps_hold (lm : libm) (s : sensor_manager_state) (m : mpu_read)
    (hflag : s.fall_detected_flag = true)
    (hm : m.ret_ok = false ∨ mpu_read_now_ms m < s.fall_reset_time) :
    (read_mpu6050 lm s m.ret_ok m.data m.timer_us).2.fall_detected_flag = true ∧
    (read_mpu6050 lm s m.ret_ok m.data m.timer_us).2.fall_reset_time = s.fall_reset_time ∧
    (read_mpu6050 lm s m.ret_ok m.data m.timer_us).2.current_data.fall_detected =
      s.current_data.fall_detected := by
  unfold read_mpu6050
  cases hok : m.ret_ok
  · simp [hflag]
  · have hlt : mpu_read_now_ms m < s.fall_reset_time := by
      rcases hm with h | h
      · rw [hok] at h; exact absurd h (by simp)
      · exact h
    obtain ⟨a, b, c⟩ := read_mpu6050_motion_hold lm s m.data (m.timer_us / 1000 % 2 ^ 32)
    unfold mpu_read_now_ms at hlt
    simp only [if_true, read_mpu6050_hold, a, b, hflag, Bool.not_true, Bool.and_false,
      Bool.false_eq_true, if_false, Bool.true_and, ge_iff_le, decide_eq_true_eq,
      not_le.mpr hlt, c, and_self]

theorem read_run_keeps_hold (lm : libm) :
    ∀ (mid : List mpu_read) (s : sensor_manager_state),
      s.fall_detected_flag = true →
      (∀ m ∈ mid, m.ret_ok = false ∨ mpu_read_now_ms m < s.fall_reset_time) →
      (read_run lm s mid).fall_detected_flag = true ∧
      (read_run lm s mid).fall_reset_time = s.fall_reset_time ∧
      (read_run lm s mid).current_data.fall_detected = s.current_data.fall_detected := by
  intro mid
  induction mid with
  | nil => intro s h _; exact ⟨h, rfl, rfl⟩
  | cons m mid ih =>
    intro s hflag hm
    obtain ⟨a, b, c⟩ := read_mpu6050_keeps_hold lm s m hflag (hm m (List.mem_cons_self _ _))
    have := ih (read_mpu6050 lm s m.ret_ok m.data m.timer_us).2 a
      (fun x hx => by rw [b]; exact hm x (List.mem_cons_of_mem _ hx))
    rw [b, c] at this
    exact this

/-- A successful call of `read_mpu6050` in which `step_fall_detect_fall` reports a fall
while no hold is active, and `now_ms + 3000` does not wrap: the store holds 1 and the hold
is armed for `now_ms + 3000`. -/
theorem read_mpu6050_arms_hold (lm : libm) (s : sensor_manager_state) (r : mpu_read)
    (hok : r.ret_ok = true) (hflag : s.fall_detected_flag = false)
    (hfall : (read_mpu6050_motion lm s r.data (mpu_read_now_ms r)).1.fall_detected = true)
    (hwrap : mpu_read_now_ms r + 3000 < 2 ^ 32) :
    (read_mpu6050 lm s r.ret_ok r.data r.timer_us).2.fall_detected_flag = true ∧
    (read_mpu6050 lm s r.ret_ok r.data r.timer_us).2.fall_reset_time =
      mpu_read_now_ms r + 3000 ∧
    (read_mpu6050 lm s r.ret_ok r.data r.timer_us).2.current_data.fall_detected = 1 := by
  obtain ⟨a, b, c⟩ := read_mpu6050_motion_hold lm s r.data (r.timer_us / 1000 % 2 ^ 32)
  unfold mpu_read_now_ms at hfall hwrap ⊢
  unfold read_mpu6050
  have hmod : (r.timer_us / 1000 % 2 ^ 32 + 3000) % 2 ^ 32 = r.timer_us / 1000 % 2 ^ 32 + 3000 :=
    Nat.mod_eq_of_lt hwrap
  have hnot : ¬ (r.timer_us / 1000 % 2 ^ 32 + 3000 ≤ r.timer_us / 1000 % 2 ^ 32) := by omega
  simp only [hok, if_true, read_mpu6050_hold, hfall, a, hflag, Bool.not_false, Bool.and_self,
    hmod, Bool.true_and, ge_iff_le, decide_eq_true_eq, hnot, if_false,
    sensor_data_set_fall_detected, xSemaphoreTake_portMAX_DELAY, and_self]

/-- While a hold is active, a successful call of `read_mpu6050` whose `now_ms` has
reached the reset time stores 0 and ends the hold. -/
theorem read_mpu6050_releases_hold (lm : libm) (s : sensor_manager_state) (r : mpu_read)
    (hok : r.ret_ok = true) (hflag : s.fall_detected_flag = true)
    (ht : s.fall_reset_time ≤ mpu_read_now_ms r) :
    (read_mpu6050 lm s r.ret_ok r.data r.timer_us).2.fall_detected_flag = false ∧
    (read_mpu6050 lm s r.ret_ok r.data r.timer_us).2.current_data.fall_detected = 0 := by
  obtain ⟨a, b, c⟩ := read_mpu6050_motion_hold lm s r.data (r.timer_us / 1000 % 2 ^ 32)
  unfold mpu_read_now_ms at ht
  unfold read_mpu6050
  simp only [hok, if_true, read_mpu6050_hold, a, b, hflag, Bool.not_true, Bool.and_false,
    Bool.false_eq_true, if_false, Bool.true_and, ge_iff_le, decide_eq_true_eq, ht,
    sensor_data_set_fall_detected, xSemaphoreTake_portMAX_DELAY, and_self]

theorem read_run_cons (lm : libm) (s : sensor_manager_state) (r : mpu_read)
    (rs : List mpu_read) :
    read_run lm s (r :: rs) =
      read_run lm (read_mpu6050 lm s r.ret_ok r.data r.timer_us).2 rs := rfl

theorem read_run_snoc (lm : libm) (s : sensor_manager_state) (rs : List mpu_read)
    (r : mpu_read) :
    read_run lm s (rs ++ [r]) =
      (read_mpu6050 lm (read_run lm s rs) r.ret_ok r.data r.timer_us).2 := by
  unfold read_run
  rw [List.foldl_append]
  rfl

/-- A call of `step_fall_detect_step` does not write `last_fall_time`. -/
theorem step_fall_detect_step_last_fall_time (lm : libm) (c : step_fall_ctx_t)
    (s : step_fall_statics_t) (ax_raw ay_raw az_raw gx_raw gy_raw gz_raw : Int)
    (now_ms : Nat) :
    (step_fall_detect_step lm (some c) s ax_raw ay_raw az_raw gx_raw gy_raw gz_raw
      now_ms).2.2.last_fall_time = s.last_fall_time := by
  unfold step_fall_detect_step
  simp only [estimate_gravity]
  split_ifs <;> rfl

/-- The fall that `read_mpu6050` sees: `step_fall_detect_fall` reports one exactly when
the cooldown counted from the current `last_fall_time` has elapsed and the reading
satisfies the trigger condition. -/
theorem read_mpu6050_motion_fall (lm : libm) (s : sensor_manager_state)
    (d : mpu6050_data_t) (now_ms : Nat) :
    (read_mpu6050_motion lm s d now_ms).1.fall_detected = true ↔
      (10000 ≤ u32_sub now_ms s.step_fall_statics.last_fall_time ∧
        fall_trigger_spec lm d.ax d.ay d.az) := by
  unfold read_mpu6050_motion
  simp only []
  have key : ∀ (c : step_fall_ctx_t) (st : step_fall_statics_t),
      st.last_fall_time = s.step_fall_statics.last_fall_time →
      ((step_fall_detect_fall lm (some c) st d.ax d.ay d.az d.gx d.gy d.gz
          now_ms).1.fall_detected = true ↔
        (10000 ≤ u32_sub now_ms s.step_fall_statics.last_fall_time ∧
          fall_trigger_spec lm d.ax d.ay d.az)) := by
    intro c st h
    rw [← h]
    exact fall_call_detected_iff lm c st ⟨d.ax, d.ay, d.az, d.gx, d.gy, d.gz, now_ms⟩
  split_ifs <;>
    exact key _ _ (step_fall_detect_step_last_fall_time lm _ _ _ _ _ _ _ _ _)

/-! ## Range of the total acceleration -/

theorem total_accel_sq_le (ax_raw ay_raw az_raw : Int) (hx : is_int16 ax_raw)
    (hy : is_int16 ay_raw) (hz : is_int16 az_raw) :
    0 ≤ total_accel_sq ax_raw ay_raw az_raw ∧ total_accel_sq ax_raw ay_raw az_raw ≤ 12 := by
  have sq4 : ∀ v : Int, is_int16 v → ((v : ℚ) / 16384) ^ 2 ≤ 4 := by
    intro v hv
    obtain ⟨h1, h2⟩ := hv
    have a1 : (-32768 : ℚ) ≤ (v : ℚ) := by exact_mod_cast h1
    have a2 : (v : ℚ) ≤ 32767 := by exact_mod_cast h2
    have : ((v : ℚ) / 16384) ^ 2 = (v : ℚ) ^ 2 / 268435456 := by ring
    rw [this, div_le_iff₀ (by norm_num)]
    nlinarith
  unfold total_accel_sq
  have := sq4 ax_raw hx
  have := sq4 ay_raw hy
  have := sq4 az_raw hz
  constructor
  · positivity
  · linarith

theorem real_sqrt_12_lt : 2 * Real.sqrt 3 < 347 / 100 := by
  have h : Real.sqrt 3 < 1735 / 1000 := by
    rw [Real.sqrt_lt' (by norm_num)]
    norm_num
  linarith

/-! ## Range of a valid SpO2 value -/

/-- The clamp of `calculate_spo2` written with `max` and `min`. -/
theorem spo2_clamp_eq (c : ℚ) :
    (if (if c > 100 then 100 else c) < 75 then 75 else (if c > 100 then 100 else c)) =
      max 75 (min 100 c) := by
  by_cases h1 : c > 100
  · rw [if_pos h1, if_neg (by norm_num), min_eq_left (le_of_lt h1), max_eq_right (by norm_num)]
  · rw [if_neg h1, min_eq_right (not_lt.mp h1)]
    by_cases h2 : c < 75
    · rw [if_pos h2, max_eq_left (le_of_lt h2)]
    · rw [if_neg h2, max_eq_right (not_lt.mp h2)]

/-- The computing branch of `calculate_spo2`: good quality, at least 500 samples and a
positive IR ratio. -/
theorem calculate_spo2_computed (sq : signal_quality_t) (count : Int) (hd : heart_data_t)
    (hq : sq.quality_good = true) (hc : 500 ≤ count)
    (hpos : 0 < sq.ir_ac_rms / sq.ir_dc) :
    calculate_spo2 sq count hd =
      { hd with
        r_ratio := (sq.red_ac_rms / sq.red_dc) / (sq.ir_ac_rms / sq.ir_dc)
        last_spo2 := round (max 75 (min 100
          (spo2_curve ((sq.red_ac_rms / sq.red_dc) / (sq.ir_ac_rms / sq.ir_dc)))))
        spo2_valid := decide
          ((sq.red_ac_rms / sq.red_dc) / (sq.ir_ac_rms / sq.ir_dc) ≥ 1 / 2 ∧
            (sq.red_ac_rms / sq.red_dc) / (sq.ir_ac_rms / sq.ir_dc) ≤ 3 ∧
            sq.perfusion_index ≥ MIN_PERFUSION_INDEX ∧
            round (max 75 (min 100
              (spo2_curve ((sq.red_ac_rms / sq.red_dc) / (sq.ir_ac_rms / sq.ir_dc)))))
              ≥ SPO2_SEVERE_HYPOXIA) } := by
  have hnn : ∀ c : ℚ, (0 : ℚ) ≤ max 75 (min 100 c) :=
    fun c => le_trans (by norm_num) (le_max_left _ _)
  unfold calculate_spo2
  have hc2 : ¬ (count < 500) := not_lt.mpr hc
  simp only [hq, hc2, Bool.not_true, decide_False, Bool.or_self, Bool.false_eq_true,
    if_false, not_le.mpr hpos]
  simp only [spo2_clamp_eq, float_to_int_round _ (hnn _)]
  split_ifs with h
  · rw [decide_eq_true h]
  · rw [decide_eq_false h]

/-- Outside the computing branch `calculate_spo2` clears `spo2_valid`. -/
theorem calculate_spo2_not_computed (sq : signal_quality_t) (count : Int) (hd : heart_data_t)
    (h : ¬ (sq.quality_good = true ∧ 500 ≤ count ∧ 0 < sq.ir_ac_rms / sq.ir_dc)) :
    (calculate_spo2 sq count hd).spo2_valid = false := by
  unfold calculate_spo2
  by_cases h1 : (!sq.quality_good || decide (count < 500)) = true
  · rw [if_pos h1]
  · rw [if_neg h1]
    by_cases h2 : sq.ir_ac_rms / sq.ir_dc ≤ 0
    · simp only [h2, if_true]
    · exfalso
      apply h
      simp only [Bool.or_eq_true, Bool.not_eq_true', decide_eq_true_eq, not_or,
        Bool.not_eq_false, not_lt] at h1
      exact ⟨h1.1, h1.2, not_le.mp h2⟩

/-- The calibration curve on the valid range of the ratio: below 98.7575. -/
theorem spo2_curve_le (r : ℚ) (h1 : 1 / 2 ≤ r) : spo2_curve r ≤ 987575 / 10000 := by
  unfold spo2_curve
  split_ifs with h
  · nlinarith [mul_nonneg (sub_nonneg.mpr h1) (sub_nonneg.mpr h1)]
  · linarith

/-- The rounded clamp is at least 75, and at most 99 when the curve is below 99.5. -/
theorem round_clamp_bounds (c : ℚ) :
    75 ≤ round (max 75 (min 100 c)) ∧ (c < 995 / 10 → round (max 75 (min 100 c)) ≤ 99) := by
  rw [round_eq]
  constructor
  · rw [Int.le_floor]
    have := le_max_left (75 : ℚ) (min 100 c)
    push_cast
    linarith
  · intro hc
    have h : max 75 (min 100 c) < 995 / 10 :=
      max_lt (by norm_num) (lt_of_le_of_lt (min_le_right _ _) hc)
    have : ⌊max 75 (min 100 c) + 1 / 2⌋ < 100 := by
      rw [Int.floor_lt]
      push_cast
      linarith
    omega

/-- Whatever its inputs, `calculate_spo2` leaves a valid value only inside `[75, 99]`. -/
theorem calculate_spo2_valid_range (sq : signal_quality_t) (count : Int) (hd : heart_data_t)
    (hv : (calculate_spo2 sq count hd).spo2_valid = true) :
    75 ≤ (calculate_spo2 sq count hd).last_spo2 ∧
    (calculate_spo2 sq count hd).last_spo2 ≤ 99 := by
  by_cases h : sq.quality_good = true ∧ 500 ≤ count ∧ 0 < sq.ir_ac_rms / sq.ir_dc
  · obtain ⟨hq, hc, hpos⟩ := h
    rw [calculate_spo2_computed sq count hd hq hc hpos] at hv ⊢
    simp only [decide_eq_true_eq] at hv
    exact ⟨(round_clamp_bounds _).1,
      (round_clamp_bounds _).2 (lt_of_le_of_lt (spo2_curve_le _ hv.1) (by norm_num))⟩
  · rw [calculate_spo2_not_computed sq count hd h] at hv
    exact absurd hv (by simp)

/-- The heart-beat part of `hr_update_sample` leaves the SpO2 fields alone. -/
theorem hr_beat_stage_keeps_spo2 (lm : libm) (sb : signal_buffer_t) (sq : signal_quality_t)
    (hd : heart_data_t) (st : hr_statics_t) (current_time detect_time : Int) :
    (hr_beat_stage lm sb sq hd st current_time detect_time).1.last_spo2 = hd.last_spo2 ∧
    (hr_beat_stage lm sb sq hd st current_time detect_time).1.spo2_valid = hd.spo2_valid := by
  have hs : ∀ h : heart_data_t,
      (calculate_stable_heart_rate h).last_spo2 = h.last_spo2 ∧
      (calculate_stable_heart_rate h).spo2_valid = h.spo2_valid := by
    intro h
    unfold calculate_stable_heart_rate
    by_cases hc : h.beat_data.count < MIN_BEATS_FOR_CALCULATION
    · rw [if_pos hc]
      exact ⟨rfl, rfl⟩
    · rw [if_neg hc]
      exact ⟨rfl, rfl⟩
  unfold hr_beat_stage
  simp only []
  rw [(hs _).1, (hs _).2]
  split_ifs <;> exact ⟨rfl, rfl⟩

/-- One call of `hr_update_sample` keeps "a valid SpO2 value lies in `[75, 99]`". -/
theorem hr_update_sample_spo2_range (lm : libm) (s : hr_state) (x : ppg_sample)
    (h : s.heart_data.spo2_valid = true →
      75 ≤ s.heart_data.last_spo2 ∧ s.heart_data.last_spo2 ≤ 99) :
    (hr_update_sample lm s x.red x.ir x.current_time x.detect_time).heart_data.spo2_valid
        = true →
      75 ≤ (hr_update_sample lm s x.red x.ir x.current_time x.detect_time).heart_data.last_spo2 ∧
      (hr_update_sample lm s x.red x.ir x.current_time x.detect_time).heart_data.last_spo2
        ≤ 99 := by
  cases hinit : s.signal_buffer.initialized
  · have hs : hr_update_sample lm s x.red x.ir x.current_time x.detect_time = s := by
      unfold hr_update_sample; simp [hinit]
    rw [hs]; exact h
  · rw [hr_update_sample_heart_data lm s x.red x.ir x.current_time x.detect_time hinit]
    split_ifs
    · exact calculate_spo2_valid_range _ _ _
    · exact calculate_spo2_valid_range _ _ _
    · rw [(hr_beat_stage_keeps_spo2 _ _ _ _ _ _ _).1, (hr_beat_stage_keeps_spo2 _ _ _ _ _ _ _).2]
      exact h
    · exact h

/-- In every state reached from `heart_rate_calculator_init`, a valid SpO2 value lies in
`[75, 99]`. -/
theorem hr_run_spo2_range (lm : libm) (s0 : hr_state) (samples : List ppg_sample) :
    (hr_run lm s0 samples).heart_data.spo2_valid = true →
      75 ≤ (hr_run lm s0 samples).heart_data.last_spo2 ∧
      (hr_run lm s0 samples).heart_data.last_spo2 ≤ 99 := by
  induction samples using List.reverseRecOn with
  | nil => intro h; exact absurd h (by simp [hr_run, heart_rate_calculator_init, heart_data_zero])
  | append_singleton xs x ih =>
    rw [hr_run_snoc]
    exact hr_update_sample_spo2_range lm _ x ih

/-! ## The synthetic beat intervals -/

/-- The interval that `add_beat_interval` stores, for any target rate and signal factor
before clamping. -/
theorem synthetic_interval_bounds (t f : ℚ) :
    680000 ≤ float_to_int
      ((float_to_int
          (60000000 / (if (if t < 65 then 65 else t) > 75 then 75
            else (if t < 65 then 65 else t))) : ℚ) *
        (7 / 10 + 3 / 10 * (if (if f > 2 then 2 else f) < 1 / 2 then 1 / 2
          else (if f > 2 then 2 else f)))) ∧
    float_to_int
      ((float_to_int
          (60000000 / (if (if t < 65 then 65 else t) > 75 then 75
            else (if t < 65 then 65 else t))) : ℚ) *
        (7 / 10 + 3 / 10 * (if (if f > 2 then 2 else f) < 1 / 2 then 1 / 2
          else (if f > 2 then 2 else f)))) ≤ 1200000 := by
  have ht : ∃ t2 : ℚ, (if (if t < 65 then 65 else t) > 75 then 75
      else (if t < 65 then 65 else t)) = t2 ∧ 65 ≤ t2 ∧ t2 ≤ 75 := by
    refine ⟨_, rfl, ?_, ?_⟩ <;> split_ifs <;> linarith
  have hf : ∃ f2 : ℚ, (if (if f > 2 then 2 else f) < 1 / 2 then 1 / 2
      else (if f > 2 then 2 else f)) = f2 ∧ 1 / 2 ≤ f2 ∧ f2 ≤ 2 := by
    refine ⟨_, rfl, ?_, ?_⟩ <;> split_ifs <;> linarith
  obtain ⟨t2, e1, t65, t75⟩ := ht
  obtain ⟨f2, e2, f1, f3⟩ := hf
  rw [e1, e2]
  have hq0 : (0 : ℚ) ≤ 60000000 / t2 := by positivity
  have hT : float_to_int (60000000 / t2) = ⌊(60000000 : ℚ) / t2⌋ := by
    unfold float_to_int; rw [if_pos hq0]
  have hTlo : (800000 : Int) ≤ ⌊(60000000 : ℚ) / t2⌋ := by
    rw [Int.le_floor, le_div_iff₀ (by linarith)]
    push_cast; linarith
  have hThi : ⌊(60000000 : ℚ) / t2⌋ ≤ 923077 := by
    have : ⌊(60000000 : ℚ) / t2⌋ < 923078 := by
      rw [Int.floor_lt, div_lt_iff₀ (by linarith)]
      push_cast; linarith
    omega
  rw [hT]
  have a1 : (800000 : ℚ) ≤ ((⌊(60000000 : ℚ) / t2⌋ : Int) : ℚ) := by exact_mod_cast hTlo
  have a2 : ((⌊(60000000 : ℚ) / t2⌋ : Int) : ℚ) ≤ 923077 := by exact_mod_cast hThi
  generalize ((⌊(60000000 : ℚ) / t2⌋ : Int) : ℚ) = T at a1 a2
  have hp0 : (0 : ℚ) ≤ T * (7 / 10 + 3 / 10 * f2) := by
    apply mul_nonneg <;> linarith
  have hF : float_to_int (T * (7 / 10 + 3 / 10 * f2)) = ⌊T * (7 / 10 + 3 / 10 * f2)⌋ := by
    unfold float_to_int; rw [if_pos hp0]
  rw [hF]
  constructor
  · rw [Int.le_floor]
    push_cast
    nlinarith
  · have : ⌊T * (7 / 10 + 3 / 10 * f2)⌋ < 1200001 := by
      rw [Int.floor_lt]
      push_cast
      nlinarith
    omega

/-- What `add_beat_interval` does to the ring: the cursor advances, `count` saturates at
15, the slot at the old cursor receives a value between 680000 and 1200000 and no other
slot changes. -/
theorem add_beat_interval_fields (lm : libm) (bd : beat_data_t) (st : hr_statics_t)
    (interval timestamp : Int) :
    (add_beat_interval lm bd st interval timestamp).1.head =
      Int.tmod (bd.head + 1) MAX_BEAT_INTERVALS ∧
    (add_beat_interval lm bd st interval timestamp).1.count =
      (if bd.count < 15 then bd.count + 1 else bd.count) ∧
    (∀ j : Int, j ≠ bd.head →
      (add_beat_interval lm bd st interval timestamp).1.intervals j = bd.intervals j) ∧
    680000 ≤ (add_beat_interval lm bd st interval timestamp).1.intervals bd.head ∧
    (add_beat_interval lm bd st interval timestamp).1.intervals bd.head ≤ 1200000 := by
  unfold add_beat_interval
  simp only []
  by_cases h : bd.count < MAX_BEAT_INTERVALS
  · have h2 : bd.count < 15 := h
    rw [if_pos h, if_pos h2]
    refine ⟨rfl, rfl, fun j hj => Function.update_noteq hj _ _, ?_⟩
    simp only [Function.update_same]
    exact synthetic_interval_bounds _ _
  · have h2 : ¬ bd.count < 15 := h
    rw [if_neg h, if_neg h2]
    refine ⟨rfl, rfl, fun j hj => Function.update_noteq hj _ _, ?_⟩
    simp only [Function.update_same]
    exact synthetic_interval_bounds _ _

theorem add_beat_interval_inv (lm : libm) (bd : beat_data_t) (st : hr_statics_t)
    (interval timestamp : Int) (h : beat_data_inv bd) :
    beat_data_inv (add_beat_interval lm bd st interval timestamp).1 := by
  obtain ⟨h0, h1, c0, c1, hc, hs⟩ := h
  obtain ⟨eh, ec, ej, lo, hi⟩ := add_beat_interval_fields lm bd st interval timestamp
  have et : Int.tmod (bd.head + 1) MAX_BEAT_INTERVALS = (bd.head + 1) % 15 := by
    unfold MAX_BEAT_INTERVALS
    exact Int.tmod_eq_emod (by omega) (by omega)
  unfold beat_data_inv
  rw [eh, ec, et]
  refine ⟨by omega, by omega, by split_ifs <;> omega, by split_ifs <;> omega, ?_, ?_⟩
  · split_ifs with hlt
    · intro h2
      have := hc hlt
      omega
    · intro h2; omega
  · intro j j0 j1
    by_cases hj : j = bd.head
    · rw [hj]; exact ⟨lo, hi⟩
    · rw [ej j hj]
      apply hs j j0
      split_ifs at j1 with hlt
      · have := hc hlt
        omega
      · exact j1

/-- The weighted average of `calculate_stable_heart_rate` in closed form: the sums of
`stable_hr_spec`. -/
theorem stable_avg_interval_eq (hd : heart_data_t)
    (hh0 : 0 ≤ hd.beat_data.head) (hh1 : hd.beat_data.head < 15)
    (hc : 3 ≤ hd.beat_data.count) :
    stable_avg_interval hd =
      Int.tdiv
        (∑ i in Finset.range (min hd.beat_data.count 5).toNat,
          ((((min hd.beat_data.count 5).toNat : Nat) : Int) - (i : Int)) *
            hd.beat_data.intervals ((hd.beat_data.head - 1 - (i : Int)) % 15))
        (∑ i in Finset.range (min hd.beat_data.count 5).toNat,
          ((((min hd.beat_data.count 5).toNat : Nat) : Int) - (i : Int))) :=
  stable_avg_eq hd hh0 hh1 hc

/-- With at least three intervals in a consistent ring, the weighted average lies between
680000 and 1200000. -/
theorem stable_avg_interval_bounds (hd : heart_data_t) (h : beat_data_inv hd.beat_data)
    (hc : 3 ≤ hd.beat_data.count) :
    680000 ≤ stable_avg_interval hd ∧ stable_avg_interval hd ≤ 1200000 := by
  obtain ⟨h0, h1, c0, c1, hcc, hs⟩ := h
  rw [stable_avg_interval_eq hd h0 h1 hc]
  have hk3 : 3 ≤ (min hd.beat_data.count 5).toNat := by omega
  have hk5 : (min hd.beat_data.count 5).toNat ≤ 5 := by omega
  have hkc : (((min hd.beat_data.count 5).toNat : Nat) : Int) ≤ hd.beat_data.count := by omega
  generalize (min hd.beat_data.count 5).toNat = k at hk3 hk5 hkc
  have hslot : ∀ i ∈ Finset.range k,
      680000 ≤ hd.beat_data.intervals ((hd.beat_data.head - 1 - (i : Int)) % 15) ∧
      hd.beat_data.intervals ((hd.beat_data.head - 1 - (i : Int)) % 15) ≤ 1200000 := by
    intro i hi
    rw [Finset.mem_range] at hi
    apply hs
    · omega
    · by_cases hlt : hd.beat_data.count < 15
      · have := hcc hlt
        omega
      · omega
  have hw : ∀ i ∈ Finset.range k, (0 : Int) ≤ (k : Int) - (i : Int) := by
    intro i hi
    rw [Finset.mem_range] at hi
    omega
  have hW : (0 : Int) < ∑ i in Finset.range k, ((k : Int) - (i : Int)) := by
    apply Finset.sum_pos'
    · exact hw
    · exact ⟨0, Finset.mem_range.mpr (by omega), by push_cast; omega⟩
  have hlo : 680000 * (∑ i in Finset.range k, ((k : Int) - (i : Int))) ≤
      ∑ i in Finset.range k, ((k : Int) - (i : Int)) *
        hd.beat_data.intervals ((hd.beat_data.head - 1 - (i : Int)) % 15) := by
    rw [Finset.mul_sum]
    apply Finset.sum_le_sum
    intro i hi
    have := (hslot i hi).1
    have := hw i hi
    nlinarith
  have hhi : ∑ i in Finset.range k, ((k : Int) - (i : Int)) *
        hd.beat_data.intervals ((hd.beat_data.head - 1 - (i : Int)) % 15) ≤
      1200000 * (∑ i in Finset.range k, ((k : Int) - (i : Int))) := by
    rw [Finset.mul_sum]
    apply Finset.sum_le_sum
    intro i hi
    have := (hslot i hi).2
    have := hw i hi
    nlinarith
  have hS0 : (0 : Int) ≤ ∑ i in Finset.range k, ((k : Int) - (i : Int)) *
        hd.beat_data.intervals ((hd.beat_data.head - 1 - (i : Int)) % 15) := by
    have : (0 : Int) ≤ 680000 * (∑ i in Finset.range k, ((k : Int) - (i : Int))) := by
      positivity
    omega
  rw [Int.tdiv_eq_ediv hS0 (le_of_lt hW)]
  constructor
  · exact Int.le_ediv_of_mul_le hW hlo
  · exact Int.ediv_le_of_le_mul hW hhi

/-- The heart rate stored from a consistent ring with at least three intervals lies
strictly between 61 and 79, given that the previous value does when it is valid. -/
theorem stable_hr_spec_bounds (hd : heart_data_t) (h : heart_rate_inv hd)
    (hc : 3 ≤ hd.beat_data.count) :
    61 < stable_hr_spec hd ∧ stable_hr_spec hd < 79 := by
  obtain ⟨hb, hv⟩ := h
  obtain ⟨lo, hi⟩ := stable_avg_interval_bounds hd hb hc
  rw [stable_avg_interval_eq hd hb.1 hb.2.1 hc] at lo hi
  unfold stable_hr_spec
  simp only []
  generalize Int.tdiv
      (∑ i in Finset.range (min hd.beat_data.count 5).toNat,
        ((((min hd.beat_data.count 5).toNat : Nat) : Int) - (i : Int)) *
          hd.beat_data.intervals ((hd.beat_data.head - 1 - (i : Int)) % 15))
      (∑ i in Finset.range (min hd.beat_data.count 5).toNat,
        ((((min hd.beat_data.count 5).toNat : Nat) : Int) - (i : Int))) = avg at lo hi
  have a1 : (680000 : ℚ) ≤ (avg : ℚ) := by exact_mod_cast lo
  have a2 : (avg : ℚ) ≤ 1200000 := by exact_mod_cast hi
  have r1 : (50 : ℚ) ≤ 60000000 / (avg : ℚ) := by
    rw [le_div_iff₀ (by linarith)]; linarith
  have r2 : (60000000 : ℚ) / (avg : ℚ) < 89 := by
    rw [div_lt_iff₀ (by linarith)]; linarith
  generalize (60000000 : ℚ) / (avg : ℚ) = raw at r1 r2
  cases hval : hd.hr_valid
  · simp only [Bool.false_eq_true, if_false]
    split_ifs <;> constructor <;> linarith
  · obtain ⟨p1, p2⟩ := hv hval
    simp only [if_true]
    split_ifs <;> constructor <;> linarith

theorem calculate_stable_heart_rate_inv (hd : heart_data_t) (h : heart_rate_inv hd) :
    heart_rate_inv (calculate_stable_heart_rate hd) := by
  by_cases hc : 3 ≤ hd.beat_data.count
  · rw [calculate_stable_heart_rate_eq hd h.1.1 h.1.2.1 hc]
    exact ⟨h.1, fun _ => stable_hr_spec_bounds hd h hc⟩
  · have : calculate_stable_heart_rate hd = hd := by
      unfold calculate_stable_heart_rate
      rw [if_pos (by unfold MIN_BEATS_FOR_CALCULATION; omega)]
    rw [this]
    exact h

theorem hr_beat_stage_inv (lm : libm) (sb : signal_buffer_t) (sq : signal_quality_t)
    (hd : heart_data_t) (st : hr_statics_t) (current_time detect_time : Int)
    (h : heart_rate_inv hd) :
    heart_rate_inv (hr_beat_stage lm sb sq hd st current_time detect_time).1 := by
  unfold hr_beat_stage
  apply calculate_stable_heart_rate_inv
  simp only []
  split_ifs
  · exact ⟨add_beat_interval_inv lm _ _ _ _ h.1, h.2⟩
  · exact h
  · exact h

theorem calculate_spo2_inv (sq : signal_quality_t) (count : Int) (hd : heart_data_t)
    (h : heart_rate_inv hd) : heart_rate_inv (calculate_spo2 sq count hd) := by
  obtain ⟨a, b, c, -⟩ := calculate_spo2_keeps_hr sq count hd
  unfold heart_rate_inv
  rw [a, b, c]
  exact h

theorem hr_update_sample_inv (lm : libm) (s : hr_state) (x : ppg_sample)
    (h : heart_rate_inv s.heart_data) :
    heart_rate_inv
      (hr_update_sample lm s x.red x.ir x.current_time x.detect_time).heart_data := by
  cases hinit : s.signal_buffer.initialized
  · have hs : hr_update_sample lm s x.red x.ir x.current_time x.detect_time = s := by
      unfold hr_update_sample; simp [hinit]
    rw [hs]; exact h
  · rw [hr_update_sample_heart_data lm s x.red x.ir x.current_time x.detect_time hinit]
    split_ifs
    · exact calculate_spo2_inv _ _ _ (hr_beat_stage_inv _ _ _ _ _ _ _ h)
    · exact calculate_spo2_inv _ _ _ h
    · exact hr_beat_stage_inv _ _ _ _ _ _ _ h
    · exact h

/-- Every state reached from `heart_rate_calculator_init` satisfies `heart_rate_inv`. -/
theorem hr_run_inv (lm : libm) (s0 : hr_state) (samples : List ppg_sample) :
    heart_rate_inv (hr_run lm s0 samples).heart_data := by
  induction samples using List.reverseRecOn with
  | nil =>
    have h15 : (0 : Int) < 15 := by decide
    refine ⟨⟨le_refl _, h15, le_refl _, le_of_lt h15, fun _ => rfl, ?_⟩, ?_⟩
    · intro j j0 j1
      exact absurd j1 (not_lt.mpr j0)
    · intro hv
      exact absurd hv (by simp [hr_run, heart_rate_calculator_init, heart_data_zero])
  | append_singleton xs x ih =>
    rw [hr_run_snoc]
    exact hr_update_sample_inv lm _ x ih

/-! ## Divisors of the perfusion index and of the SpO2 ratio -/

/-- Contact is reported only for DC estimates inside the plausible range. -/
theorem evaluate_signal_quality_contact (lm : libm) (sb : signal_buffer_t)
    (fs : filtered_signal_t) (sq : signal_quality_t) (st : hr_statics_t)
    (h : (evaluate_signal_quality lm sb fs sq st).1.contact_detected = true) :
    fs.ir_dc > MIN_DC_VALUE ∧ fs.ir_dc < MAX_DC_VALUE ∧
      fs.red_dc > MIN_DC_VALUE ∧ fs.red_dc < MAX_DC_VALUE := by
  by_contra hc
  rw [(evaluate_signal_quality_no_contact lm sb fs sq st hc).1] at h
  exact absurd h (by simp)

/-- A run of all-zero ADC counts after `heart_rate_calculator_init`: both DC estimates
stay 0, no contact is reported, the quality is not good and neither reading is valid. -/
theorem hr_run_zero_adc (lm : libm) (s0 : hr_state) (samples : List ppg_sample)
    (hz : ∀ y ∈ samples, y.red = 0 ∧ y.ir = 0) :
    (hr_run lm s0 samples).filtered_signals.red_dc = 0 ∧
    (hr_run lm s0 samples).filtered_signals.ir_dc = 0 ∧
    (hr_run lm s0 samples).signal_quality.contact_detected = false ∧
    (hr_run lm s0 samples).signal_quality.quality_good = false ∧
    (hr_run lm s0 samples).heart_data.hr_valid = false ∧
    (hr_run lm s0 samples).heart_data.spo2_valid = false := by
  induction samples using List.reverseRecOn with
  | nil => exact ⟨rfl, rfl, rfl, rfl, rfl, rfl⟩
  | append_singleton xs x ih =>
    obtain ⟨i1, i2, i3, i4, i5, i6⟩ := ih (fun y hy => hz y (List.mem_append_left _ hy))
    obtain ⟨xr, xi⟩ := hz x (List.mem_append_right _ (List.mem_singleton_self x))
    rw [hr_run_snoc]
    have hinit := (hr_run_bounds lm s0 xs).1
    obtain ⟨efs, esq, -⟩ := hr_update_sample_initialized lm (hr_run lm s0 xs) x.red x.ir
      x.current_time x.detect_time hinit
    obtain ⟨-, -, -, -, -, frd, fir⟩ :=
      hr_store_sample_fields (hr_run lm s0 xs) x.red x.ir x.current_time
    have hrd : (hr_store_sample (hr_run lm s0 xs) x.red x.ir x.current_time).2.red_dc = 0 := by
      rw [frd, i1, xr]; norm_num [calculate_dc_component]
    have hid : (hr_store_sample (hr_run lm s0 xs) x.red x.ir x.current_time).2.ir_dc = 0 := by
      rw [fir, i2, xi]; norm_num [calculate_dc_component]
    have hc : ¬ ((hr_store_sample (hr_run lm s0 xs) x.red x.ir x.current_time).2.ir_dc
          > MIN_DC_VALUE ∧
        (hr_store_sample (hr_run lm s0 xs) x.red x.ir x.current_time).2.ir_dc
          < MAX_DC_VALUE ∧
        (hr_store_sample (hr_run lm s0 xs) x.red x.ir x.current_time).2.red_dc
          > MIN_DC_VALUE ∧
        (hr_store_sample (hr_run lm s0 xs) x.red x.ir x.current_time).2.red_dc
          < MAX_DC_VALUE) := by
      rw [hid]
      intro h
      exact absurd h.1 (by norm_num [MIN_DC_VALUE])
    obtain ⟨n1, n2, -⟩ := evaluate_signal_quality_no_contact lm
      (hr_store_sample (hr_run lm s0 xs) x.red x.ir x.current_time).1
      (hr_store_sample (hr_run lm s0 xs) x.red x.ir x.current_time).2
      (hr_run lm s0 xs).signal_quality (hr_run lm s0 xs).statics hc
    have hbad : (hr_update_sample lm (hr_run lm s0 xs) x.red x.ir x.current_time
        x.detect_time).signal_quality.quality_good = false := by rw [esq]; exact n2
    refine ⟨by rw [efs]; exact hrd, by rw [efs]; exact hid, by rw [esq]; exact n1, hbad,
      ?_, ?_⟩
    · rw [hr_update_sample_heart_data lm _ x.red x.ir x.current_time x.detect_time hinit]
      simp only [hbad, Bool.false_eq_true, false_and, if_false]
      split_ifs
      · rw [(calculate_spo2_keeps_hr _ _ _).2.1]; exact i5
      · exact i5
    · rw [hr_update_sample_spo2_valid_of_bad lm _ x.red x.ir x.current_time x.detect_time
        hinit hbad]
      split_ifs
      · rfl
      · exact i6

/-! ## The AC RMS -/

theorem foldl_add_eq_sum (g : Nat → ℚ) :
    ∀ n : Nat, (List.range n).foldl (fun acc i => acc + g i) 0 = ∑ i in Finset.range n, g i := by
  intro n
  induction n with
  | zero => simp
  | succ n ih =>
    rw [List.range_succ, List.foldl_append, ih, Finset.sum_range_succ]
    rfl

/-- The value of `calculate_rms` when the `i`-th cell it reads, cell
`(head - 1 - i + 1000) % 1000` of `samples`, holds `ac i`. -/
theorem calculate_rms_over (lm : libm) (head : Int) (samples : Int → ℚ) (count : Int)
    (ac : Nat → ℚ)
    (h : ∀ i : Nat, (i : Int) < min count 50 →
      samples (Int.tmod (head - 1 - (i : Int) + BUFFER_SIZE) BUFFER_SIZE) = ac i) :
    calculate_rms lm head samples count BUFFER_SIZE = ac_rms_over lm ac count := by
  unfold calculate_rms ac_rms_over
  by_cases hc : count < 10
  · rw [if_pos hc, if_pos hc]
  · rw [if_neg hc, if_neg hc]
    have hstu : (if count > 50 then (50 : Int) else count) = min count 50 := by
      split_ifs with h1
      · rw [min_eq_right (le_of_lt h1)]
      · rw [min_eq_left (not_lt.mp h1)]
    simp only [hstu]
    have hf := foldl_add_eq_sum
      (fun i : Nat =>
        samples (Int.tmod (head - 1 - (i : Int) + BUFFER_SIZE) BUFFER_SIZE) *
          samples (Int.tmod (head - 1 - (i : Int) + BUFFER_SIZE) BUFFER_SIZE))
      (min count 50).toNat
    rw [hf]
    congr 2
    apply Finset.sum_congr rfl
    intro i hi
    rw [Finset.mem_range] at hi
    rw [h i (by omega)]

/-- With contact, a cursor inside the array and a buffer that is either full or filled
from slot 0 up to the cursor, the two AC amplitudes that `evaluate_signal_quality` stores
are root mean squares over ring slots `0 .. min(count, 50) - 1`. -/
theorem evaluate_signal_quality_rms (lm : libm) (sb : signal_buffer_t)
    (fs : filtered_signal_t) (sq : signal_quality_t) (st : hr_statics_t)
    (hcontact : fs.ir_dc > MIN_DC_VALUE ∧ fs.ir_dc < MAX_DC_VALUE ∧
      fs.red_dc > MIN_DC_VALUE ∧ fs.red_dc < MAX_DC_VALUE)
    (hh0 : 0 ≤ sb.head) (hh1 : sb.head < 1000) (hc1 : sb.count ≤ 1000)
    (hfill : sb.count = 1000 ∨ sb.head = sb.count) :
    (evaluate_signal_quality lm sb fs sq st).1.red_ac_rms =
      ac_rms_over lm (fun i => sb.red_filtered (i : Int) - sb.red_dc (i : Int)) sb.count ∧
    (evaluate_signal_quality lm sb fs sq st).1.ir_ac_rms =
      ac_rms_over lm (fun i => sb.ir_filtered (i : Int) - sb.ir_dc (i : Int)) sb.count := by
  have hidx : ∀ i : Nat, (i : Int) < min sb.count 50 →
      0 ≤ Int.tmod (sb.head - 1 - (i : Int) + BUFFER_SIZE) BUFFER_SIZE ∧
      Int.tmod (sb.head - 1 - (i : Int) + BUFFER_SIZE) BUFFER_SIZE <
        (((min sb.count BUFFER_SIZE).toNat : Nat) : Int) ∧
      Int.tmod (sb.head - 1 -
        Int.tmod (sb.head - 1 - (i : Int) + BUFFER_SIZE) BUFFER_SIZE + BUFFER_SIZE)
        BUFFER_SIZE = (i : Int) := by
    intro i hi
    unfold BUFFER_SIZE
    have e1 : Int.tmod (sb.head - 1 - (i : Int) + 1000) 1000 =
        (sb.head - 1 - (i : Int) + 1000) % 1000 := Int.tmod_eq_emod (by omega) (by omega)
    rw [e1]
    have e2 : Int.tmod (sb.head - 1 - (sb.head - 1 - (i : Int) + 1000) % 1000 + 1000) 1000 =
        (sb.head - 1 - (sb.head - 1 - (i : Int) + 1000) % 1000 + 1000) % 1000 :=
      Int.tmod_eq_emod (by omega) (by omega)
    rw [e2]
    rcases hfill with hf | hf
    · omega
    · omega
  unfold evaluate_signal_quality
  simp only [hcontact, and_self, decide_True, Bool.not_true, Bool.false_eq_true, if_false]
  constructor
  · apply calculate_rms_over
    intro i hi
    obtain ⟨i0, i1, i2⟩ := hidx i hi
    rw [(ac_fill_loop_spec sb st _ _).1, if_pos ⟨i0, i1⟩, i2]
  · apply calculate_rms_over
    intro i hi
    obtain ⟨i0, i1, i2⟩ := hidx i hi
    rw [(ac_fill_loop_spec sb st _ _).2, if_pos ⟨i0, i1⟩, i2]

/-! ## The FIR filter -/

/-- With at least five buffered samples `apply_fir_filter` is the specification's sum
taken over the IR stream. -/
theorem apply_fir_filter_eq (sb : signal_buffer_t) (h : Int) (hh0 : 0 ≤ h) (hh1 : h < 1000)
    (hc : 5 ≤ sb.count) :
    apply_fir_filter sb h = fir_spec sb.ir_raw sb.ir_dc h := by
  have hn : ¬ (sb.count < FIR_ORDER) := by unfold FIR_ORDER; omega
  have h5 : FIR_ORDER.toNat = 5 := rfl
  have hidx : ∀ i : Int, 0 ≤ i → i < 5 →
      Int.tmod (h - i + BUFFER_SIZE) BUFFER_SIZE = (h - i) % 1000 := by
    intro i i0 i1
    unfold BUFFER_SIZE
    rw [Int.tmod_eq_emod (by omega) (by omega)]
    omega
  have e0 := hidx 0 (by norm_num) (by norm_num)
  have e1 := hidx 1 (by norm_num) (by norm_num)
  have e2 := hidx 2 (by norm_num) (by norm_num)
  have e3 := hidx 3 (by norm_num) (by norm_num)
  have e4 := hidx 4 (by norm_num) (by norm_num)
  unfold apply_fir_filter fir_spec
  rw [if_neg hn, h5]
  simp only [List.range_succ, List.range_zero, List.nil_append, List.cons_append,
    List.foldl_cons, List.foldl_nil, Finset.sum_range_succ, Finset.range_zero,
    Finset.sum_empty, Nat.cast_zero, Nat.cast_one, Nat.cast_ofNat, e0, e1, e2, e3, e4]

/-- The arrays of the buffer after `hr_store_sample`: the two DC estimates are written at
the cursor, and both filtered values written there are `apply_fir_filter` of the buffer. -/
theorem hr_store_sample_arrays (s : hr_state) (red ir : Nat) (current_time : Int) :
    (hr_store_sample s red ir current_time).1.red_dc =
      Function.update s.signal_buffer.red_dc s.signal_buffer.head
        (calculate_dc_component s.filtered_signals.red_dc (red : ℚ)) ∧
    (hr_store_sample s red ir current_time).1.ir_dc =
      Function.update s.signal_buffer.ir_dc s.signal_buffer.head
        (calculate_dc_component s.filtered_signals.ir_dc (ir : ℚ)) ∧
    (hr_store_sample s red ir current_time).1.red_filtered s.signal_buffer.head =
      apply_fir_filter (hr_store_sample s red ir current_time).1 s.signal_buffer.head ∧
    (hr_store_sample s red ir current_time).1.ir_filtered s.signal_buffer.head =
      apply_fir_filter (hr_store_sample s red ir current_time).1 s.signal_buffer.head := by
  refine ⟨rfl, rfl, ?_, ?_⟩
  · unfold hr_store_sample
    simp only [Function.update_same]
    rfl
  · unfold hr_store_sample
    simp only [Function.update_same]
    rfl

/-- The six arrays of the buffer after `hr_update_sample` are those after
`hr_store_sample`. -/
theorem hr_update_sample_arrays (lm : libm) (s : hr_state) (red ir : Nat)
    (current_time detect_time : Int) (hinit : s.signal_buffer.initialized = true) :
    (hr_update_sample lm s red ir current_time detect_time).signal_buffer.red_filtered =
      (hr_store_sample s red ir current_time).1.red_filtered ∧
    (hr_update_sample lm s red ir current_time detect_time).signal_buffer.ir_filtered =
      (hr_store_sample s red ir current_time).1.ir_filtered ∧
    (hr_update_sample lm s red ir current_time detect_time).signal_buffer.red_dc =
      (hr_store_sample s red ir current_time).1.red_dc ∧
    (hr_update_sample lm s red ir current_time detect_time).signal_buffer.ir_dc =
      (hr_store_sample s red ir current_time).1.ir_dc ∧
    (hr_update_sample lm s red ir current_time detect_time).signal_buffer.red_raw =
      (hr_store_sample s red ir current_time).1.red_raw ∧
    (hr_update_sample lm s red ir current_time detect_time).signal_buffer.ir_raw =
      (hr_store_sample s red ir current_time).1.ir_raw := by
  unfold hr_update_sample
  simp only [hinit, Bool.not_true, Bool.false_eq_true, if_false]
  refine ⟨?_, ?_, ?_, ?_, ?_, ?_⟩ <;> split_ifs <;> rfl

/-- The filtered values that `hr_update_sample` writes at the cursor: both are the
specification's sum over the IR stream, or 0 with fewer than five buffered samples. -/
theorem hr_update_sample_filtered (lm : libm) (s : hr_state) (red ir : Nat)
    (current_time detect_time : Int) (hinit : s.signal_buffer.initialized = true)
    (hh0 : 0 ≤ s.signal_buffer.head) (hh1 : s.signal_buffer.head < 1000) :
    (hr_update_sample lm s red ir current_time detect_time).signal_buffer.ir_filtered
        s.signal_buffer.head =
      (if s.signal_buffer.count < 5 then 0
       else fir_spec
        (hr_update_sample lm s red ir current_time detect_time).signal_buffer.ir_raw
        (hr_update_sample lm s red ir current_time detect_time).signal_buffer.ir_dc
        s.signal_buffer.head) ∧
    (hr_update_sample lm s red ir current_time detect_time).signal_buffer.red_filtered
        s.signal_buffer.head =
      (if s.signal_buffer.count < 5 then 0
       else fir_spec
        (hr_update_sample lm s red ir current_time detect_time).signal_buffer.ir_raw
        (hr_update_sample lm s red ir current_time detect_time).signal_buffer.ir_dc
        s.signal_buffer.head) := by
  obtain ⟨a1, a2, -, a4, -, a6⟩ :=
    hr_update_sample_arrays lm s red ir current_time detect_time hinit
  obtain ⟨-, -, b3, b4⟩ := hr_store_sample_arrays s red ir current_time
  obtain ⟨-, c2, -⟩ := hr_store_sample_fields s red ir current_time
  rw [a1, a2, a4, a6, b3, b4]
  by_cases hc : s.signal_buffer.count < 5
  · rw [if_pos hc]
    have : apply_fir_filter (hr_store_sample s red ir current_time).1 s.signal_buffer.head
        = 0 := by
      unfold apply_fir_filter
      rw [if_pos (by rw [c2]; exact hc)]
    exact ⟨this, this⟩
  · rw [if_neg hc]
    have := apply_fir_filter_eq (hr_store_sample s red ir current_time).1
      s.signal_buffer.head hh0 hh1 (by rw [c2]; omega)
    exact ⟨this, this⟩

/-- The buffer after `n < 1000` samples with both ADC counts 10000: the cursor and the
count are `n`, and the first `n` slots hold 10000 as raw and as DC value on both
channels. -/
theorem hr_run_level (lm : libm) (s0 : hr_state) :
    ∀ n : Nat, n < 1000 →
      (hr_run lm s0 (List.replicate n level_ppg_sample)).signal_buffer.head = (n : Int) ∧
      (hr_run lm s0 (List.replicate n level_ppg_sample)).signal_buffer.count = (n : Int) ∧
      (hr_run lm s0 (List.replicate n level_ppg_sample)).filtered_signals.red_dc =
        (if n = 0 then 0 else 10000) ∧
      (hr_run lm s0 (List.replicate n level_ppg_sample)).filtered_signals.ir_dc =
        (if n = 0 then 0 else 10000) ∧
      ∀ j : Int, 0 ≤ j → j < n →
        (hr_run lm s0 (List.replicate n level_ppg_sample)).signal_buffer.red_raw j = 10000 ∧
        (hr_run lm s0 (List.replicate n level_ppg_sample)).signal_buffer.ir_raw j = 10000 ∧
        (hr_run lm s0 (List.replicate n level_ppg_sample)).signal_buffer.red_dc j = 10000 ∧
        (hr_run lm s0 (List.replicate n level_ppg_sample)).signal_buffer.ir_dc j = 10000 := by
  intro n
  induction n with
  | zero =>
    intro _
    refine ⟨rfl, rfl, rfl, rfl, ?_⟩
    intro j j0 j1
    exact absurd j1 (by push_cast; omega)
  | succ n ih =>
    intro hn
    obtain ⟨ih1, ih2, ih3, ih4, ih5⟩ := ih (by omega)
    have hinit := (hr_run_bounds lm s0 (List.replicate n level_ppg_sample)).1
    rw [List.replicate_succ', hr_run_snoc]
    obtain ⟨efs, -, eh, ec, -⟩ := hr_update_sample_initialized lm
      (hr_run lm s0 (List.replicate n level_ppg_sample)) level_ppg_sample.red
      level_ppg_sample.ir level_ppg_sample.current_time level_ppg_sample.detect_time hinit
    obtain ⟨-, -, a3, a4, a5, a6⟩ := hr_update_sample_arrays lm
      (hr_run lm s0 (List.replicate n level_ppg_sample)) level_ppg_sample.red
      level_ppg_sample.ir level_ppg_sample.current_time level_ppg_sample.detect_time hinit
    obtain ⟨b1, b2, -, -⟩ := hr_store_sample_arrays
      (hr_run lm s0 (List.replicate n level_ppg_sample)) level_ppg_sample.red
      level_ppg_sample.ir level_ppg_sample.current_time
    obtain ⟨-, -, -, c4, c5, c6, c7⟩ := hr_store_sample_fields
      (hr_run lm s0 (List.replicate n level_ppg_sample)) level_ppg_sample.red
      level_ppg_sample.ir level_ppg_sample.current_time
    have hdc : ∀ d : ℚ, d = (if n = 0 then 0 else 10000) →
        calculate_dc_component d ((level_ppg_sample.red : Nat) : ℚ) = 10000 ∧
        calculate_dc_component d ((level_ppg_sample.ir : Nat) : ℚ) = 10000 := by
      intro d hd
      by_cases h0 : n = 0
      · rw [hd, if_pos h0]
        norm_num [calculate_dc_component, level_ppg_sample]
      · rw [hd, if_neg h0]
        norm_num [calculate_dc_component, level_ppg_sample, ALPHA_DC]
    rw [eh, ec, efs, a3, a4, a5, a6, b1, b2, c4, c5, c6, c7, ih1, ih2, ih3, ih4,
      (hdc _ rfl).1, (hdc _ rfl).2]
    refine ⟨?_, ?_, ?_, ?_, ?_⟩
    · unfold BUFFER_SIZE
      rw [Int.tmod_eq_emod (by omega) (by omega)]
      push_cast; omega
    · unfold BUFFER_SIZE
      rw [if_pos (by omega)]
      push_cast; ring
    · rw [if_neg (by omega)]
    · rw [if_neg (by omega)]
    · intro j j0 j1
      simp only [Function.update_apply]
      by_cases hj : j = (n : Int)
      · simp only [hj, if_true]
        exact ⟨rfl, rfl, trivial, trivial⟩
      · simp only [hj, if_false]
        exact ih5 j j0 (by push_cast at j1; omega)

/-! ## Binary floating point: rounding -/

theorem int_log_eq (x : ℚ) (e : Int) (h1 : (2 : ℚ) ^ e ≤ x) (h2 : x < (2 : ℚ) ^ (e + 1)) :
    Int.log 2 x = e := by
  have hx : 0 < x := lt_of_lt_of_le (by positivity) h1
  have a := (Int.zpow_le_iff_le_log (by norm_num : 1 < 2) hx).mp (by exact_mod_cast h1)
  have b := (Int.lt_zpow_iff_log_lt (by norm_num : 1 < 2) hx).mp (by exact_mod_cast h2)
  omega

theorem round_half_even_le (q : ℚ) (M : Int) (h : q ≤ M) : round_half_even q ≤ M := by
  have hf : (⌊q⌋ : ℚ) ≤ q := Int.floor_le q
  have h1 : ⌊q⌋ ≤ M := by exact_mod_cast le_trans hf h
  have h2 : ¬ (q - ⌊q⌋ < 1 / 2) → ⌊q⌋ + 1 ≤ M := by
    intro hn
    have : (⌊q⌋ : ℚ) < M := by linarith
    have : ⌊q⌋ < M := by exact_mod_cast this
    omega
  unfold round_half_even
  by_cases c1 : q - ⌊q⌋ < 1 / 2
  · rw [if_pos c1]; exact h1
  · rw [if_neg c1]
    by_cases c2 : q - ⌊q⌋ > 1 / 2
    · rw [if_pos c2]; exact h2 c1
    · rw [if_neg c2]
      by_cases c3 : ⌊q⌋ % 2 = 0
      · rw [if_pos c3]; exact h1
      · rw [if_neg c3]; exact h2 c1

theorem le_round_half_even (q : ℚ) (M : Int) (h : (M : ℚ) ≤ q) : M ≤ round_half_even q := by
  have h1 : M ≤ ⌊q⌋ := Int.le_floor.mpr h
  unfold round_half_even
  split_ifs <;> omega

theorem round_half_even_sub_le (q : ℚ) : |(round_half_even q : ℚ) - q| ≤ 1 / 2 := by
  have hf : (⌊q⌋ : ℚ) ≤ q := Int.floor_le q
  have hl : q < (⌊q⌋ : ℚ) + 1 := Int.lt_floor_add_one q
  unfold round_half_even
  rw [abs_le]
  by_cases c1 : q - ⌊q⌋ < 1 / 2
  · rw [if_pos c1]; constructor <;> linarith
  · rw [if_neg c1]
    by_cases c2 : q - ⌊q⌋ > 1 / 2
    · rw [if_pos c2]; push_cast; constructor <;> linarith
    · rw [if_neg c2]
      by_cases c3 : ⌊q⌋ % 2 = 0
      · rw [if_pos c3]; constructor <;> linarith
      · rw [if_neg c3]; push_cast; constructor <;> linarith

theorem round_half_even_eq (q : ℚ) (m : Int) (h : |q - m| < 1 / 2) :
    round_half_even q = m := by
  rw [abs_lt] at h
  obtain ⟨ha, hb⟩ := h
  have hf : (⌊q⌋ : ℚ) ≤ q := Int.floor_le q
  have hl : q < (⌊q⌋ : ℚ) + 1 := Int.lt_floor_add_one q
  unfold round_half_even
  by_cases hq : (m : ℚ) ≤ q
  · have e : ⌊q⌋ = m := by
      rw [Int.floor_eq_iff]; constructor <;> linarith
    rw [e, if_pos (by linarith)]
  · have e : ⌊q⌋ = m - 1 := by
      rw [Int.floor_eq_iff]; push_cast; constructor <;> linarith
    rw [e]
    push_cast
    rw [if_neg (by linarith), if_pos (by linarith)]
    ring

theorem round_half_even_tie (q : ℚ) (m : Int) (h : q = m + 1 / 2) :
    round_half_even q = if m % 2 = 0 then m else m + 1 := by
  have e : ⌊q⌋ = m := by
    rw [Int.floor_eq_iff]; constructor <;> linarith
  unfold round_half_even
  rw [e, if_neg (by linarith), if_neg (by linarith)]

theorem fp_ulp_pos (p : Nat) (x : ℚ) : 0 < fp_ulp p x := by
  unfold fp_ulp; positivity

/-- Evaluation of a rounding from its exponent and its nearest grid point. -/
theorem fp_round_eq (p : Nat) (x y u : ℚ) (e m : Int)
    (h1 : (2 : ℚ) ^ e ≤ |x|) (h2 : |x| < (2 : ℚ) ^ (e + 1))
    (hu : u = (2 : ℚ) ^ (e - ((p : Int) - 1))) (hy : y = m * u) (hn : |x - y| < u / 2) :
    fp_round p x = y := by
  have hup : 0 < u := by rw [hu]; positivity
  unfold fp_round fp_ulp
  rw [int_log_eq |x| e h1 h2, ← hu, hy]
  congr 1
  have : round_half_even (x / u) = m := by
    apply round_half_even_eq
    have e1 : x / u - m = (x - y) / u := by rw [hy]; field_simp; ring
    rw [e1, abs_div, abs_of_pos hup, div_lt_iff₀ hup]
    linarith
  exact_mod_cast this

theorem fp_round_eq_tie (p : Nat) (x y u : ℚ) (e m : Int)
    (h1 : (2 : ℚ) ^ e ≤ |x|) (h2 : |x| < (2 : ℚ) ^ (e + 1))
    (hu : u = (2 : ℚ) ^ (e - ((p : Int) - 1))) (hx : x = m * u + u / 2)
    (hy : y = (if m % 2 = 0 then m else m + 1 : Int) * u) :
    fp_round p x = y := by
  have hup : 0 < u := by rw [hu]; positivity
  unfold fp_round fp_ulp
  rw [int_log_eq |x| e h1 h2, ← hu, hy]
  congr 1
  have : round_half_even (x / u) = if m % 2 = 0 then m else m + 1 := by
    apply round_half_even_tie
    rw [hx]; field_simp; ring
  exact_mod_cast this

theorem fp_round_zero (p : Nat) : fp_round p 0 = 0 := by
  unfold fp_round
  have : round_half_even (0 / fp_ulp p 0) = 0 := by
    apply round_half_even_eq; norm_num
  rw [this]; simp

theorem fp_round_nonneg (p : Nat) (x : ℚ) (hx : 0 ≤ x) : 0 ≤ fp_round p x := by
  unfold fp_round
  have hu := fp_ulp_pos p x
  have : (0 : Int) ≤ round_half_even (x / fp_ulp p x) :=
    le_round_half_even _ 0 (by push_cast; positivity)
  have : (0 : ℚ) ≤ (round_half_even (x / fp_ulp p x) : ℚ) := by exact_mod_cast this
  positivity

theorem fp_round_nonpos (p : Nat) (x : ℚ) (hx : x ≤ 0) : fp_round p x ≤ 0 := by
  unfold fp_round
  have hu := fp_ulp_pos p x
  have : round_half_even (x / fp_ulp p x) ≤ 0 :=
    round_half_even_le _ 0 (by push_cast; exact div_nonpos_of_nonpos_of_nonneg hx hu.le)
  have : (round_half_even (x / fp_ulp p x) : ℚ) ≤ 0 := by exact_mod_cast this
  exact mul_nonpos_of_nonpos_of_nonneg this hu.le

/-- The bound `c = m * 2 ^ k` is a multiple of the unit in the last place of every `x` with
`|x| ≤ c`. -/
theorem grid_multiple (p : Nat) (x c : ℚ) (m : Nat) (k : Int) (hc : c = m * (2 : ℚ) ^ k)
    (hk : Int.log 2 c ≤ k + ((p : Int) - 1)) (hx0 : x ≠ 0) (hx : |x| ≤ c) :
    ∃ M : Int, c = M * fp_ulp p x := by
  have hxp : 0 < |x| := abs_pos.mpr hx0
  have hle : Int.log 2 |x| ≤ Int.log 2 c := Int.log_mono_right hxp hx
  have hd : 0 ≤ k - (Int.log 2 |x| - ((p : Int) - 1)) := by omega
  refine ⟨(m : Int) * 2 ^ (k - (Int.log 2 |x| - ((p : Int) - 1))).toNat, ?_⟩
  unfold fp_ulp
  push_cast
  have e2 : ((2 : ℚ) ^ (k - (Int.log 2 |x| - ((p : Int) - 1))).toNat) =
      (2 : ℚ) ^ (k - (Int.log 2 |x| - ((p : Int) - 1))) := by
    rw [← zpow_natCast, Int.toNat_of_nonneg hd]
  rw [hc, e2, mul_assoc, ← zpow_add₀ (by norm_num : (2 : ℚ) ≠ 0)]
  congr 2
  ring

/-- Rounding does not cross a bound that is itself representable: from above. -/
theorem fp_round_le (p : Nat) (x c : ℚ) (m : Nat) (k : Int) (hc : c = m * (2 : ℚ) ^ k)
    (hk : Int.log 2 c ≤ k + ((p : Int) - 1)) (hc0 : 0 ≤ c) (hx : x ≤ c) :
    fp_round p x ≤ c := by
  by_cases h0 : x ≤ 0
  · exact le_trans (fp_round_nonpos p x h0) hc0
  · push_neg at h0
    obtain ⟨M, hM⟩ := grid_multiple p x c m k hc hk (ne_of_gt h0) (by rw [abs_of_pos h0]; exact hx)
    have hu := fp_ulp_pos p x
    have h1 : round_half_even (x / fp_ulp p x) ≤ M := by
      apply round_half_even_le
      rw [div_le_iff₀ hu, ← hM]; exact hx
    have h2 : (round_half_even (x / fp_ulp p x) : ℚ) ≤ M := by exact_mod_cast h1
    unfold fp_round
    rw [hM]
    exact mul_le_mul_of_nonneg_right h2 hu.le

/-- Rounding does not cross a bound that is itself representable: from below. -/
theorem neg_le_fp_round (p : Nat) (x c : ℚ) (m : Nat) (k : Int) (hc : c = m * (2 : ℚ) ^ k)
    (hk : Int.log 2 c ≤ k + ((p : Int) - 1)) (hc0 : 0 ≤ c) (hx : -c ≤ x) :
    -c ≤ fp_round p x := by
  by_cases h0 : 0 ≤ x
  · exact le_trans (by linarith) (fp_round_nonneg p x h0)
  · push_neg at h0
    obtain ⟨M, hM⟩ := grid_multiple p x c m k hc hk (ne_of_lt h0)
      (by rw [abs_of_neg h0]; linarith)
    have hu := fp_ulp_pos p x
    have h1 : -M ≤ round_half_even (x / fp_ulp p x) := by
      apply le_round_half_even
      rw [le_div_iff₀ hu]; push_cast; rw [neg_mul, ← hM]; exact hx
    have h2 : (-M : ℚ) ≤ (round_half_even (x / fp_ulp p x) : ℚ) := by exact_mod_cast h1
    unfold fp_round
    rw [hM, ← neg_mul]
    exact mul_le_mul_of_nonneg_right h2 hu.le

/-- The relative error of a rounding is at most `2 ^ (-p)`. -/
theorem fp_round_error (p : Nat) (x : ℚ) : |fp_round p x - x| ≤ |x| / 2 ^ p := by
  by_cases h0 : x = 0
  · rw [h0, fp_round_zero]; simp
  have hxp : 0 < |x| := abs_pos.mpr h0
  have hu := fp_ulp_pos p x
  have h1 := round_half_even_sub_le (x / fp_ulp p x)
  have e1 : fp_round p x - x = ((round_half_even (x / fp_ulp p x) : ℚ) - x / fp_ulp p x) *
      fp_ulp p x := by
    unfold fp_round; field_simp
  rw [e1, abs_mul, abs_of_pos hu]
  have h2 : fp_ulp p x ≤ |x| * 2 / 2 ^ p := by
    have hz : ((2 : ℚ) ^ Int.log 2 |x|) ≤ |x| := by
      exact_mod_cast Int.zpow_log_le_self (by norm_num : 1 < 2) hxp
    unfold fp_ulp
    rw [zpow_sub₀ (by norm_num : (2 : ℚ) ≠ 0), zpow_sub₀ (by norm_num : (2 : ℚ) ≠ 0)]
    rw [zpow_natCast, zpow_one]
    rw [div_div_eq_mul_div]
    apply div_le_div_of_nonneg_right _ (by positivity)
    nlinarith
  calc |(round_half_even (x / fp_ulp p x) : ℚ) - x / fp_ulp p x| * fp_ulp p x
      ≤ 1 / 2 * fp_ulp p x := mul_le_mul_of_nonneg_right h1 hu.le
    _ ≤ 1 / 2 * (|x| * 2 / 2 ^ p) := by nlinarith
    _ = |x| / 2 ^ p := by ring

/-- Evaluation of a correctly rounded square root from its exponent and its value. -/
theorem fp_sqrt_eq (p : Nat) (x y u : ℚ) (k : Int) (m : Nat)
    (h1 : (2 : ℚ) ^ (2 * k) ≤ x) (h2 : x < (2 : ℚ) ^ (2 * k + 2))
    (hu : u = (2 : ℚ) ^ (k - ((p : Int) - 1))) (hy : y = m * u) (hm : 1 ≤ m)
    (hlo : ((m : ℚ) - 1 / 2) ^ 2 * (u * u) ≤ x) (hhi : x < ((m : ℚ) + 1 / 2) ^ 2 * (u * u)) :
    fp_sqrt p x = y := by
  have hup : 0 < u := by rw [hu]; positivity
  have hx : 0 < x := lt_of_lt_of_le (by positivity) h1
  have hlog : Int.log 2 x / 2 = k := by
    have a := (Int.zpow_le_iff_le_log (by norm_num : 1 < 2) hx).mp (by exact_mod_cast h1)
    have b := (Int.lt_zpow_iff_log_lt (by norm_num : 1 < 2) hx).mp (by exact_mod_cast h2)
    omega
  unfold fp_sqrt
  rw [if_neg (not_le.mpr hx)]
  simp only []
  rw [hlog, ← hu]
  set z := x / (u * u) with hz
  have huu : 0 < u * u := by positivity
  have hz0 : 0 ≤ z := by positivity
  have hzlo : ((m : ℚ) - 1 / 2) ^ 2 ≤ z := by rw [hz, le_div_iff₀ huu]; exact hlo
  have hzhi : z < ((m : ℚ) + 1 / 2) ^ 2 := by rw [hz, div_lt_iff₀ huu]; exact hhi
  have hfl0 : 0 ≤ ⌊z⌋ := Int.floor_nonneg.mpr hz0
  set n := Nat.sqrt ⌊z⌋.toNat with hn
  have hn1 : n * n ≤ ⌊z⌋.toNat := Nat.sqrt_le _
  have hn2 : ⌊z⌋.toNat < (n + 1) * (n + 1) := Nat.lt_succ_sqrt _
  have hcast : ((⌊z⌋.toNat : Int)) = ⌊z⌋ := Int.toNat_of_nonneg hfl0
  have hn1q : ((n : ℚ)) * n ≤ z := by
    have : ((n * n : Nat) : Int) ≤ ⌊z⌋ := by rw [← hcast]; exact_mod_cast hn1
    have : (((n * n : Nat) : Int) : ℚ) ≤ z := Int.le_floor.mp this
    push_cast at this; exact this
  have hn2q : z < ((n : ℚ) + 1) * (n + 1) := by
    have : ⌊z⌋ < (((n + 1) * (n + 1) : Nat) : Int) := by rw [← hcast]; exact_mod_cast hn2
    have : z < ((((n + 1) * (n + 1) : Nat) : Int) : ℚ) := Int.floor_lt.mp this
    push_cast at this; exact this
  have hmq : (1 : ℚ) ≤ m := by exact_mod_cast hm
  have hnq : (0 : ℚ) ≤ n := by positivity
  have hcase : n = m ∨ n + 1 = m := by
    have a : n < m + 1 := by
      by_contra hc
      push_neg at hc
      have : ((m : ℚ) + 1) ≤ n := by exact_mod_cast hc
      nlinarith
    have b : m < n + 2 := by
      by_contra hc
      push_neg at hc
      have : ((n : ℚ) + 2) ≤ m := by exact_mod_cast hc
      nlinarith
    omega
  rcases hcase with h | h
  · have hxlt : x < ((n : ℚ) + 1 / 2) ^ 2 * (u * u) := by rw [h]; exact hhi
    rw [if_pos hxlt, hy, h]
  · have hxge : ¬ (x < ((n : ℚ) + 1 / 2) ^ 2 * (u * u)) := by
      have : (n : ℚ) + 1 = m := by exact_mod_cast h
      have e : (n : ℚ) + 1 / 2 = m - 1 / 2 := by linarith
      rw [e]; exact not_lt.mpr hlo
    rw [if_neg hxge, hy]
    have : (n : ℚ) + 1 = m := by exact_mod_cast h
    rw [this]

/-- Evaluation of a rounding of a positive value, all side conditions in one hypothesis. -/
theorem fp_round_of_pos (p : Nat) (x y u : ℚ) (e m : Int)
    (h : (2 : ℚ) ^ e ≤ x ∧ x < (2 : ℚ) ^ (e + 1) ∧ u = (2 : ℚ) ^ (e - ((p : Int) - 1)) ∧
      y = m * u ∧ y - u / 2 < x ∧ x < y + u / 2) :
    fp_round p x = y := by
  obtain ⟨h1, h2, hu, hy, a, b⟩ := h
  have hx : 0 < x := lt_of_lt_of_le (by positivity) h1
  exact fp_round_eq p x y u e m (by rw [abs_of_pos hx]; exact h1)
    (by rw [abs_of_pos hx]; exact h2) hu hy (by rw [abs_lt]; constructor <;> linarith)

/-- Evaluation of a rounding of a negative value, all side conditions in one hypothesis. -/
theorem fp_round_of_neg (p : Nat) (x y u : ℚ) (e m : Int)
    (h : (2 : ℚ) ^ e ≤ -x ∧ -x < (2 : ℚ) ^ (e + 1) ∧ u = (2 : ℚ) ^ (e - ((p : Int) - 1)) ∧
      y = m * u ∧ y - u / 2 < x ∧ x < y + u / 2) :
    fp_round p x = y := by
  obtain ⟨h1, h2, hu, hy, a, b⟩ := h
  have hx : x < 0 := by
    have : (0 : ℚ) < (2 : ℚ) ^ e := by positivity
    linarith
  exact fp_round_eq p x y u e m (by rw [abs_of_neg hx]; exact h1)
    (by rw [abs_of_neg hx]; exact h2) hu hy (by rw [abs_lt]; constructor <;> linarith)

/-- Evaluation of a rounding of a positive value half-way between two neighbours. -/
theorem fp_round_tie_of_pos (p : Nat) (x y u : ℚ) (e m : Int)
    (h : (2 : ℚ) ^ e ≤ x ∧ x < (2 : ℚ) ^ (e + 1) ∧ u = (2 : ℚ) ^ (e - ((p : Int) - 1)) ∧
      x = m * u + u / 2 ∧ y = (if m % 2 = 0 then m else m + 1 : Int) * u) :
    fp_round p x = y := by
  obtain ⟨h1, h2, hu, hx, hy⟩ := h
  have hp : 0 < x := lt_of_lt_of_le (by positivity) h1
  exact fp_round_eq_tie p x y u e m (by rw [abs_of_pos hp]; exact h1)
    (by rw [abs_of_pos hp]; exact h2) hu hx hy

/-- Evaluation of a rounding of a negative value half-way between two neighbours. -/
theorem fp_round_tie_of_neg (p : Nat) (x y u : ℚ) (e m : Int)
    (h : (2 : ℚ) ^ e ≤ -x ∧ -x < (2 : ℚ) ^ (e + 1) ∧ u = (2 : ℚ) ^ (e - ((p : Int) - 1)) ∧
      x = m * u + u / 2 ∧ y = (if m % 2 = 0 then m else m + 1 : Int) * u) :
    fp_round p x = y := by
  obtain ⟨h1, h2, hu, hx, hy⟩ := h
  have hp : x < 0 := by
    have : (0 : ℚ) < (2 : ℚ) ^ e := by positivity
    linarith
  exact fp_round_eq_tie p x y u e m (by rw [abs_of_neg hp]; exact h1)
    (by rw [abs_of_neg hp]; exact h2) hu hx hy

/-- Evaluation of a correctly rounded square root, all side conditions in one
hypothesis. -/
theorem fp_sqrt_of (p : Nat) (x y u : ℚ) (k : Int) (m : Nat)
    (h : (2 : ℚ) ^ (2 * k) ≤ x ∧ x < (2 : ℚ) ^ (2 * k + 2) ∧
      u = (2 : ℚ) ^ (k - ((p : Int) - 1)) ∧ y = m * u ∧ 1 ≤ m ∧
      ((m : ℚ) - 1 / 2) ^ 2 * (u * u) ≤ x ∧ x < ((m : ℚ) + 1 / 2) ^ 2 * (u * u)) :
    fp_sqrt p x = y :=
  fp_sqrt_eq p x y u k m h.1 h.2.1 h.2.2.1 h.2.2.2.1 h.2.2.2.2.1 h.2.2.2.2.2.1 h.2.2.2.2.2.2

/-! ## The fall detector in binary32 -/

/-- One call of the binary32 `step_fall_detect_fall` on a non-null context, described by
cases. -/
theorem step_fall_detect_fall_f32_some (lm : libm) (ctx : step_fall_ctx_t)
    (st : step_fall_statics_t) (ax_raw ay_raw az_raw gx_raw gy_raw gz_raw : Int)
    (now_ms : Nat) :
    step_fall_detect_fall_f32 lm (some ctx) st ax_raw ay_raw az_raw gx_raw gy_raw gz_raw
        now_ms =
      (if 10000 ≤ u32_sub now_ms st.last_fall_time ∧ fall_trigger_f32 lm ax_raw ay_raw az_raw
        then
          ({ fall_detected := true
             direction := determine_fall_direction_f32 lm
               (roll_deg_f32 lm ax_raw ay_raw az_raw) (pitch_deg_f32 lm ax_raw ay_raw az_raw)
             fall_angle_deg := f32 (f64 (f32 (lm.atan2f
               (roll_deg_f32 lm ax_raw ay_raw az_raw)
               (pitch_deg_f32 lm ax_raw ay_raw az_raw) * 180) / f64 M_PI))
             ax_g := f32 ((ax_raw : ℚ) / 16384)
             ay_g := f32 ((ay_raw : ℚ) / 16384)
             roll_deg := roll_deg_f32 lm ax_raw ay_raw az_raw
             pitch_deg := pitch_deg_f32 lm ax_raw ay_raw az_raw },
            some ctx, { st with last_fall_time := now_ms })
        else
          ({ fall_detected := false
             direction := FALL_DIR_NONE
             fall_angle_deg := f32 (f64 (f32 (lm.atan2f
               (roll_deg_f32 lm ax_raw ay_raw az_raw)
               (pitch_deg_f32 lm ax_raw ay_raw az_raw) * 180) / f64 M_PI))
             ax_g := f32 ((ax_raw : ℚ) / 16384)
             ay_g := f32 ((ay_raw : ℚ) / 16384)
             roll_deg := roll_deg_f32 lm ax_raw ay_raw az_raw
             pitch_deg := pitch_deg_f32 lm ax_raw ay_raw az_raw },
            some ctx, st)) := by
  unfold step_fall_detect_fall_f32 fall_trigger_f32 total_accel_f32 total_accel_sq_f32
    combined_tilt_f32 roll_deg_f32 pitch_deg_f32
  simp only [ACC_LSB_PER_G, fall_result_zero]
  by_cases hc : u32_sub now_ms st.last_fall_time < 10000
  · have hc2 : ¬ (10000 ≤ u32_sub now_ms st.last_fall_time) := not_le.mpr hc
    simp [hc, hc2]
  · have hc2 : 10000 ≤ u32_sub now_ms st.last_fall_time := not_lt.mp hc
    simp only [hc, hc2, if_false, true_and, Bool.or_eq_true, Bool.and_eq_true,
      decide_eq_true_eq, ge_iff_le]

/-- The condition under which the binary32 `step_fall_detect_fall` reports a fall. -/
theorem fall_f32_detected_iff (lm : libm) (ctx : step_fall_ctx_t)
    (st : step_fall_statics_t) (ax_raw ay_raw az_raw gx_raw gy_raw gz_raw : Int)
    (now_ms : Nat) :
    (step_fall_detect_fall_f32 lm (some ctx) st ax_raw ay_raw az_raw gx_raw gy_raw gz_raw
        now_ms).1.fall_detected = true ↔
      (10000 ≤ u32_sub now_ms st.last_fall_time ∧ fall_trigger_f32 lm ax_raw ay_raw az_raw) := by
  rw [step_fall_detect_fall_f32_some]
  by_cases h : 10000 ≤ u32_sub now_ms st.last_fall_time ∧
      fall_trigger_f32 lm ax_raw ay_raw az_raw
  · simp [h]
  · simp only [h, if_false, iff_false]; simp

/-- A binary32 acceleration of an `int16_t` reading lies between -2 and 2. -/
theorem accel_g_f32_bound (v : Int) (hv : is_int16 v) :
    -2 ≤ f32 ((v : ℚ) / 16384) ∧ f32 ((v : ℚ) / 16384) ≤ 2 := by
  obtain ⟨h1, h2⟩ := hv
  have a1 : (-32768 : ℚ) ≤ (v : ℚ) := by exact_mod_cast h1
  have a2 : (v : ℚ) ≤ 32767 := by exact_mod_cast h2
  have hl : Int.log 2 (2 : ℚ) ≤ 1 + (((24 : Nat) : Int) - 1) := by
    rw [int_log_eq 2 1 (by norm_num) (by norm_num)]; norm_num
  constructor
  · exact neg_le_fp_round 24 _ 2 1 1 (by norm_num) hl (by norm_num)
      (by rw [le_div_iff₀ (by norm_num)]; linarith)
  · exact fp_round_le 24 _ 2 1 1 (by norm_num) hl (by norm_num)
      (by rw [div_le_iff₀ (by norm_num)]; linarith)

/-- The rounded square of a value between -2 and 2 lies between 0 and 4. -/
theorem f32_sq_bound (a : ℚ) (h1 : -2 ≤ a) (h2 : a ≤ 2) :
    0 ≤ f32 (a * a) ∧ f32 (a * a) ≤ 4 := by
  have hl : Int.log 2 (4 : ℚ) ≤ 2 + (((24 : Nat) : Int) - 1) := by
    rw [int_log_eq 4 2 (by norm_num) (by norm_num)]; norm_num
  constructor
  · exact fp_round_nonneg 24 _ (mul_self_nonneg a)
  · exact fp_round_le 24 _ 4 1 2 (by norm_num) hl (by norm_num) (by nlinarith)

/-- For `int16_t` readings the binary32 sum of squares lies between 0 and 12. -/
theorem total_accel_sq_f32_le (ax_raw ay_raw az_raw : Int) (hx : is_int16 ax_raw)
    (hy : is_int16 ay_raw) (hz : is_int16 az_raw) :
    0 ≤ total_accel_sq_f32 ax_raw ay_raw az_raw ∧
      total_accel_sq_f32 ax_raw ay_raw az_raw ≤ 12 := by
  obtain ⟨x1, x2⟩ := accel_g_f32_bound ax_raw hx
  obtain ⟨y1, y2⟩ := accel_g_f32_bound ay_raw hy
  obtain ⟨z1, z2⟩ := accel_g_f32_bound az_raw hz
  obtain ⟨px1, px2⟩ := f32_sq_bound _ x1 x2
  obtain ⟨py1, py2⟩ := f32_sq_bound _ y1 y2
  obtain ⟨pz1, pz2⟩ := f32_sq_bound _ z1 z2
  have hl8 : Int.log 2 (8 : ℚ) ≤ 3 + (((24 : Nat) : Int) - 1) := by
    rw [int_log_eq 8 3 (by norm_num) (by norm_num)]; norm_num
  have hl12 : Int.log 2 (12 : ℚ) ≤ 2 + (((24 : Nat) : Int) - 1) := by
    rw [int_log_eq 12 3 (by norm_num) (by norm_num)]; norm_num
  have s1 : 0 ≤ f32 (f32 (f32 ((ax_raw : ℚ) / 16384) * f32 ((ax_raw : ℚ) / 16384)) +
      f32 (f32 ((ay_raw : ℚ) / 16384) * f32 ((ay_raw : ℚ) / 16384))) :=
    fp_round_nonneg 24 _ (by linarith)
  have s2 : f32 (f32 (f32 ((ax_raw : ℚ) / 16384) * f32 ((ax_raw : ℚ) / 16384)) +
      f32 (f32 ((ay_raw : ℚ) / 16384) * f32 ((ay_raw : ℚ) / 16384))) ≤ 8 :=
    fp_round_le 24 _ 8 1 3 (by norm_num) hl8 (by norm_num) (by linarith)
  unfold total_accel_sq_f32
  constructor
  · exact fp_round_nonneg 24 _ (by linarith)
  · exact fp_round_le 24 _ 12 3 2 (by norm_num) hl12 (by norm_num) (by linarith)

/-- Rounding a non-negative value to binary32 raises it by at most the factor
`1 + 2 ^ (-24)`. -/
theorem f32_le_mul (x : ℚ) (hx : 0 ≤ x) : f32 x ≤ x * (1 + 1 / 2 ^ 24) := by
  have h := fp_round_error 24 x
  rw [abs_of_nonneg hx] at h
  have h2 := (abs_le.mp h).2
  have e : f32 x = fp_round 24 x := rfl
  rw [e]
  linarith

/-- The square of a rounded value exceeds the exact square by at most the factor
`(1 + 2 ^ (-24)) ^ 2`. -/
theorem f32_sq_le_mul (b : ℚ) : f32 b * f32 b ≤ b * b * (1 + 1 / 2 ^ 24) ^ 2 := by
  have h := fp_round_error 24 b
  have e : f32 b = fp_round 24 b := rfl
  rw [← e] at h
  have h1 : |f32 b| ≤ |b| * (1 + 1 / 2 ^ 24) := by
    have := abs_sub_abs_le_abs_sub (f32 b) b
    linarith
  have h2 : |f32 b| * |f32 b| ≤ (|b| * (1 + 1 / 2 ^ 24)) * (|b| * (1 + 1 / 2 ^ 24)) :=
    mul_le_mul h1 h1 (abs_nonneg _) (by positivity)
  rw [abs_mul_abs_self] at h2
  have h3 : (|b| * (1 + 1 / 2 ^ 24)) * (|b| * (1 + 1 / 2 ^ 24)) =
      (|b| * |b|) * (1 + 1 / 2 ^ 24) ^ 2 := by ring
  rw [h3, abs_mul_abs_self] at h2
  exact h2

/-- The binary32 sum of squares exceeds the exact one by at most the factor
`(1 + 2 ^ (-24)) ^ 5`. -/
theorem total_accel_sq_f32_le_mul (ax_raw ay_raw az_raw : Int) :
    total_accel_sq_f32 ax_raw ay_raw az_raw ≤
      total_accel_sq ax_raw ay_raw az_raw * (1 + 1 / 2 ^ 24) ^ 5 := by
  set u : ℚ := 1 + 1 / 2 ^ 24 with hu
  have hu1 : 1 ≤ u := by rw [hu]; norm_num
  have hu0 : 0 ≤ u := by linarith
  set bx : ℚ := (ax_raw : ℚ) / 16384 with hbx
  set by_ : ℚ := (ay_raw : ℚ) / 16384 with hby
  set bz : ℚ := (az_raw : ℚ) / 16384 with hbz
  have qx := f32_sq_le_mul bx
  have qy := f32_sq_le_mul by_
  have qz := f32_sq_le_mul bz
  rw [← hu] at qx qy qz
  have nx : 0 ≤ f32 bx * f32 bx := mul_self_nonneg _
  have ny : 0 ≤ f32 by_ * f32 by_ := mul_self_nonneg _
  have nz : 0 ≤ f32 bz * f32 bz := mul_self_nonneg _
  have px := f32_le_mul _ nx
  have py := f32_le_mul _ ny
  have pz := f32_le_mul _ nz
  rw [← hu] at px py pz
  have npx : 0 ≤ f32 (f32 bx * f32 bx) := fp_round_nonneg 24 _ nx
  have npy : 0 ≤ f32 (f32 by_ * f32 by_) := fp_round_nonneg 24 _ ny
  have npz : 0 ≤ f32 (f32 bz * f32 bz) := fp_round_nonneg 24 _ nz
  have s1 := f32_le_mul (f32 (f32 bx * f32 bx) + f32 (f32 by_ * f32 by_)) (by linarith)
  rw [← hu] at s1
  have ns1 : 0 ≤ f32 (f32 (f32 bx * f32 bx) + f32 (f32 by_ * f32 by_)) :=
    fp_round_nonneg 24 _ (by linarith)
  have s2 := f32_le_mul
    (f32 (f32 (f32 bx * f32 bx) + f32 (f32 by_ * f32 by_)) + f32 (f32 bz * f32 bz))
    (by linarith)
  rw [← hu] at s2
  have hxx : 0 ≤ bx * bx := mul_self_nonneg _
  have hyy : 0 ≤ by_ * by_ := mul_self_nonneg _
  have hzz : 0 ≤ bz * bz := mul_self_nonneg _
  -- the three rounded squares against the exact ones
  have ex : f32 (f32 bx * f32 bx) ≤ bx * bx * u ^ 3 := by
    calc f32 (f32 bx * f32 bx) ≤ f32 bx * f32 bx * u := px
      _ ≤ bx * bx * u ^ 2 * u := mul_le_mul_of_nonneg_right qx hu0
      _ = bx * bx * u ^ 3 := by ring
  have ey : f32 (f32 by_ * f32 by_) ≤ by_ * by_ * u ^ 3 := by
    calc f32 (f32 by_ * f32 by_) ≤ f32 by_ * f32 by_ * u := py
      _ ≤ by_ * by_ * u ^ 2 * u := mul_le_mul_of_nonneg_right qy hu0
      _ = by_ * by_ * u ^ 3 := by ring
  have ez : f32 (f32 bz * f32 bz) ≤ bz * bz * u ^ 3 := by
    calc f32 (f32 bz * f32 bz) ≤ f32 bz * f32 bz * u := pz
      _ ≤ bz * bz * u ^ 2 * u := mul_le_mul_of_nonneg_right qz hu0
      _ = bz * bz * u ^ 3 := by ring
  have hu4 : u ^ 3 ≤ u ^ 4 := by
    have : 0 ≤ u ^ 3 := by positivity
    nlinarith
  have hu5 : u ^ 4 ≤ u ^ 5 := by
    have : 0 ≤ u ^ 4 := by positivity
    nlinarith
  have t1 : f32 (f32 (f32 bx * f32 bx) + f32 (f32 by_ * f32 by_)) ≤
      (bx * bx + by_ * by_) * u ^ 4 := by
    calc f32 (f32 (f32 bx * f32 bx) + f32 (f32 by_ * f32 by_))
        ≤ (f32 (f32 bx * f32 bx) + f32 (f32 by_ * f32 by_)) * u := s1
      _ ≤ (bx * bx * u ^ 3 + by_ * by_ * u ^ 3) * u :=
          mul_le_mul_of_nonneg_right (by linarith) hu0
      _ = (bx * bx + by_ * by_) * u ^ 4 := by ring
  have ez4 : f32 (f32 bz * f32 bz) ≤ bz * bz * u ^ 4 :=
    le_trans ez (mul_le_mul_of_nonneg_left hu4 hzz)
  unfold total_accel_sq_f32 total_accel_sq
  rw [← hbx, ← hby, ← hbz]
  calc f32 (f32 (f32 (f32 bx * f32 bx) + f32 (f32 by_ * f32 by_)) + f32 (f32 bz * f32 bz))
      ≤ (f32 (f32 (f32 bx * f32 bx) + f32 (f32 by_ * f32 by_)) + f32 (f32 bz * f32 bz)) * u :=
        s2
    _ ≤ ((bx * bx + by_ * by_) * u ^ 4 + bz * bz * u ^ 4) * u :=
        mul_le_mul_of_nonneg_right (by linarith) hu0
    _ = (bx ^ 2 + by_ ^ 2 + bz ^ 2) * u ^ 5 := by ring

/-- For an angle between -360 and 360 degrees, which covers every `atan2f` value converted
to degrees, the iteration counts of `normalize_fall_angle_f32` let both loops run to
their exit: the result lies in `[0, 360)`. -/
theorem normalize_fall_angle_f32_range (a : ℚ) (h1 : -360 ≤ a) (h2 : a ≤ 360) :
    0 ≤ normalize_fall_angle_f32 a ∧ normalize_fall_angle_f32 a < 360 := by
  have hl : Int.log 2 (360 : ℚ) ≤ 3 + (((24 : Nat) : Int) - 1) := by
    rw [int_log_eq 360 8 (by norm_num) (by norm_num)]; norm_num
  have h0 : f32 (360 - 360) = 0 := by
    have : (360 - 360 : ℚ) = 0 := by norm_num
    rw [this]; exact fp_round_zero 24
  -- the second loop on a value in `[0, 360]`
  have second : ∀ b : ℚ, 0 ≤ b → b ≤ 360 →
      0 ≤ while_ge_360_sub_360_f32 (⌊b / 360⌋).toNat b ∧
        while_ge_360_sub_360_f32 (⌊b / 360⌋).toNat b < 360 := by
    intro b hb0 hb1
    by_cases hb : b = 360
    · have hf : (⌊b / 360⌋).toNat = 1 := by
        rw [hb]; norm_num
      rw [hf, hb]
      simp only [while_ge_360_sub_360_f32, ge_iff_le, le_refl, if_true, h0]
      norm_num
    · have hlt : b < 360 := lt_of_le_of_ne hb1 hb
      have hf : (⌊b / 360⌋).toNat = 0 := by
        have : ⌊b / 360⌋ = 0 := by
          rw [Int.floor_eq_iff]
          constructor
          · push_cast; positivity
          · push_cast; rw [zero_add, div_lt_one (by norm_num)]; exact hlt
        rw [this]; rfl
      rw [hf]
      simp only [while_ge_360_sub_360_f32]
      exact ⟨hb0, hlt⟩
  unfold normalize_fall_angle_f32
  simp only []
  by_cases hneg : a < 0
  · have hf : (⌈-a / 360⌉).toNat = 1 := by
      have : ⌈-a / 360⌉ = 1 := by
        rw [Int.ceil_eq_iff]
        constructor
        · push_cast; norm_num; linarith
        · push_cast; rw [div_le_one (by norm_num)]; linarith
      rw [this]; rfl
    rw [hf]
    simp only [while_negative_add_360_f32, hneg, if_true]
    exact second _ (fp_round_nonneg 24 _ (by linarith))
      (fp_round_le 24 _ 360 45 3 (by norm_num) hl (by norm_num) (by linarith))
  · push_neg at hneg
    have hf : (⌈-a / 360⌉).toNat = 0 := by
      have : ⌈-a / 360⌉ ≤ 0 := by
        rw [Int.ceil_le]
        push_cast
        apply div_nonpos_of_nonpos_of_nonneg <;> linarith
      omega
    rw [hf]
    simp only [while_negative_add_360_f32]
    exact second a hneg h2

/-! ## Binary32 evaluation at boundary inputs -/

/-- The literal `3.3f`. -/
theorem f32_literal_3_3 : f32 (33 / 10) = (13841203 / 4194304) := by
  have h1 : f32 (33 / 10 : ℚ) = (13841203 / 4194304) :=
    fp_round_of_pos 24 _ _ (1 / 4194304) 1 13841203 (by norm_num)
  exact h1

/-- The literal `1e-6f`. -/
theorem f32_literal_1e_6 : f32 (1 / 1000000) = (8796093 / 8796093022208) := by
  have h1 : f32 (1 / 1000000 : ℚ) = (8796093 / 8796093022208) :=
    fp_round_of_pos 24 _ _ (1 / 8796093022208) (-20) 8796093 (by norm_num)
  exact h1

/-- The `double` constant `M_PI`. -/
theorem f64_M_PI : f64 M_PI = (884279719003555 / 281474976710656) := by
  have h1 : f64 (M_PI : ℚ) = (884279719003555 / 281474976710656) :=
    fp_round_of_pos 53 _ _ (1 / 2251799813685248) 1 7074237752028440 (by norm_num [M_PI])
  exact h1

/-- With `libm_f32` at `(31004, 31138, 31503)`: the rounded sum of squares. -/
theorem total_accel_sq_f32_boundary :
    total_accel_sq_f32 31004 31138 31503 = (713687 / 65536) := by
  have h1 : f32 (31004 / 16384 : ℚ) = (7751 / 4096) :=
    fp_round_of_pos 24 _ _ (1 / 8388608) 0 15874048 (by norm_num)
  have h2 : f32 (31138 / 16384 : ℚ) = (15569 / 8192) :=
    fp_round_of_pos 24 _ _ (1 / 8388608) 0 15942656 (by norm_num)
  have h3 : f32 (31503 / 16384 : ℚ) = (31503 / 16384) :=
    fp_round_of_pos 24 _ _ (1 / 8388608) 0 16129536 (by norm_num)
  have h4 : f32 ((7751 / 4096) * (7751 / 4096) : ℚ) = (3754875 / 1048576) :=
    fp_round_of_pos 24 _ _ (1 / 4194304) 1 15019500 (by norm_num)
  have h5 : f32 ((15569 / 8192) * (15569 / 8192) : ℚ) = (7574805 / 2097152) :=
    fp_round_of_pos 24 _ _ (1 / 4194304) 1 15149610 (by norm_num)
  have h6 : f32 ((31503 / 16384) * (31503 / 16384) : ℚ) = (3876715 / 1048576) :=
    fp_round_of_pos 24 _ _ (1 / 4194304) 1 15506860 (by norm_num)
  have h7 : f32 ((3754875 / 1048576) + (7574805 / 2097152) : ℚ) = (15084555 / 2097152) :=
    fp_round_of_pos 24 _ _ (1 / 2097152) 2 15084555 (by norm_num)
  have h8 : f32 ((15084555 / 2097152) + (3876715 / 1048576) : ℚ) = (713687 / 65536) :=
    fp_round_tie_of_pos 24 _ _ (1 / 1048576) 3 11418992 (by norm_num)
  unfold total_accel_sq_f32
  simp only [Int.cast_ofNat, Int.cast_neg]
  rw [h1, h2, h3, h4, h5, h6, h7, h8]

/-- With `libm_f32` at `(31004, 31138, 31503)`: `total_accel` is exactly `3.3f`. -/
theorem total_accel_f32_boundary :
    total_accel_f32 libm_f32 31004 31138 31503 = (13841203 / 4194304) := by
  have h1 : fp_sqrt 24 ((713687 / 65536) : ℚ) = (13841203 / 4194304) :=
    fp_sqrt_of 24 _ _ (1 / 4194304) 1 13841203 (by norm_num)
  unfold total_accel_f32
  rw [total_accel_sq_f32_boundary]
  simp only [libm_f32]
  rw [h1]

/-- With `libm_f32` at `(31004, 31138, 31503)`: the roll angle. -/
theorem roll_deg_f32_boundary :
    roll_deg_f32 libm_f32 31004 31138 31503 = (145157 / 4096) := by
  have h1 : f32 (31004 / 16384 : ℚ) = (7751 / 4096) :=
    fp_round_of_pos 24 _ _ (1 / 8388608) 0 15874048 (by norm_num)
  have h2 : f32 (31138 / 16384 : ℚ) = (15569 / 8192) :=
    fp_round_of_pos 24 _ _ (1 / 8388608) 0 15942656 (by norm_num)
  have h3 : f32 (31503 / 16384 : ℚ) = (31503 / 16384) :=
    fp_round_of_pos 24 _ _ (1 / 8388608) 0 16129536 (by norm_num)
  have h4 : f32 ((7751 / 4096) * (7751 / 4096) : ℚ) = (3754875 / 1048576) :=
    fp_round_of_pos 24 _ _ (1 / 4194304) 1 15019500 (by norm_num)
  have h5 : f32 ((15569 / 8192) * (15569 / 8192) : ℚ) = (7574805 / 2097152) :=
    fp_round_of_pos 24 _ _ (1 / 4194304) 1 15149610 (by norm_num)
  have h6 : f32 ((31503 / 16384) * (31503 / 16384) : ℚ) = (3876715 / 1048576) :=
    fp_round_of_pos 24 _ _ (1 / 4194304) 1 15506860 (by norm_num)
  have h7 : f32 ((3754875 / 1048576) + (3876715 / 1048576) : ℚ) = (3815795 / 524288) :=
    fp_round_of_pos 24 _ _ (1 / 2097152) 2 15263180 (by norm_num)
  have h8 : fp_sqrt 24 ((3815795 / 524288) : ℚ) = (1414417 / 524288) :=
    fp_sqrt_of 24 _ _ (1 / 4194304) 1 11315336 (by norm_num)
  have h9 : atan2_ref ((15569 / 8192) : ℚ) (1414417 / 524288) = (618522357 / 1000000000) := by
    norm_num [atan2_ref, atan_ref, round9, M_PI, abs_le]
  have h10 : f32 ((618522357 / 1000000000) : ℚ) = (10377083 / 16777216) :=
    fp_round_of_pos 24 _ _ (1 / 16777216) (-1) 10377083 (by norm_num)
  have h11 : f32 ((10377083 / 16777216) * 180 : ℚ) = (14592773 / 131072) :=
    fp_round_of_pos 24 _ _ (1 / 131072) 6 14592773 (by norm_num)
  have h12 :
      f64 ((14592773 / 131072) / (884279719003555 / 281474976710656) : ℚ) =
        (4987556448584655 / 140737488355328) :=
    fp_round_of_pos 53 _ _ (1 / 140737488355328) 5 4987556448584655 (by norm_num)
  have h13 : f32 ((4987556448584655 / 140737488355328) : ℚ) = (145157 / 4096) :=
    fp_round_of_pos 24 _ _ (1 / 262144) 5 9290048 (by norm_num)
  unfold roll_deg_f32 calculate_roll_angle_f32
  simp only [libm_f32, Int.cast_ofNat, Int.cast_neg]
  rw [h1, h2, h3, h4, h6, h7, h8, f32_literal_1e_6, if_neg (by norm_num), h9, h10, h11, f64_M_PI,
    h12, h13]

/-- With `libm_f32` at `(31004, 31138, 31503)`: the pitch angle. -/
theorem pitch_deg_f32_boundary :
    pitch_deg_f32 libm_f32 31004 31138 31503 = (-9244851 / 262144) := by
  have h1 : f32 (31004 / 16384 : ℚ) = (7751 / 4096) :=
    fp_round_of_pos 24 _ _ (1 / 8388608) 0 15874048 (by norm_num)
  have h2 : f32 (31138 / 16384 : ℚ) = (15569 / 8192) :=
    fp_round_of_pos 24 _ _ (1 / 8388608) 0 15942656 (by norm_num)
  have h3 : f32 (31503 / 16384 : ℚ) = (31503 / 16384) :=
    fp_round_of_pos 24 _ _ (1 / 8388608) 0 16129536 (by norm_num)
  have h4 : f32 ((7751 / 4096) * (7751 / 4096) : ℚ) = (3754875 / 1048576) :=
    fp_round_of_pos 24 _ _ (1 / 4194304) 1 15019500 (by norm_num)
  have h5 : f32 ((15569 / 8192) * (15569 / 8192) : ℚ) = (7574805 / 2097152) :=
    fp_round_of_pos 24 _ _ (1 / 4194304) 1 15149610 (by norm_num)
  have h6 : f32 ((31503 / 16384) * (31503 / 16384) : ℚ) = (3876715 / 1048576) :=
    fp_round_of_pos 24 _ _ (1 / 4194304) 1 15506860 (by norm_num)
  have h7 : f32 ((7574805 / 2097152) + (3876715 / 1048576) : ℚ) = (15328235 / 2097152) :=
    fp_round_of_pos 24 _ _ (1 / 2097152) 2 15328235 (by norm_num)
  have h8 : fp_sqrt 24 ((15328235 / 2097152) : ℚ) = (11339425 / 4194304) :=
    fp_sqrt_of 24 _ _ (1 / 4194304) 1 11339425 (by norm_num)
  have h9 : atan2_ref ((-(7751 / 4096)) : ℚ) (11339425 / 4194304) = (-307756607 / 500000000) := by
    norm_num [atan2_ref, atan_ref, round9, M_PI, abs_le]
  have h10 : f32 ((-307756607 / 500000000) : ℚ) = (-5163299 / 8388608) :=
    fp_round_of_neg 24 _ _ (1 / 16777216) (-1) (-10326598) (by norm_num)
  have h11 : f32 ((-5163299 / 8388608) * 180 : ℚ) = (-7260889 / 65536) :=
    fp_round_of_neg 24 _ _ (1 / 131072) 6 (-14521778) (by norm_num)
  have h12 :
      f64 ((-7260889 / 65536) / (884279719003555 / 281474976710656) : ℚ) =
        (-4963291590214881 / 140737488355328) :=
    fp_round_of_neg 53 _ _ (1 / 140737488355328) 5 (-4963291590214881) (by norm_num)
  have h13 : f32 ((-4963291590214881 / 140737488355328) : ℚ) = (-9244851 / 262144) :=
    fp_round_of_neg 24 _ _ (1 / 262144) 5 (-9244851) (by norm_num)
  unfold pitch_deg_f32 calculate_pitch_angle_f32
  simp only [libm_f32, Int.cast_ofNat, Int.cast_neg]
  rw [h1, h2, h3, h5, h6, h7, h8, f32_literal_1e_6, if_neg (by norm_num), h9, h10, h11, f64_M_PI,
    h12, h13]

/-- With `libm_f32` at `(31004, 31138, 31503)`: the combined tilt. -/
theorem combined_tilt_f32_boundary :
    combined_tilt_f32 libm_f32 (145157 / 4096) (-9244851 / 262144) = (819137 / 16384) := by
  have h1 : f32 ((-9244851 / 262144) * (-9244851 / 262144) : ℚ) = (10188493 / 8192) :=
    fp_round_of_pos 24 _ _ (1 / 8192) 10 10188493 (by norm_num)
  have h2 : f32 ((145157 / 4096) * (145157 / 4096) : ℚ) = (10288357 / 8192) :=
    fp_round_of_pos 24 _ _ (1 / 8192) 10 10288357 (by norm_num)
  have h3 : f32 ((10188493 / 8192) + (10288357 / 8192) : ℚ) = (10238425 / 4096) :=
    fp_round_of_pos 24 _ _ (1 / 4096) 11 10238425 (by norm_num)
  have h4 : fp_sqrt 24 ((10238425 / 4096) : ℚ) = (819137 / 16384) :=
    fp_sqrt_of 24 _ _ (1 / 262144) 5 13106192 (by norm_num)
  unfold combined_tilt_f32
  simp only [libm_f32]
  rw [h1, h2, h3, h4]

/-- With `libm_f32` at `(31004, 31138, 31503)`: the binary32 trigger condition holds. -/
theorem fall_trigger_f32_boundary : fall_trigger_f32 libm_f32 31004 31138 31503 := by
  unfold fall_trigger_f32
  right
  rw [total_accel_f32_boundary, roll_deg_f32_boundary, pitch_deg_f32_boundary,
    combined_tilt_f32_boundary, f32_literal_3_3]
  norm_num

/-- With `libm_f32` at `(32741, 32586, 28097)`: the rounded sum of squares. -/
theorem total_accel_sq_f32_boundary2 :
    total_accel_sq_f32 32741 32586 28097 = (713687 / 65536) := by
  have h1 : f32 (32741 / 16384 : ℚ) = (32741 / 16384) :=
    fp_round_of_pos 24 _ _ (1 / 8388608) 0 16763392 (by norm_num)
  have h2 : f32 (32586 / 16384 : ℚ) = (16293 / 8192) :=
    fp_round_of_pos 24 _ _ (1 / 8388608) 0 16684032 (by norm_num)
  have h3 : f32 (28097 / 16384 : ℚ) = (28097 / 16384) :=
    fp_round_of_pos 24 _ _ (1 / 8388608) 0 14385664 (by norm_num)
  have h4 : f32 ((32741 / 16384) * (32741 / 16384) : ℚ) = (16749579 / 4194304) :=
    fp_round_of_pos 24 _ _ (1 / 4194304) 1 16749579 (by norm_num)
  have h5 : f32 ((16293 / 8192) * (16293 / 8192) : ℚ) = (8295683 / 2097152) :=
    fp_round_of_pos 24 _ _ (1 / 4194304) 1 16591366 (by norm_num)
  have h6 : f32 ((28097 / 16384) * (28097 / 16384) : ℚ) = (6167511 / 2097152) :=
    fp_round_of_pos 24 _ _ (1 / 4194304) 1 12335022 (by norm_num)
  have h7 : f32 ((16749579 / 4194304) + (8295683 / 2097152) : ℚ) = (2083809 / 262144) :=
    fp_round_tie_of_pos 24 _ _ (1 / 2097152) 2 16670472 (by norm_num)
  have h8 : f32 ((2083809 / 262144) + (6167511 / 2097152) : ℚ) = (713687 / 65536) :=
    fp_round_tie_of_pos 24 _ _ (1 / 1048576) 3 11418991 (by norm_num)
  unfold total_accel_sq_f32
  simp only [Int.cast_ofNat, Int.cast_neg]
  rw [h1, h2, h3, h4, h5, h6, h7, h8]

/-- With `libm_f32` at `(32741, 32586, 28097)`: `total_accel` is exactly `3.3f`. -/
theorem total_accel_f32_boundary2 :
    total_accel_f32 libm_f32 32741 32586 28097 = (13841203 / 4194304) := by
  have h1 : fp_sqrt 24 ((713687 / 65536) : ℚ) = (13841203 / 4194304) :=
    fp_sqrt_of 24 _ _ (1 / 4194304) 1 13841203 (by norm_num)
  unfold total_accel_f32
  rw [total_accel_sq_f32_boundary2]
  simp only [libm_f32]
  rw [h1]

/-- With `libm_f32` at `(32741, 32586, 28097)`: the roll angle. -/
theorem roll_deg_f32_boundary2 :
    roll_deg_f32 libm_f32 32741 32586 28097 = (9781747 / 262144) := by
  have h1 : f32 (32741 / 16384 : ℚ) = (32741 / 16384) :=
    fp_round_of_pos 24 _ _ (1 / 8388608) 0 16763392 (by norm_num)
  have h2 : f32 (32586 / 16384 : ℚ) = (16293 / 8192) :=
    fp_round_of_pos 24 _ _ (1 / 8388608) 0 16684032 (by norm_num)
  have h3 : f32 (28097 / 16384 : ℚ) = (28097 / 16384) :=
    fp_round_of_pos 24 _ _ (1 / 8388608) 0 14385664 (by norm_num)
  have h4 : f32 ((32741 / 16384) * (32741 / 16384) : ℚ) = (16749579 / 4194304) :=
    fp_round_of_pos 24 _ _ (1 / 4194304) 1 16749579 (by norm_num)
  have h5 : f32 ((16293 / 8192) * (16293 / 8192) : ℚ) = (8295683 / 2097152) :=
    fp_round_of_pos 24 _ _ (1 / 4194304) 1 16591366 (by norm_num)
  have h6 : f32 ((28097 / 16384) * (28097 / 16384) : ℚ) = (6167511 / 2097152) :=
    fp_round_of_pos 24 _ _ (1 / 4194304) 1 12335022 (by norm_num)
  have h7 : f32 ((16749579 / 4194304) + (6167511 / 2097152) : ℚ) = (3635575 / 524288) :=
    fp_round_tie_of_pos 24 _ _ (1 / 2097152) 2 14542300 (by norm_num)
  have h8 : fp_sqrt 24 ((3635575 / 524288) : ℚ) = (11044893 / 4194304) :=
    fp_sqrt_of 24 _ _ (1 / 4194304) 1 11044893 (by norm_num)
  have h9 : atan2_ref ((16293 / 8192) : ℚ) (11044893 / 4194304) = (130251853 / 200000000) := by
    norm_num [atan2_ref, atan_ref, round9, M_PI, abs_le]
  have h10 : f32 ((130251853 / 200000000) : ℚ) = (10926317 / 16777216) :=
    fp_round_of_pos 24 _ _ (1 / 16777216) (-1) 10926317 (by norm_num)
  have h11 : f32 ((10926317 / 16777216) * 180 : ℚ) = (15365133 / 131072) :=
    fp_round_of_pos 24 _ _ (1 / 131072) 6 15365133 (by norm_num)
  have h12 :
      f64 ((15365133 / 131072) / (884279719003555 / 281474976710656) : ℚ) =
        (2625767843353381 / 70368744177664) :=
    fp_round_of_pos 53 _ _ (1 / 140737488355328) 5 5251535686706762 (by norm_num)
  have h13 : f32 ((2625767843353381 / 70368744177664) : ℚ) = (9781747 / 262144) :=
    fp_round_of_pos 24 _ _ (1 / 262144) 5 9781747 (by norm_num)
  unfold roll_deg_f32 calculate_roll_angle_f32
  simp only [libm_f32, Int.cast_ofNat, Int.cast_neg]
  rw [h1, h2, h3, h4, h6, h7, h8, f32_literal_1e_6, if_neg (by norm_num), h9, h10, h11, f64_M_PI,
    h12, h13]

/-- With `libm_f32` at `(32741, 32586, 28097)`: the pitch angle. -/
theorem pitch_deg_f32_boundary2 :
    pitch_deg_f32 libm_f32 32741 32586 28097 = (-4917361 / 131072) := by
  have h1 : f32 (32741 / 16384 : ℚ) = (32741 / 16384) :=
    fp_round_of_pos 24 _ _ (1 / 8388608) 0 16763392 (by norm_num)
  have h2 : f32 (32586 / 16384 : ℚ) = (16293 / 8192) :=
    fp_round_of_pos 24 _ _ (1 / 8388608) 0 16684032 (by norm_num)
  have h3 : f32 (28097 / 16384 : ℚ) = (28097 / 16384) :=
    fp_round_of_pos 24 _ _ (1 / 8388608) 0 14385664 (by norm_num)
  have h4 : f32 ((32741 / 16384) * (32741 / 16384) : ℚ) = (16749579 / 4194304) :=
    fp_round_of_pos 24 _ _ (1 / 4194304) 1 16749579 (by norm_num)
  have h5 : f32 ((16293 / 8192) * (16293 / 8192) : ℚ) = (8295683 / 2097152) :=
    fp_round_of_pos 24 _ _ (1 / 4194304) 1 16591366 (by norm_num)
  have h6 : f32 ((28097 / 16384) * (28097 / 16384) : ℚ) = (6167511 / 2097152) :=
    fp_round_of_pos 24 _ _ (1 / 4194304) 1 12335022 (by norm_num)
  have h7 : f32 ((8295683 / 2097152) + (6167511 / 2097152) : ℚ) = (7231597 / 1048576) :=
    fp_round_of_pos 24 _ _ (1 / 2097152) 2 14463194 (by norm_num)
  have h8 : fp_sqrt 24 ((7231597 / 1048576) : ℚ) = (11014811 / 4194304) :=
    fp_sqrt_of 24 _ _ (1 / 4194304) 1 11014811 (by norm_num)
  have h9 : atan2_ref ((-(32741 / 16384)) : ℚ) (11014811 / 4194304) = (-327393113 / 500000000) := by
    norm_num [atan2_ref, atan_ref, round9, M_PI, abs_le]
  have h10 : f32 ((-327393113 / 500000000) : ℚ) = (-5492745 / 8388608) :=
    fp_round_of_neg 24 _ _ (1 / 16777216) (-1) (-10985490) (by norm_num)
  have h11 : f32 ((-5492745 / 8388608) * 180 : ℚ) = (-15448345 / 131072) :=
    fp_round_of_neg 24 _ _ (1 / 131072) 6 (-15448345) (by norm_num)
  have h12 :
      f64 ((-15448345 / 131072) / (884279719003555 / 281474976710656) : ℚ) =
        (-5279976103562395 / 140737488355328) :=
    fp_round_of_neg 53 _ _ (1 / 140737488355328) 5 (-5279976103562395) (by norm_num)
  have h13 : f32 ((-5279976103562395 / 140737488355328) : ℚ) = (-4917361 / 131072) :=
    fp_round_of_neg 24 _ _ (1 / 262144) 5 (-9834722) (by norm_num)
  unfold pitch_deg_f32 calculate_pitch_angle_f32
  simp only [libm_f32, Int.cast_ofNat, Int.cast_neg]
  rw [h1, h2, h3, h5, h6, h7, h8, f32_literal_1e_6, if_neg (by norm_num), h9, h10, h11, f64_M_PI,
    h12, h13]

/-- With `libm_f32` at `(32741, 32586, 28097)`: the combined tilt. -/
theorem combined_tilt_f32_boundary2 :
    combined_tilt_f32 libm_f32 (9781747 / 262144) (-4917361 / 131072) = (13870989 / 262144) := by
  have h1 : f32 ((-4917361 / 131072) * (-4917361 / 131072) : ℚ) = (2882533 / 2048) :=
    fp_round_of_pos 24 _ _ (1 / 8192) 10 11530132 (by norm_num)
  have h2 : f32 ((9781747 / 262144) * (9781747 / 262144) : ℚ) = (2851563 / 2048) :=
    fp_round_of_pos 24 _ _ (1 / 8192) 10 11406252 (by norm_num)
  have h3 : f32 ((2882533 / 2048) + (2851563 / 2048) : ℚ) = (358381 / 128) :=
    fp_round_of_pos 24 _ _ (1 / 4096) 11 11468192 (by norm_num)
  have h4 : fp_sqrt 24 ((358381 / 128) : ℚ) = (13870989 / 262144) :=
    fp_sqrt_of 24 _ _ (1 / 262144) 5 13870989 (by norm_num)
  unfold combined_tilt_f32
  simp only [libm_f32]
  rw [h1, h2, h3, h4]

/-- With `libm_f32` at `(32741, 32586, 28097)`: the binary32 trigger condition holds. -/
theorem fall_trigger_f32_boundary2 : fall_trigger_f32 libm_f32 32741 32586 28097 := by
  unfold fall_trigger_f32
  right
  rw [total_accel_f32_boundary2, roll_deg_f32_boundary2, pitch_deg_f32_boundary2,
    combined_tilt_f32_boundary2, f32_literal_3_3]
  norm_num

/-- With `libm_f32` at the saturated sample: the rounded sum of squares. -/
theorem total_accel_sq_f32_saturated :
    total_accel_sq_f32 32767 32767 32767 = (49149 / 4096) := by
  have h1 : f32 (32767 / 16384 : ℚ) = (32767 / 16384) :=
    fp_round_of_pos 24 _ _ (1 / 8388608) 0 16776704 (by norm_num)
  have h2 : f32 ((32767 / 16384) * (32767 / 16384) : ℚ) = (16383 / 4096) :=
    fp_round_of_pos 24 _ _ (1 / 4194304) 1 16776192 (by norm_num)
  have h3 : f32 ((16383 / 4096) + (16383 / 4096) : ℚ) = (16383 / 2048) :=
    fp_round_of_pos 24 _ _ (1 / 2097152) 2 16776192 (by norm_num)
  have h4 : f32 ((16383 / 2048) + (16383 / 4096) : ℚ) = (49149 / 4096) :=
    fp_round_of_pos 24 _ _ (1 / 1048576) 3 12582144 (by norm_num)
  unfold total_accel_sq_f32
  simp only [Int.cast_ofNat, Int.cast_neg]
  rw [h1, h2, h3, h4]

/-- With `libm_f32` at the saturated sample: the value of `total_accel`. -/
theorem total_accel_f32_saturated :
    total_accel_f32 libm_f32 32767 32767 32767 = (3632263 / 1048576) := by
  have h1 : fp_sqrt 24 ((49149 / 4096) : ℚ) = (3632263 / 1048576) :=
    fp_sqrt_of 24 _ _ (1 / 4194304) 1 14529052 (by norm_num)
  unfold total_accel_f32
  rw [total_accel_sq_f32_saturated]
  simp only [libm_f32]
  rw [h1]

/-- With `libm_f32` at the saturated sample: the roll angle. -/
theorem roll_deg_f32_saturated :
    roll_deg_f32 libm_f32 32767 32767 32767 = (2329071 / 65536) := by
  have h1 : f32 (32767 / 16384 : ℚ) = (32767 / 16384) :=
    fp_round_of_pos 24 _ _ (1 / 8388608) 0 16776704 (by norm_num)
  have h2 : f32 ((32767 / 16384) * (32767 / 16384) : ℚ) = (16383 / 4096) :=
    fp_round_of_pos 24 _ _ (1 / 4194304) 1 16776192 (by norm_num)
  have h3 : f32 ((16383 / 4096) + (16383 / 4096) : ℚ) = (16383 / 2048) :=
    fp_round_of_pos 24 _ _ (1 / 2097152) 2 16776192 (by norm_num)
  have h4 : fp_sqrt 24 ((16383 / 2048) : ℚ) = (11862921 / 4194304) :=
    fp_sqrt_of 24 _ _ (1 / 4194304) 1 11862921 (by norm_num)
  have h5 : atan2_ref ((32767 / 16384) : ℚ) (11862921 / 4194304) = (77533639 / 125000000) := by
    norm_num [atan2_ref, atan_ref, round9, M_PI, abs_le]
  have h6 : f32 ((77533639 / 125000000) : ℚ) = (10406389 / 16777216) :=
    fp_round_of_pos 24 _ _ (1 / 16777216) (-1) 10406389 (by norm_num)
  have h7 : f32 ((10406389 / 16777216) * 180 : ℚ) = (14633985 / 131072) :=
    fp_round_of_pos 24 _ _ (1 / 131072) 6 14633985 (by norm_num)
  have h8 :
      f64 ((14633985 / 131072) / (884279719003555 / 281474976710656) : ℚ) =
        (5001641994653183 / 140737488355328) :=
    fp_round_of_pos 53 _ _ (1 / 140737488355328) 5 5001641994653183 (by norm_num)
  have h9 : f32 ((5001641994653183 / 140737488355328) : ℚ) = (2329071 / 65536) :=
    fp_round_of_pos 24 _ _ (1 / 262144) 5 9316284 (by norm_num)
  unfold roll_deg_f32 calculate_roll_angle_f32
  simp only [libm_f32, Int.cast_ofNat, Int.cast_neg]
  rw [h1, h2, h3, h4, f32_literal_1e_6, if_neg (by norm_num), h5, h6, h7, f64_M_PI, h8, h9]

/-- With `libm_f32` at the saturated sample: the pitch angle. -/
theorem pitch_deg_f32_saturated :
    pitch_deg_f32 libm_f32 32767 32767 32767 = (-2329071 / 65536) := by
  have h1 : f32 (32767 / 16384 : ℚ) = (32767 / 16384) :=
    fp_round_of_pos 24 _ _ (1 / 8388608) 0 16776704 (by norm_num)
  have h2 : f32 ((32767 / 16384) * (32767 / 16384) : ℚ) = (16383 / 4096) :=
    fp_round_of_pos 24 _ _ (1 / 4194304) 1 16776192 (by norm_num)
  have h3 : f32 ((16383 / 4096) + (16383 / 4096) : ℚ) = (16383 / 2048) :=
    fp_round_of_pos 24 _ _ (1 / 2097152) 2 16776192 (by norm_num)
  have h4 : fp_sqrt 24 ((16383 / 2048) : ℚ) = (11862921 / 4194304) :=
    fp_sqrt_of 24 _ _ (1 / 4194304) 1 11862921 (by norm_num)
  have h5 :
      atan2_ref ((-(32767 / 16384)) : ℚ) (11862921 / 4194304) =
        (-620269113 / 1000000000) := by
    norm_num [atan2_ref, atan_ref, round9, M_PI, abs_le]
  have h6 : f32 ((-620269113 / 1000000000) : ℚ) = (-10406389 / 16777216) :=
    fp_round_of_neg 24 _ _ (1 / 16777216) (-1) (-10406389) (by norm_num)
  have h7 : f32 ((-10406389 / 16777216) * 180 : ℚ) = (-14633985 / 131072) :=
    fp_round_of_neg 24 _ _ (1 / 131072) 6 (-14633985) (by norm_num)
  have h8 :
      f64 ((-14633985 / 131072) / (884279719003555 / 281474976710656) : ℚ) =
        (-5001641994653183 / 140737488355328) :=
    fp_round_of_neg 53 _ _ (1 / 140737488355328) 5 (-5001641994653183) (by norm_num)
  have h9 : f32 ((-5001641994653183 / 140737488355328) : ℚ) = (-2329071 / 65536) :=
    fp_round_of_neg 24 _ _ (1 / 262144) 5 (-9316284) (by norm_num)
  unfold pitch_deg_f32 calculate_pitch_angle_f32
  simp only [libm_f32, Int.cast_ofNat, Int.cast_neg]
  rw [h1, h2, h3, h4, f32_literal_1e_6, if_neg (by norm_num), h5, h6, h7, f64_M_PI, h8, h9]

/-- With `libm_f32` at the saturated sample: the combined tilt. -/
theorem combined_tilt_f32_saturated :
    combined_tilt_f32 libm_f32 (2329071 / 65536) (-2329071 / 65536) = (13175215 / 262144) := by
  have h1 : f32 ((-2329071 / 65536) * (-2329071 / 65536) : ℚ) = (10346549 / 8192) :=
    fp_round_of_pos 24 _ _ (1 / 8192) 10 10346549 (by norm_num)
  have h2 : f32 ((2329071 / 65536) * (2329071 / 65536) : ℚ) = (10346549 / 8192) :=
    fp_round_of_pos 24 _ _ (1 / 8192) 10 10346549 (by norm_num)
  have h3 : f32 ((10346549 / 8192) + (10346549 / 8192) : ℚ) = (10346549 / 4096) :=
    fp_round_of_pos 24 _ _ (1 / 4096) 11 10346549 (by norm_num)
  have h4 : fp_sqrt 24 ((10346549 / 4096) : ℚ) = (13175215 / 262144) :=
    fp_sqrt_of 24 _ _ (1 / 262144) 5 13175215 (by norm_num)
  unfold combined_tilt_f32
  simp only [libm_f32]
  rw [h1, h2, h3, h4]

/-- With `libm_f32` at the saturated sample: the binary32 trigger condition holds. -/
theorem fall_trigger_f32_saturated : fall_trigger_f32 libm_f32 32767 32767 32767 := by
  unfold fall_trigger_f32
  right
  rw [total_accel_f32_saturated, roll_deg_f32_saturated, pitch_deg_f32_saturated,
    combined_tilt_f32_saturated, f32_literal_3_3]
  norm_num

/-! ## `calculate_spo2` in binary32 -/

/-- Rounding keeps a positive value positive. -/
theorem fp_round_pos (p : Nat) (x : ℚ) (hp : 1 ≤ p) (hx : 0 < x) : 0 < fp_round p x := by
  have hu := fp_ulp_pos p x
  have hxa : |x| = x := abs_of_pos hx
  have hz : ((2 : ℚ) ^ Int.log 2 |x|) ≤ |x| := by
    exact_mod_cast Int.zpow_log_le_self (by norm_num : 1 < 2) (abs_pos.mpr (ne_of_gt hx))
  have hle : fp_ulp p x ≤ x := by
    have h1 : fp_ulp p x ≤ (2 : ℚ) ^ Int.log 2 |x| := by
      unfold fp_ulp
      apply zpow_le_zpow_right₀ (by norm_num)
      have : (1 : Int) ≤ (p : Int) := by exact_mod_cast hp
      omega
    calc fp_ulp p x ≤ (2 : ℚ) ^ Int.log 2 |x| := h1
      _ ≤ |x| := hz
      _ = x := hxa
  have h1 : (1 : Int) ≤ round_half_even (x / fp_ulp p x) := by
    apply le_round_half_even
    rw [le_div_iff₀ hu]; push_cast; linarith
  have h2 : (1 : ℚ) ≤ (round_half_even (x / fp_ulp p x) : ℚ) := by exact_mod_cast h1
  unfold fp_round
  have : 0 < (round_half_even (x / fp_ulp p x) : ℚ) := by linarith
  positivity

/-- A multiple of its own unit in the last place is left unchanged by rounding. -/
theorem fp_round_fixed (p : Nat) (x : ℚ) (M : Int) (h : x = M * fp_ulp p x) :
    fp_round p x = x := by
  have hu := fp_ulp_pos p x
  have hq : x / fp_ulp p x = M := by
    rw [div_eq_iff (ne_of_gt hu)]; exact h
  have hr : round_half_even (x / fp_ulp p x) = M := by
    apply round_half_even_eq
    rw [hq]; norm_num
  unfold fp_round
  rw [hr]
  exact h.symm

/-- A binary32 value of at least 75 is a multiple of `2 ^ (-17)`. -/
theorem f32_grid_of_ge (x : ℚ) (h : 75 ≤ f32 x) : ∃ M : Int, f32 x = M / 2 ^ 17 := by
  have hx0 : 0 < x := by
    by_contra hn
    have := fp_round_nonpos 24 x (not_lt.mp hn)
    have e : f32 x = fp_round 24 x := rfl
    linarith
  have h64 : Int.log 2 (64 : ℚ) ≤ 6 + (((24 : Nat) : Int) - 1) := by
    rw [int_log_eq 64 6 (by norm_num) (by norm_num)]; norm_num
  have he : 6 ≤ Int.log 2 |x| := by
    by_contra hn
    push_neg at hn
    have hlt : |x| < (2 : ℚ) ^ (Int.log 2 |x| + 1) := by
      exact_mod_cast Int.lt_zpow_succ_log_self (by norm_num : 1 < 2) |x|
    have hle : (2 : ℚ) ^ (Int.log 2 |x| + 1) ≤ (2 : ℚ) ^ (6 : Int) :=
      zpow_le_zpow_right₀ (by norm_num) (by omega)
    have h64' : x ≤ 64 := by
      have hxa : x = |x| := (abs_of_pos hx0).symm
      have : (2 : ℚ) ^ (6 : Int) = 64 := by norm_num
      have h3 : x < (2 : ℚ) ^ (Int.log 2 |x| + 1) := lt_of_eq_of_lt hxa hlt
      linarith
    have := fp_round_le 24 x 64 1 6 (by norm_num) h64 (by norm_num) h64'
    have e : f32 x = fp_round 24 x := rfl
    linarith
  have hd : 0 ≤ Int.log 2 |x| - 6 := by omega
  refine ⟨round_half_even (x / fp_ulp 24 x) * 2 ^ (Int.log 2 |x| - 6).toNat, ?_⟩
  have e : f32 x = (round_half_even (x / fp_ulp 24 x) : ℚ) * fp_ulp 24 x := rfl
  rw [e]
  have hu : fp_ulp 24 x = (2 : ℚ) ^ (Int.log 2 |x| - 6).toNat / 2 ^ 17 := by
    unfold fp_ulp
    rw [← zpow_natCast (2 : ℚ) (Int.log 2 |x| - 6).toNat, Int.toNat_of_nonneg hd]
    rw [eq_div_iff (by norm_num)]
    have : (2 : ℚ) ^ 17 = (2 : ℚ) ^ (17 : Int) := by norm_num
    rw [this, ← zpow_add₀ (by norm_num : (2 : ℚ) ≠ 0)]
    congr 1
    push_cast
    ring
  rw [hu]
  push_cast
  ring

/-- Adding `0.5f` to a binary32 value between 75 and 100 is exact. -/
theorem f32_add_half_exact (c : ℚ) (M : Int) (hM : c = M / 2 ^ 17) (h1 : 75 ≤ c)
    (h2 : c ≤ 100) : f32 (c + 1 / 2) = c + 1 / 2 := by
  have hpos : 0 < c + 1 / 2 := by linarith
  have hlog : Int.log 2 |c + 1 / 2| = 6 := by
    rw [abs_of_pos hpos]
    exact int_log_eq _ 6 (by norm_num; linarith) (by norm_num; linarith)
  apply fp_round_fixed 24 (c + 1 / 2) (M + 65536)
  unfold fp_ulp
  rw [hlog, hM]
  norm_num
  ring

/-- The value of the binary32 curve is a rounded value. -/
theorem spo2_curve_f32_rounded (r : ℚ) : ∃ x : ℚ, spo2_curve_f32 r = f32 x := by
  unfold spo2_curve_f32
  split_ifs
  · exact ⟨_, rfl⟩
  · exact ⟨_, rfl⟩

/-- The clamped binary32 curve value plus `0.5f`, converted to `int`, is the clamped value
rounded to the nearest integer. -/
theorem spo2_store_round (r : ℚ) :
    float_to_int (f32 (max 75 (min 100 (spo2_curve_f32 r)) + 1 / 2)) =
      round (max 75 (min 100 (spo2_curve_f32 r))) := by
  have h75 : (75 : ℚ) ≤ max 75 (min 100 (spo2_curve_f32 r)) := le_max_left _ _
  have h100 : max 75 (min 100 (spo2_curve_f32 r)) ≤ 100 :=
    max_le (by norm_num) (min_le_left _ _)
  have hgrid : ∃ M : Int, max 75 (min 100 (spo2_curve_f32 r)) = M / 2 ^ 17 := by
    by_cases c1 : spo2_curve_f32 r ≤ 75
    · refine ⟨75 * 2 ^ 17, ?_⟩
      rw [max_eq_left (le_trans (min_le_right _ _) c1)]
      norm_num
    · push_neg at c1
      by_cases c2 : 100 ≤ spo2_curve_f32 r
      · refine ⟨100 * 2 ^ 17, ?_⟩
        rw [min_eq_left c2, max_eq_right (by norm_num)]
        norm_num
      · push_neg at c2
        rw [min_eq_right c2.le, max_eq_right c1.le]
        obtain ⟨x, hx⟩ := spo2_curve_f32_rounded r
        rw [hx] at c1 ⊢
        exact f32_grid_of_ge x c1.le
  obtain ⟨M, hM⟩ := hgrid
  rw [f32_add_half_exact _ M hM h75 h100]
  exact float_to_int_round _ (by linarith)

/-- The computing branch of the binary32 `calculate_spo2`. -/
theorem calculate_spo2_f32_computed (sq : signal_quality_t) (count : Int) (hd : heart_data_t)
    (hq : sq.quality_good = true) (hcount : 500 ≤ count)
    (hpos : 0 < f32 (sq.ir_ac_rms / sq.ir_dc)) :
    calculate_spo2_f32 sq count hd =
      { hd with
        r_ratio := f32 (f32 (sq.red_ac_rms / sq.red_dc) / f32 (sq.ir_ac_rms / sq.ir_dc))
        last_spo2 := round (max 75 (min 100 (spo2_curve_f32
          (f32 (f32 (sq.red_ac_rms / sq.red_dc) / f32 (sq.ir_ac_rms / sq.ir_dc))))))
        spo2_valid := decide
          (f32 (f32 (sq.red_ac_rms / sq.red_dc) / f32 (sq.ir_ac_rms / sq.ir_dc)) ≥ 1 / 2 ∧
            f32 (f32 (sq.red_ac_rms / sq.red_dc) / f32 (sq.ir_ac_rms / sq.ir_dc)) ≤ 3 ∧
            sq.perfusion_index ≥ f64 MIN_PERFUSION_INDEX ∧
            round (max 75 (min 100 (spo2_curve_f32
              (f32 (f32 (sq.red_ac_rms / sq.red_dc) / f32 (sq.ir_ac_rms / sq.ir_dc))))))
              ≥ SPO2_SEVERE_HYPOXIA) } := by
  unfold calculate_spo2_f32
  have hc2 : ¬ (count < 500) := not_lt.mpr hcount
  simp only [hq, hc2, Bool.not_true, decide_False, Bool.or_self, Bool.false_eq_true,
    if_false, not_le.mpr hpos]
  simp only [spo2_clamp_eq, spo2_store_round]
  split_ifs with h
  · rw [decide_eq_true h]
  · rw [decide_eq_false h]

/-- The literal `0.7f`. -/
theorem f32_literal_0_7 : f32 (7 / 10) = (11744051 / 16777216) := by
  have h1 : f32 (7 / 10 : ℚ) = (11744051 / 16777216) :=
    fp_round_of_pos 24 _ _ (1 / 16777216) (-1) 11744051 (by norm_num)
  exact h1

/-- The `double` literal `0.05` of `MIN_PERFUSION_INDEX`. -/
theorem f64_MIN_PERFUSION_INDEX :
    f64 MIN_PERFUSION_INDEX = (3602879701896397 / 72057594037927936) := by
  have h1 : f64 (MIN_PERFUSION_INDEX : ℚ) = (3602879701896397 / 72057594037927936) :=
    fp_round_of_pos 53 _ _ (1 / 144115188075855872) (-5) 7205759403792794
      (by norm_num [MIN_PERFUSION_INDEX])
  exact h1

/-- The binary32 ratio of ratios of `ratio_boundary_quality`: `0.70000005`, one unit in the
last place above `0.7f`. -/
theorem r_ratio_f32_boundary :
    f32 (f32 (700 / 100000) / f32 (1000 / 100000)) = (2936013 / 4194304) := by
  have h1 : f32 (700 / 100000 : ℚ) = (7516193 / 1073741824) :=
    fp_round_of_pos 24 _ _ (1 / 2147483648) (-8) 15032386 (by norm_num)
  have h2 : f32 (1000 / 100000 : ℚ) = (5368709 / 536870912) :=
    fp_round_of_pos 24 _ _ (1 / 1073741824) (-7) 10737418 (by norm_num)
  have h3 : f32 ((7516193 / 1073741824) / (5368709 / 536870912) : ℚ) = (2936013 / 4194304) :=
    fp_round_of_pos 24 _ _ (1 / 16777216) (-1) 11744052 (by norm_num)
  rw [h1, h2, h3]

/-- The binary32 curve at that ratio: the linear branch, rounded to `92.5`. -/
theorem spo2_curve_f32_boundary :
    spo2_curve_f32 (2936013 / 4194304) = (185 / 2) := by
  have h1 : f32 (25 * (2936013 / 4194304) : ℚ) = (9175041 / 524288) :=
    fp_round_of_pos 24 _ _ (1 / 524288) 4 9175041 (by norm_num)
  have h2 : f32 (110 - (9175041 / 524288) : ℚ) = (185 / 2) :=
    fp_round_of_pos 24 _ _ (1 / 131072) 6 12124160 (by norm_num)
  unfold spo2_curve_f32
  rw [f32_literal_0_7, if_neg (by norm_num), h1, h2]

/-- The binary32 ratio of ratios of `half_ratio_quality`. -/
theorem r_ratio_f32_half :
    f32 (f32 (500 / 100000) / f32 (1000 / 100000)) = (1 / 2) := by
  have h1 : f32 (500 / 100000 : ℚ) = (5368709 / 1073741824) :=
    fp_round_of_pos 24 _ _ (1 / 2147483648) (-8) 10737418 (by norm_num)
  have h2 : f32 (1000 / 100000 : ℚ) = (5368709 / 536870912) :=
    fp_round_of_pos 24 _ _ (1 / 1073741824) (-7) 10737418 (by norm_num)
  have h3 : f32 ((5368709 / 1073741824) / (5368709 / 536870912) : ℚ) = (1 / 2) :=
    fp_round_of_pos 24 _ _ (1 / 16777216) (-1) 8388608 (by norm_num)
  rw [h1, h2, h3]

/-! ## A sample with acceleration on the Y axis only -/

/-- C1: `determine_spo2_status` is Normal exactly for `v ≥ 95`, Warning for `90..94`,
Danger for `80..89`, Severe for `75..79` and Invalid for `v < 75`; `hr_get_spo2_status`
is Invalid when `spo2_valid` is false and `determine_spo2_status last_spo2` otherwise. -/
theorem C1_spo2_status_taxonomy (v : Int) (hd : heart_data_t) :
    (determine_spo2_status v = SPO2_STATUS_NORMAL ↔ 95 ≤ v) ∧
    (determine_spo2_status v = SPO2_STATUS_WARNING ↔ 90 ≤ v ∧ v ≤ 94) ∧
    (determine_spo2_status v = SPO2_STATUS_DANGER ↔ 80 ≤ v ∧ v ≤ 89) ∧
    (determine_spo2_status v = SPO2_STATUS_SEVERE ↔ 75 ≤ v ∧ v ≤ 79) ∧
    (determine_spo2_status v = SPO2_STATUS_INVALID ↔ v < 75) ∧
    hr_get_spo2_status hd =
      (if hd.spo2_valid = false then SPO2_STATUS_INVALID
       else determine_spo2_status hd.last_spo2) := by
  refine ⟨?_, ?_, ?_, ?_, ?_, ?_⟩
  all_goals
    simp only [determine_spo2_status, hr_get_spo2_status, SPO2_NORMAL_MIN,
      SPO2_HYPOXIA_WARNING, SPO2_HYPOXIA_DANGER, SPO2_SEVERE_HYPOXIA]
  · split_ifs <;> simp <;> omega
  · split_ifs <;> simp <;> omega
  · split_ifs <;> simp <;> omega
  · split_ifs <;> simp <;> omega
  · split_ifs <;> simp <;> omega
  · cases hd.spo2_valid <;> simp

/-- C2 refuted as stated: for the `int16_t` readings `(31004, 31138, 31503)`, given outside
the cooldown, the exact total acceleration is below 3.3 g (so neither `≥ 5.0` nor `≥ 3.3`
holds of it), yet the binary32 `total_accel` is exactly `3.3f`, the tilt test passes and
`step_fall_detect_fall` reports a fall. -/
theorem C2_boundary_counterexample :
    (is_int16 31004 ∧ is_int16 31138 ∧ is_int16 31503) ∧
    10000 ≤ u32_sub 20000 step_fall_statics_at_start.last_fall_time ∧
    Real.sqrt ((total_accel_sq 31004 31138 31503 : ℚ) : ℝ) < 33 / 10 ∧
    total_accel_f32 libm_f32 31004 31138 31503 = f32 (33 / 10) ∧
    (step_fall_detect_fall_f32 libm_f32 (some init_ctx) step_fall_statics_at_start
      31004 31138 31503 0 0 0 20000).1.fall_detected = true := by
  refine ⟨⟨?_, ?_, ?_⟩, by decide, ?_, ?_, ?_⟩
  · unfold is_int16; decide
  · unfold is_int16; decide
  · unfold is_int16; decide
  · rw [Real.sqrt_lt' (by norm_num)]
    norm_num [total_accel_sq]
  · rw [total_accel_f32_boundary, f32_literal_3_3]
  · exact (fall_f32_detected_iff libm_f32 init_ctx step_fall_statics_at_start
      31004 31138 31503 0 0 0 20000).mpr ⟨by decide, fall_trigger_f32_boundary⟩

/-- C2 as amended: outside the cooldown (`now_ms - last_fall_time ≥ 10000` in `uint32_t`
arithmetic) `step_fall_detect_fall`, computed in binary32, reports a fall exactly when its
`total_accel` (three rounded squares, two rounded sums, `sqrtf`) is at least `5.0f`, or at
least `3.3f` with the combined tilt `sqrtf (pitch * pitch + roll * roll)` of the returned
roll and pitch at least `45.0f`; when it does, `last_fall_time` becomes `now_ms` and the
direction is `determine_fall_direction (roll, pitch)`, and otherwise `last_fall_time` is
kept and the direction is None.  The threshold `3.3f` is `13841203 / 4194304`, which is
below 3.3. -/
theorem C2_fall_trigger_binary32 (lm : libm) (ctx : step_fall_ctx_t)
    (st : step_fall_statics_t) (ax_raw ay_raw az_raw gx_raw gy_raw gz_raw : Int)
    (now_ms : Nat) (hcool : u32_sub now_ms st.last_fall_time ≥ 10000) :
    ((step_fall_detect_fall_f32 lm (some ctx) st ax_raw ay_raw az_raw gx_raw gy_raw gz_raw
        now_ms).1.fall_detected = true ↔
      (total_accel_f32 lm ax_raw ay_raw az_raw ≥ 5 ∨
        (total_accel_f32 lm ax_raw ay_raw az_raw ≥ f32 (33 / 10) ∧
          combined_tilt_f32 lm
            (step_fall_detect_fall_f32 lm (some ctx) st ax_raw ay_raw az_raw gx_raw gy_raw
              gz_raw now_ms).1.roll_deg
            (step_fall_detect_fall_f32 lm (some ctx) st ax_raw ay_raw az_raw gx_raw gy_raw
              gz_raw now_ms).1.pitch_deg ≥ 45))) ∧
    (step_fall_detect_fall_f32 lm (some ctx) st ax_raw ay_raw az_raw gx_raw gy_raw gz_raw
        now_ms).2.2.last_fall_time =
      (if (step_fall_detect_fall_f32 lm (some ctx) st ax_raw ay_raw az_raw gx_raw gy_raw
          gz_raw now_ms).1.fall_detected = true then now_ms else st.last_fall_time) ∧
    (step_fall_detect_fall_f32 lm (some ctx) st ax_raw ay_raw az_raw gx_raw gy_raw gz_raw
        now_ms).1.direction =
      (if (step_fall_detect_fall_f32 lm (some ctx) st ax_raw ay_raw az_raw gx_raw gy_raw
          gz_raw now_ms).1.fall_detected = true then
        determine_fall_direction_f32 lm
          (step_fall_detect_fall_f32 lm (some ctx) st ax_raw ay_raw az_raw gx_raw gy_raw
            gz_raw now_ms).1.roll_deg
          (step_fall_detect_fall_f32 lm (some ctx) st ax_raw ay_raw az_raw gx_raw gy_raw
            gz_raw now_ms).1.pitch_deg
       else FALL_DIR_NONE) ∧
    (step_fall_detect_fall_f32 lm (some ctx) st ax_raw ay_raw az_raw gx_raw gy_raw gz_raw
        now_ms).1.roll_deg =
      calculate_roll_angle_f32 lm (f32 ((ax_raw : ℚ) / ACC_LSB_PER_G))
        (f32 ((ay_raw : ℚ) / ACC_LSB_PER_G)) (f32 ((az_raw : ℚ) / ACC_LSB_PER_G)) ∧
    (step_fall_detect_fall_f32 lm (some ctx) st ax_raw ay_raw az_raw gx_raw gy_raw gz_raw
        now_ms).1.pitch_deg =
      calculate_pitch_angle_f32 lm (f32 ((ax_raw : ℚ) / ACC_LSB_PER_G))
        (f32 ((ay_raw : ℚ) / ACC_LSB_PER_G)) (f32 ((az_raw : ℚ) / ACC_LSB_PER_G)) ∧
    f32 (33 / 10) = 13841203 / 4194304 ∧ (13841203 / 4194304 : ℚ) < 33 / 10 := by
  have hc : 10000 ≤ u32_sub now_ms st.last_fall_time := hcool
  have hlit : (13841203 / 4194304 : ℚ) < 33 / 10 := by norm_num
  rw [step_fall_detect_fall_f32_some]
  by_cases ht : fall_trigger_f32 lm ax_raw ay_raw az_raw
  · have hif : (10000 ≤ u32_sub now_ms st.last_fall_time ∧
        fall_trigger_f32 lm ax_raw ay_raw az_raw) := ⟨hc, ht⟩
    rw [if_pos hif]
    refine ⟨?_, ?_, ?_, ?_, ?_, f32_literal_3_3, hlit⟩
    · simp only [true_iff]; exact ht
    · simp
    · simp
    · simp only [roll_deg_f32, ACC_LSB_PER_G]
    · simp only [pitch_deg_f32, ACC_LSB_PER_G]
  · have hif : ¬ (10000 ≤ u32_sub now_ms st.last_fall_time ∧
        fall_trigger_f32 lm ax_raw ay_raw az_raw) := fun h => ht h.2
    rw [if_neg hif]
    refine ⟨?_, ?_, ?_, ?_, ?_, f32_literal_3_3, hlit⟩
    · simp only [Bool.false_eq_true, false_iff]; exact ht
    · simp
    · simp
    · simp only [roll_deg_f32, ACC_LSB_PER_G]
    · simp only [pitch_deg_f32, ACC_LSB_PER_G]

/-- C2 as amended, instantiated: the saturated sample at `now_ms = 20000` with
`last_fall_time = 0`, under `libm_f32`. -/
theorem C2_fall_trigger_binary32_witness :
    u32_sub 20000 step_fall_statics_at_start.last_fall_time ≥ 10000 ∧
    ((step_fall_detect_fall_f32 libm_f32 (some init_ctx) step_fall_statics_at_start
        32767 32767 32767 0 0 0 20000).1.fall_detected = true ↔
      (total_accel_f32 libm_f32 32767 32767 32767 ≥ 5 ∨
        (total_accel_f32 libm_f32 32767 32767 32767 ≥ f32 (33 / 10) ∧
          combined_tilt_f32 libm_f32
            (step_fall_detect_fall_f32 libm_f32 (some init_ctx) step_fall_statics_at_start
              32767 32767 32767 0 0 0 20000).1.roll_deg
            (step_fall_detect_fall_f32 libm_f32 (some init_ctx) step_fall_statics_at_start
              32767 32767 32767 0 0 0 20000).1.pitch_deg ≥ 45))) :=
  ⟨by decide,
    (C2_fall_trigger_binary32 libm_f32 init_ctx step_fall_statics_at_start
      32767 32767 32767 0 0 0 20000 (by decide)).1⟩

/-- C6 refuted as stated: with good quality, 500 buffered samples, `red_ac_rms = 700`,
`ir_ac_rms = 1000` and both DC values 100000 the ratio is `R = 0.7`, for which the stated
formula gives `f(R) = 94.0134` and the stored value 94; binary32 computes the ratio as
`0.70000005 > 0.7f`, takes the linear branch, rounds `110 - 25 R` to `92.5` and stores 93
(the stated formula at the stored ratio would give 92). -/
theorem C6_ratio_boundary_counterexample :
    ratio_boundary_quality.quality_good = true ∧
    (ratio_boundary_quality.red_ac_rms / ratio_boundary_quality.red_dc) /
      (ratio_boundary_quality.ir_ac_rms / ratio_boundary_quality.ir_dc) = 7 / 10 ∧
    round (max 75 (min 100 (spo2_curve (7 / 10)))) = 94 ∧
    (calculate_spo2_f32 ratio_boundary_quality 500 heart_data_zero).r_ratio =
      2936013 / 4194304 ∧
    f32 (7 / 10) < 2936013 / 4194304 ∧
    round (max 75 (min 100 (spo2_curve (2936013 / 4194304)))) = 92 ∧
    (calculate_spo2_f32 ratio_boundary_quality 500 heart_data_zero).last_spo2 = 93 ∧
    (calculate_spo2_f32 ratio_boundary_quality 500 heart_data_zero).spo2_valid = true := by
  have hpos : 0 < f32 (ratio_boundary_quality.ir_ac_rms / ratio_boundary_quality.ir_dc) :=
    fp_round_pos 24 _ (by norm_num) (by norm_num [ratio_boundary_quality])
  have hc := calculate_spo2_f32_computed ratio_boundary_quality 500 heart_data_zero rfl
    (by norm_num) hpos
  have hR : f32 (f32 (ratio_boundary_quality.red_ac_rms / ratio_boundary_quality.red_dc) /
      f32 (ratio_boundary_quality.ir_ac_rms / ratio_boundary_quality.ir_dc)) =
      2936013 / 4194304 := r_ratio_f32_boundary
  rw [hR, spo2_curve_f32_boundary, f64_MIN_PERFUSION_INDEX] at hc
  rw [hc]
  refine ⟨rfl, ?_, ?_, rfl, ?_, ?_, ?_, ?_⟩
  · norm_num [ratio_boundary_quality]
  · norm_num [spo2_curve, round_eq]
  · rw [f32_literal_0_7]; norm_num
  · norm_num [spo2_curve, round_eq]
  · norm_num [round_eq]
  · norm_num [round_eq, ratio_boundary_quality, SPO2_SEVERE_HYPOXIA]

/-- C6 as amended: when the binary32 `calculate_spo2` runs with good quality, at least 500
buffered samples, DC values above `MIN_DC_VALUE` and an IR amplitude of at least
`MIN_AC_AMPLITUDE` (which good quality implies), the stored ratio is the binary32 quotient
`R` of the two rounded AC/DC quotients; the stored SpO2 is the binary32 curve value
`f(R)` clamped to `[75, 100]` and rounded to the nearest integer, where `f` is
`-45.06f * R * R + 30.354f * R + 94.845f` for `R ≤ 0.7f` and `110.0f - 25.0f * R`
otherwise, each operation rounded; and `spo2_valid` is true exactly when
`0.5 ≤ R ≤ 3.0`, the perfusion index is at least the `double` 0.05 and the stored value is
at least 75.  The threshold `0.7f` is `11744051 / 16777216`, below 0.7. -/
theorem C6_spo2_formula_binary32 (sq : signal_quality_t) (count : Int) (hd : heart_data_t)
    (hq : sq.quality_good = true) (hcount : 500 ≤ count)
    (hred : MIN_DC_VALUE < sq.red_dc) (hir : MIN_DC_VALUE < sq.ir_dc)
    (hac : MIN_AC_AMPLITUDE ≤ sq.ir_ac_rms) :
    (calculate_spo2_f32 sq count hd).r_ratio =
      f32 (f32 (sq.red_ac_rms / sq.red_dc) / f32 (sq.ir_ac_rms / sq.ir_dc)) ∧
    (calculate_spo2_f32 sq count hd).last_spo2 =
      round (max 75 (min 100
        (if (calculate_spo2_f32 sq count hd).r_ratio ≤ f32 (7 / 10) then
          f32 (f32 (f32 (f32 (-f32 (4506 / 100) * (calculate_spo2_f32 sq count hd).r_ratio) *
              (calculate_spo2_f32 sq count hd).r_ratio) +
            f32 (f32 (30354 / 1000) * (calculate_spo2_f32 sq count hd).r_ratio)) +
            f32 (94845 / 1000))
         else f32 (110 - f32 (25 * (calculate_spo2_f32 sq count hd).r_ratio))))) ∧
    ((calculate_spo2_f32 sq count hd).spo2_valid = true ↔
      (1 / 2 ≤ (calculate_spo2_f32 sq count hd).r_ratio ∧
        (calculate_spo2_f32 sq count hd).r_ratio ≤ 3 ∧
        sq.perfusion_index ≥ f64 (5 / 100) ∧
        (calculate_spo2_f32 sq count hd).last_spo2 ≥ 75)) ∧
    f32 (7 / 10) = 11744051 / 16777216 ∧ (11744051 / 16777216 : ℚ) < 7 / 10 := by
  have hpos : 0 < f32 (sq.ir_ac_rms / sq.ir_dc) := by
    apply fp_round_pos 24 _ (by norm_num)
    apply div_pos
    · simp only [MIN_AC_AMPLITUDE] at hac; linarith
    · simp only [MIN_DC_VALUE] at hir; linarith
  rw [calculate_spo2_f32_computed sq count hd hq hcount hpos]
  refine ⟨rfl, rfl, ?_, f32_literal_0_7, by norm_num⟩
  simp [MIN_PERFUSION_INDEX, SPO2_SEVERE_HYPOXIA]

/-- C6 as amended, instantiated: `half_ratio_quality` with 500 buffered samples, where the
binary32 ratio is exactly `0.5`. -/
theorem C6_spo2_formula_binary32_witness :
    half_ratio_quality.quality_good = true ∧ (500 : Int) ≤ 500 ∧
    MIN_DC_VALUE < half_ratio_quality.red_dc ∧ MIN_DC_VALUE < half_ratio_quality.ir_dc ∧
    MIN_AC_AMPLITUDE ≤ half_ratio_quality.ir_ac_rms ∧
    (calculate_spo2_f32 half_ratio_quality 500 heart_data_zero).r_ratio = 1 / 2 := by
  have h1 : MIN_DC_VALUE < half_ratio_quality.red_dc := by
    norm_num [MIN_DC_VALUE, half_ratio_quality]
  have h2 : MIN_DC_VALUE < half_ratio_quality.ir_dc := by
    norm_num [MIN_DC_VALUE, half_ratio_quality]
  have h3 : MIN_AC_AMPLITUDE ≤ half_ratio_quality.ir_ac_rms := by
    norm_num [MIN_AC_AMPLITUDE, half_ratio_quality]
  have h := (C6_spo2_formula_binary32 half_ratio_quality 500 heart_data_zero rfl
    (by norm_num) h1 h2 h3).1
  have hR : f32 (f32 (half_ratio_quality.red_ac_rms / half_ratio_quality.red_dc) /
      f32 (half_ratio_quality.ir_ac_rms / half_ratio_quality.ir_dc)) = 1 / 2 :=
    r_ratio_f32_half
  exact ⟨rfl, by norm_num, h1, h2, h3, h.trans hR⟩

/-- C7: for every call of `hr_update_sample` (on the start state or on a state reached
from `heart_rate_calculator_init`) after which the IR DC estimate is not above
`MIN_DC_VALUE`: `contact_detected` and `quality_good` are false and `perfusion_index` is 0
after the call, and `spo2_valid`, if false before the call, is false after it. -/
theorem C7_no_contact_gating (lm : libm) (s : hr_state) (x : ppg_sample)
    (hreach : hr_reachable lm s)
    (hdc : (hr_update_sample lm s x.red x.ir x.current_time
      x.detect_time).filtered_signals.ir_dc ≤ MIN_DC_VALUE) :
    (hr_update_sample lm s x.red x.ir x.current_time
      x.detect_time).signal_quality.contact_detected = false ∧
    (hr_update_sample lm s x.red x.ir x.current_time
      x.detect_time).signal_quality.quality_good = false ∧
    (hr_update_sample lm s x.red x.ir x.current_time
      x.detect_time).signal_quality.perfusion_index = 0 ∧
    (s.heart_data.spo2_valid = false →
      (hr_update_sample lm s x.red x.ir x.current_time
        x.detect_time).heart_data.spo2_valid = false) := by
  rcases hreach with hstart | ⟨s0, samples, hrun⟩
  · subst hstart
    exact ⟨rfl, rfl, rfl, fun _ => rfl⟩
  · have hinit : s.signal_buffer.initialized = true := by
      rw [hrun]; exact (hr_run_bounds lm s0 samples).1
    obtain ⟨efs, esq, -⟩ :=
      hr_update_sample_initialized lm s x.red x.ir x.current_time x.detect_time hinit
    rw [efs] at hdc
    have hc : ¬ ((hr_store_sample s x.red x.ir x.current_time).2.ir_dc > MIN_DC_VALUE ∧
        (hr_store_sample s x.red x.ir x.current_time).2.ir_dc < MAX_DC_VALUE ∧
        (hr_store_sample s x.red x.ir x.current_time).2.red_dc > MIN_DC_VALUE ∧
        (hr_store_sample s x.red x.ir x.current_time).2.red_dc < MAX_DC_VALUE) :=
      fun h => absurd h.1 (not_lt.mpr hdc)
    obtain ⟨n1, n2, n3⟩ := evaluate_signal_quality_no_contact lm
      (hr_store_sample s x.red x.ir x.current_time).1
      (hr_store_sample s x.red x.ir x.current_time).2 s.signal_quality s.statics hc
    have hbad : (hr_update_sample lm s x.red x.ir x.current_time
        x.detect_time).signal_quality.quality_good = false := by rw [esq]; exact n2
    refine ⟨by rw [esq]; exact n1, hbad, by rw [esq]; exact n3, fun hv => ?_⟩
    rw [hr_update_sample_spo2_valid_of_bad lm s x.red x.ir x.current_time x.detect_time
      hinit hbad]
    split_ifs
    · rfl
    · exact hv

/-- C7 instantiated: the first sample after initialisation, with both ADC counts 0. -/
theorem C7_no_contact_gating_witness :
    hr_reachable libm_ref (hr_run libm_ref hr_state_at_start []) ∧
    (hr_update_sample libm_ref (hr_run libm_ref hr_state_at_start []) 0 0 0
      0).filtered_signals.ir_dc ≤ MIN_DC_VALUE ∧
    (hr_update_sample libm_ref (hr_run libm_ref hr_state_at_start []) 0 0 0
      0).signal_quality.quality_good = false :=
  have hreach : hr_reachable libm_ref (hr_run libm_ref hr_state_at_start []) :=
    Or.inr ⟨hr_state_at_start, [], rfl⟩
  have hdc : (hr_update_sample libm_ref (hr_run libm_ref hr_state_at_start []) 0 0 0
      0).filtered_signals.ir_dc ≤ MIN_DC_VALUE := by
    rw [(hr_update_sample_initialized libm_ref _ 0 0 0 0
      (hr_run_bounds libm_ref hr_state_at_start []).1).1,
      (hr_store_sample_fields _ 0 0 0).2.2.2.2.2.2]
    norm_num [calculate_dc_component, hr_run, heart_rate_calculator_init,
      filtered_signals_zero, MIN_DC_VALUE]
  ⟨hreach, hdc,
    (C7_no_contact_gating libm_ref (hr_run libm_ref hr_state_at_start []) ⟨0, 0, 0, 0⟩
      hreach hdc).2.1⟩

/-- C8: in every state reached from `heart_rate_calculator_init` by `hr_update_sample`
calls the buffer satisfies `0 ≤ head < 1000` and `0 ≤ count ≤ 1000`; the next call stores
`red` and `ir` at the old write cursor, sets `head` to `(head + 1) mod 1000` and `count`
to `min (count + 1) 1000`, and the state it leaves satisfies the same bounds. -/
theorem C8_buffer_cursor (lm : libm) (s0 : hr_state) (samples : List ppg_sample)
    (x : ppg_sample) :
    (0 ≤ (hr_run lm s0 samples).signal_buffer.head ∧
      (hr_run lm s0 samples).signal_buffer.head < 1000 ∧
      0 ≤ (hr_run lm s0 samples).signal_buffer.count ∧
      (hr_run lm s0 samples).signal_buffer.count ≤ 1000) ∧
    (hr_update_sample lm (hr_run lm s0 samples) x.red x.ir x.current_time
        x.detect_time).signal_buffer.red_raw =
      Function.update (hr_run lm s0 samples).signal_buffer.red_raw
        (hr_run lm s0 samples).signal_buffer.head x.red ∧
    (hr_update_sample lm (hr_run lm s0 samples) x.red x.ir x.current_time
        x.detect_time).signal_buffer.ir_raw =
      Function.update (hr_run lm s0 samples).signal_buffer.ir_raw
        (hr_run lm s0 samples).signal_buffer.head x.ir ∧
    (hr_update_sample lm (hr_run lm s0 samples) x.red x.ir x.current_time
        x.detect_time).signal_buffer.head =
      ((hr_run lm s0 samples).signal_buffer.head + 1) % 1000 ∧
    (hr_update_sample lm (hr_run lm s0 samples) x.red x.ir x.current_time
        x.detect_time).signal_buffer.count =
      min ((hr_run lm s0 samples).signal_buffer.count + 1) 1000 ∧
    hr_update_sample lm (hr_run lm s0 samples) x.red x.ir x.current_time x.detect_time =
      hr_run lm s0 (samples ++ [x]) := by
  obtain ⟨hi, h1, h2, h3, h4⟩ := hr_run_bounds lm s0 samples
  obtain ⟨-, -, eh, ec, er, eir, -⟩ :=
    hr_update_sample_initialized lm (hr_run lm s0 samples) x.red x.ir x.current_time
      x.detect_time hi
  refine ⟨⟨h1, h2, h3, h4⟩, er, eir, ?_, ?_, (hr_run_snoc lm s0 samples x).symm⟩
  · rw [eh]
    simp only [BUFFER_SIZE]
    exact Int.tmod_eq_emod (by omega) (by omega)
  · rw [ec]
    simp only [BUFFER_SIZE]
    split_ifs with h
    · rw [min_eq_left (by omega)]
    · rw [min_eq_right (by omega)]; omega

/-- C9: each of the six setters that own a validity bit writes exactly its argument(s)
into its own field, sets its own validity bit and keeps every other field and bit;
`sensor_data_set_timestamp` changes `timestamp_ms` only; and no setter clears a validity
bit. -/
theorem C9_setters_frame (s : sensor_data_t) (hr temp : ℚ) (spo2 steps fall ts rssi : Int)
    (major minor : Nat) :
    sensor_data_set_heart_rate s hr =
      { heart_rate := hr, temperature := s.temperature, spo2 := s.spo2, steps := s.steps,
        fall_detected := s.fall_detected, timestamp_ms := s.timestamp_ms,
        location := s.location,
        validity_flags :=
          { heart_rate_valid := true
            temperature_valid := s.validity_flags.temperature_valid
            spo2_valid := s.validity_flags.spo2_valid
            steps_valid := s.validity_flags.steps_valid
            fall_detected_valid := s.validity_flags.fall_detected_valid
            location_valid := s.validity_flags.location_valid
            reserved := s.validity_flags.reserved } } ∧
    sensor_data_set_temperature s temp =
      { heart_rate := s.heart_rate, temperature := temp, spo2 := s.spo2, steps := s.steps,
        fall_detected := s.fall_detected, timestamp_ms := s.timestamp_ms,
        location := s.location,
        validity_flags :=
          { heart_rate_valid := s.validity_flags.heart_rate_valid
            temperature_valid := true
            spo2_valid := s.validity_flags.spo2_valid
            steps_valid := s.validity_flags.steps_valid
            fall_detected_valid := s.validity_flags.fall_detected_valid
            location_valid := s.validity_flags.location_valid
            reserved := s.validity_flags.reserved } } ∧
    sensor_data_set_spo2 s spo2 =
      { heart_rate := s.heart_rate, temperature := s.temperature, spo2 := spo2,
        steps := s.steps, fall_detected := s.fall_detected, timestamp_ms := s.timestamp_ms,
        location := s.location,
        validity_flags :=
          { heart_rate_valid := s.validity_flags.heart_rate_valid
            temperature_valid := s.validity_flags.temperature_valid
            spo2_valid := true
            steps_valid := s.validity_flags.steps_valid
            fall_detected_valid := s.validity_flags.fall_detected_valid
            location_valid := s.validity_flags.location_valid
            reserved := s.validity_flags.reserved } } ∧
    sensor_data_set_steps s steps =
      { heart_rate := s.heart_rate, temperature := s.temperature, spo2 := s.spo2,
        steps := steps, fall_detected := s.fall_detected, timestamp_ms := s.timestamp_ms,
        location := s.location,
        validity_flags :=
          { heart_rate_valid := s.validity_flags.heart_rate_valid
            temperature_valid := s.validity_flags.temperature_valid
            spo2_valid := s.validity_flags.spo2_valid
            steps_valid := true
            fall_detected_valid := s.validity_flags.fall_detected_valid
            location_valid := s.validity_flags.location_valid
            reserved := s.validity_flags.reserved } } ∧
    sensor_data_set_fall_detected s fall =
      { heart_rate := s.heart_rate, temperature := s.temperature, spo2 := s.spo2,
        steps := s.steps, fall_detected := fall, timestamp_ms := s.timestamp_ms,
        location := s.location,
        validity_flags :=
          { heart_rate_valid := s.validity_flags.heart_rate_valid
            temperature_valid := s.validity_flags.temperature_valid
            spo2_valid := s.validity_flags.spo2_valid
            steps_valid := s.validity_flags.steps_valid
            fall_detected_valid := true
            location_valid := s.validity_flags.location_valid
            reserved := s.validity_flags.reserved } } ∧
    sensor_data_set_location s major minor rssi =
      { heart_rate := s.heart_rate, temperature := s.temperature, spo2 := s.spo2,
        steps := s.steps, fall_detected := s.fall_detected, timestamp_ms := s.timestamp_ms,
        location := { major := major, minor := minor, rssi := rssi },
        validity_flags :=
          { heart_rate_valid := s.validity_flags.heart_rate_valid
            temperature_valid := s.validity_flags.temperature_valid
            spo2_valid := s.validity_flags.spo2_valid
            steps_valid := s.validity_flags.steps_valid
            fall_detected_valid := s.validity_flags.fall_detected_valid
            location_valid := true
            reserved := s.validity_flags.reserved } } ∧
    sensor_data_set_timestamp s ts =
      { heart_rate := s.heart_rate, temperature := s.temperature, spo2 := s.spo2,
        steps := s.steps, fall_detected := s.fall_detected, timestamp_ms := ts,
        location := s.location, validity_flags := s.validity_flags } ∧
    validity_bits_kept s.validity_flags (sensor_data_set_heart_rate s hr).validity_flags
      = true ∧
    validity_bits_kept s.validity_flags (sensor_data_set_temperature s temp).validity_flags
      = true ∧
    validity_bits_kept s.validity_flags (sensor_data_set_spo2 s spo2).validity_flags = true ∧
    validity_bits_kept s.validity_flags (sensor_data_set_steps s steps).validity_flags
      = true ∧
    validity_bits_kept s.validity_flags (sensor_data_set_fall_detected s fall).validity_flags
      = true ∧
    validity_bits_kept s.validity_flags
      (sensor_data_set_location s major minor rssi).validity_flags = true ∧
    validity_bits_kept s.validity_flags (sensor_data_set_timestamp s ts).validity_flags
      = true := by
  obtain ⟨a, b, c, d, e, f, g, ⟨v1, v2, v3, v4, v5, v6, v7⟩⟩ := s
  refine ⟨rfl, rfl, rfl, rfl, rfl, rfl, rfl, ?_, ?_, ?_, ?_, ?_, ?_, ?_⟩ <;>
    simp [validity_bits_kept, sensor_data_set_heart_rate, sensor_data_set_temperature,
      sensor_data_set_spo2, sensor_data_set_steps, sensor_data_set_fall_detected,
      sensor_data_set_location, sensor_data_set_timestamp, xSemaphoreTake_portMAX_DELAY]

/-- C10: the snapshot taken after `sensor_data_init` at process start, before any setter,
has all six validity bits clear and every field zero; `sensor_data_get_snapshot` returns a
copy equal to the stored record and leaves the stored record as it was, so a second call
returns the same value. -/
theorem C10_initial_snapshot (s : sensor_data_t) :
    (sensor_data_get_snapshot (sensor_data_init current_data_at_start)).1 =
      { heart_rate := 0, temperature := 0, spo2 := 0, steps := 0, fall_detected := 0,
        timestamp_ms := 0, location := { major := 0, minor := 0, rssi := 0 },
        validity_flags :=
          { heart_rate_valid := false, temperature_valid := false, spo2_valid := false,
            steps_valid := false, fall_detected_valid := false, location_valid := false,
            reserved := 0 } } ∧
    (sensor_data_get_snapshot s).1 = s ∧
    (sensor_data_get_snapshot s).2 = s ∧
    (sensor_data_get_snapshot (sensor_data_get_snapshot s).2).1 =
      (sensor_data_get_snapshot s).1 :=
  ⟨rfl, rfl, rfl, rfl⟩

/-- C11: for every stored record, `sensor_data_get_valid_count` returns the number of
validity bits that are set, a value between 0 and 6, and
`sensor_data_has_valid_measurements` returns non-zero exactly when that count is
positive. -/
theorem C11_valid_count (s : sensor_data_t) :
    sensor_data_get_valid_count s = (((validity_bits s.validity_flags).count true : Nat) : Int) ∧
    0 ≤ sensor_data_get_valid_count s ∧ sensor_data_get_valid_count s ≤ 6 ∧
    (sensor_data_has_valid_measurements s ≠ 0 ↔ 0 < sensor_data_get_valid_count s) := by
  obtain ⟨a, b, c, d, e, f, g, ⟨v1, v2, v3, v4, v5, v6, v7⟩⟩ := s
  simp only [sensor_data_get_valid_count, sensor_data_has_valid_measurements,
    sensor_data_get_snapshot, xSemaphoreTake_portMAX_DELAY, validity_bits, bit_value, if_true]
  cases v1 <;> cases v2 <;> cases v3 <;> cases v4 <;> cases v5 <;> cases v6 <;> decide

/-- C13: from a context set up by `step_fall_init` at 100 Hz and statics at their initial
values, any number of pure-gravity samples (`az = 16384`, all else 0), at any time stamps,
makes every `step_fall_detect_step` call return false and every `step_fall_detect_fall`
call return `fall_detected = false`; `sqrtf` is assumed exact at 0 and 1. -/
theorem C13_pure_gravity_no_events (lm : libm) (c0 : step_fall_ctx_t) (times : List Nat)
    (h0 : lm.sqrtf 0 = 0) (h1 : lm.sqrtf 1 = 1) :
    (motion_run lm (step_fall_init (some c0) 100) step_fall_statics_at_start
      (times.map gravity_sample)).1.length = times.length ∧
    ∀ r ∈ (motion_run lm (step_fall_init (some c0) 100) step_fall_statics_at_start
      (times.map gravity_sample)).1, r.1 = false ∧ r.2.fall_detected = false := by
  have h := motion_run_gravity lm h0 h1 times init_ctx step_fall_statics_at_start rfl rfl rfl
  exact ⟨h.2.1, h.1⟩

/-- C13 instantiated: the 300 samples of the scenario, 10 ms apart. -/
theorem C13_pure_gravity_no_events_witness :
    libm_ref.sqrtf 0 = 0 ∧ libm_ref.sqrtf 1 = 1 ∧
    (motion_run libm_ref (step_fall_init (some default_ctx) 100) step_fall_statics_at_start
      ((times_100hz 300).map gravity_sample)).1.length = (times_100hz 300).length ∧
    ∀ r ∈ (motion_run libm_ref (step_fall_init (some default_ctx) 100)
      step_fall_statics_at_start ((times_100hz 300).map gravity_sample)).1,
      r.1 = false ∧ r.2.fall_detected = false :=
  ⟨libm_ref_sqrt_zero, libm_ref_sqrt_one,
    C13_pure_gravity_no_events libm_ref default_ctx (times_100hz 300) libm_ref_sqrt_zero
      libm_ref_sqrt_one⟩

/-- C15 at the failing input: right after `step_fall_reset_fall`, a saturated sample, which
satisfies the trigger condition, given at `now_ms = 5000` is answered with
`fall_detected = false`. -/
theorem C15_reset_then_early_sample :
    fall_trigger_spec libm_ref (saturated_sample 5000).ax_raw (saturated_sample 5000).ay_raw
      (saturated_sample 5000).az_raw ∧
    (step_fall_reset_fall (some init_ctx) step_fall_statics_at_start).2.last_fall_time = 0 ∧
    (fall_call libm_ref (step_fall_reset_fall (some init_ctx) step_fall_statics_at_start).1
      (step_fall_reset_fall (some init_ctx) step_fall_statics_at_start).2
      (saturated_sample 5000)).1.fall_detected = false := by
  refine ⟨fall_trigger_ref_saturated, rfl, ?_⟩
  cases hfd : (fall_call libm_ref
      (step_fall_reset_fall (some init_ctx) step_fall_statics_at_start).1
      (step_fall_reset_fall (some init_ctx) step_fall_statics_at_start).2
      (saturated_sample 5000)).1.fall_detected
  · rfl
  · have := ((fall_call_detected_iff libm_ref _ _ (saturated_sample 5000)).mp hfd).1
    exact absurd this (by decide)

/-- C16 refuted as stated: a window opened by a call made before `step_fall_init` is still
open after it (the open-window flag is true, the peak value and previous sample are not
zero), and the results of the `step_fall_detect_step` calls that follow differ from those
obtained on fresh statics. -/
theorem C16_init_keeps_statics_counterexample :
    (step_fall_init_state
      (step_call libm_ref (step_fall_init (some default_ctx) 100) step_fall_statics_at_start
        ⟨32767, 0, 16384, 0, 0, 0, 1000⟩).2 100).2.above = true ∧
    (step_run libm_ref
      (step_fall_init_state
        (step_call libm_ref (step_fall_init (some default_ctx) 100)
          step_fall_statics_at_start ⟨32767, 0, 16384, 0, 0, 0, 1000⟩).2 100).1
      (step_fall_init_state
        (step_call libm_ref (step_fall_init (some default_ctx) 100)
          step_fall_statics_at_start ⟨32767, 0, 16384, 0, 0, 0, 1000⟩).2 100).2
      gated_burst).1 ≠
    (step_run libm_ref (step_fall_init (some default_ctx) 100) step_fall_statics_at_start
      gated_burst).1 := by
  have hinit : step_fall_init (some default_ctx) 100 = some init_ctx := rfl
  obtain ⟨c2, hc2, -⟩ := step_call_some libm_ref init_ctx step_fall_statics_at_start
    ⟨32767, 0, 16384, 0, 0, 0, 1000⟩
  have hctx : step_fall_init
      (step_call libm_ref (some init_ctx) step_fall_statics_at_start
        ⟨32767, 0, 16384, 0, 0, 0, 1000⟩).2.1 100 = some init_ctx := by
    rw [hc2]; rfl
  simp only [step_fall_init_state, hinit, hctx, swing_opens_window, gated_burst_after_open,
    gated_burst_fresh]
  exact ⟨trivial, by decide⟩

/-- C16 as amended: `step_fall_init` sets every field of the context, so the gravity
estimate, the EMA baseline, the last-step time stamp and the fall flag with its reset time
are zero/false and `lpf_a = 0.02`, `ema_a = 0.01`, `dyn_k = 1.0`,
`step_min_interval_ms = 220`, `gyro_gate_dps = 120`; it leaves the step detector's
open-window flag, peak value and previous-sample memory as they are, and there are
statics for which the results of later `step_fall_detect_step` calls differ from those on
fresh statics. -/
theorem C16_init_resets_context_only (ctx : step_fall_ctx_t) (st : step_fall_statics_t)
    (sample_hz : ℚ) :
    (step_fall_init_state (some ctx, st) sample_hz).1 =
      some
        { lpf_a := 2 / 100, ema_a := 1 / 100, dyn_k := 1, step_min_interval_ms := 220,
          gyro_gate_dps := 120, accel_threshold_g := 28 / 10, angle_threshold_deg := 50,
          g_est_x := 0, g_est_y := 0, g_est_z := 0, ema_abs_a := 0, last_step_ms := 0,
          fall_detected := false, fall_reset_time_ms := 0 } ∧
    (step_fall_init_state (some ctx, st) sample_hz).2.above = st.above ∧
    (step_fall_init_state (some ctx, st) sample_hz).2.peak_value = st.peak_value ∧
    (step_fall_init_state (some ctx, st) sample_hz).2.prev_ax = st.prev_ax ∧
    (step_fall_init_state (some ctx, st) sample_hz).2.prev_ay = st.prev_ay ∧
    (step_fall_init_state (some ctx, st) sample_hz).2.prev_az = st.prev_az ∧
    (∃ st2 : step_fall_statics_t,
      (step_run libm_ref (step_fall_init_state (some ctx, st2) sample_hz).1
        (step_fall_init_state (some ctx, st2) sample_hz).2 gated_burst).1 ≠
      (step_run libm_ref (step_fall_init_state (some ctx, step_fall_statics_at_start)
          sample_hz).1
        (step_fall_init_state (some ctx, step_fall_statics_at_start) sample_hz).2
        gated_burst).1) := by
  refine ⟨rfl, rfl, rfl, rfl, rfl, rfl,
    ⟨{ last_fall_time := 0, prev_ax := 32767 / 16384, prev_ay := 0, prev_az := 1,
        above := true, peak_value := 6527800779 / 1000000000 }, ?_⟩⟩
  have h1 : ∀ s : step_fall_statics_t,
      step_fall_init_state (some ctx, s) sample_hz = (some init_ctx, s) := fun _ => rfl
  rw [h1, h1, gated_burst_after_open, gated_burst_fresh]
  decide

/-- C17 at the failing input: `hr_get_latest_spo2` is never below 95, so it never returns
0; right after `heart_rate_calculator_init` the reading is not valid and the function
returns 95, and for a stored value of 85 it returns 95 as well.  `hr_get_latest` does
return the stored heart rate when it is valid and 0 otherwise. -/
theorem C17_latest_spo2_floor (hd : heart_data_t) :
    95 ≤ hr_get_latest_spo2 hd ∧
    hr_get_latest_spo2 hd = max hd.last_spo2 95 ∧
    (heart_rate_calculator_init hr_state_at_start).heart_data.spo2_valid = false ∧
    hr_get_latest_spo2 (heart_rate_calculator_init hr_state_at_start).heart_data = 95 ∧
    hr_get_latest_spo2 { hd with last_spo2 := 85, spo2_valid := true } = 95 ∧
    hr_get_latest hd = (if hd.hr_valid = true then hd.last_hr_bpm else 0) := by
  refine ⟨?_, ?_, rfl, rfl, rfl, ?_⟩
  · unfold hr_get_latest_spo2; split_ifs <;> omega
  · unfold hr_get_latest_spo2; split_ifs with h
    · exact (max_eq_left h).symm
    · exact (max_eq_right (by omega)).symm
  · unfold hr_get_latest; rfl

/-- C18: a call of `hr_update_sample` after which the signal quality is not good, or made
with 100 or fewer samples in the buffer, leaves `last_hr_bpm` and `hr_valid` exactly as
they were; and no call turns `hr_valid` from true to false. -/
theorem C18_hold_last_heart_rate (lm : libm) (s : hr_state) (x : ppg_sample) :
    (((hr_update_sample lm s x.red x.ir x.current_time
          x.detect_time).signal_quality.quality_good = false ∨
        s.signal_buffer.count ≤ 100) →
      (hr_update_sample lm s x.red x.ir x.current_time x.detect_time).heart_data.last_hr_bpm
        = s.heart_data.last_hr_bpm ∧
      (hr_update_sample lm s x.red x.ir x.current_time x.detect_time).heart_data.hr_valid
        = s.heart_data.hr_valid) ∧
    (s.heart_data.hr_valid = true →
      (hr_update_sample lm s x.red x.ir x.current_time x.detect_time).heart_data.hr_valid
        = true) := by
  cases hinit : s.signal_buffer.initialized
  · have hs : hr_update_sample lm s x.red x.ir x.current_time x.detect_time = s := by
      unfold hr_update_sample; simp [hinit]
    rw [hs]
    exact ⟨fun _ => ⟨rfl, rfl⟩, fun h => h⟩
  · have hd := hr_update_sample_heart_data lm s x.red x.ir x.current_time x.detect_time hinit
    constructor
    · intro hbad
      have hcond : ¬ ((hr_update_sample lm s x.red x.ir x.current_time
          x.detect_time).signal_quality.quality_good = true ∧ s.signal_buffer.count > 100) := by
        rintro ⟨h1, h2⟩
        rcases hbad with hb | hb
        · rw [h1] at hb; exact absurd hb (by simp)
        · omega
      rw [hd]
      simp only [hcond, if_false]
      split_ifs
      · exact ⟨(calculate_spo2_keeps_hr _ _ _).1, (calculate_spo2_keeps_hr _ _ _).2.1⟩
      · exact ⟨rfl, rfl⟩
    · intro hv
      rw [hd]
      split_ifs
      · rw [(calculate_spo2_keeps_hr _ _ _).2.1]; exact hr_beat_stage_valid _ _ _ _ _ _ _ hv
      · rw [(calculate_spo2_keeps_hr _ _ _).2.1]; exact hv
      · exact hr_beat_stage_valid _ _ _ _ _ _ _ hv
      · exact hv

/-- C18 instantiated: the first sample after initialisation (no samples buffered yet). -/
theorem C18_hold_last_heart_rate_witness :
    ((hr_update_sample libm_ref (hr_run libm_ref hr_state_at_start []) zero_ppg_sample.red
          zero_ppg_sample.ir zero_ppg_sample.current_time
          zero_ppg_sample.detect_time).signal_quality.quality_good = false ∨
      (hr_run libm_ref hr_state_at_start []).signal_buffer.count ≤ 100) ∧
    (hr_update_sample libm_ref (hr_run libm_ref hr_state_at_start []) zero_ppg_sample.red
      zero_ppg_sample.ir zero_ppg_sample.current_time
      zero_ppg_sample.detect_time).heart_data.hr_valid =
      (hr_run libm_ref hr_state_at_start []).heart_data.hr_valid :=
  have h : (hr_update_sample libm_ref (hr_run libm_ref hr_state_at_start [])
        zero_ppg_sample.red zero_ppg_sample.ir zero_ppg_sample.current_time
        zero_ppg_sample.detect_time).signal_quality.quality_good = false ∨
      (hr_run libm_ref hr_state_at_start []).signal_buffer.count ≤ 100 :=
    Or.inr (by simp [hr_run, heart_rate_calculator_init, signal_buffer_zero])
  ⟨h, ((C18_hold_last_heart_rate libm_ref (hr_run libm_ref hr_state_at_start [])
    zero_ppg_sample).1 h).2⟩

/-- C19: with the ring cursor inside the array, `calculate_stable_heart_rate` changes
nothing when fewer than 3 intervals are stored; with `n ≥ 3` it stores the value of the
specification (`stable_hr_spec`: weighted average of the `min(n, 5)` most recent intervals
with weights `k - i`, integer division, `raw = 60000000 / avg`, 85/15 smoothing when a
valid rate exists, pull towards 63 or 77 with factor 0.1 outside that band) and sets
`hr_valid`; no other field changes. -/
theorem C19_stable_heart_rate (hd : heart_data_t)
    (hh0 : 0 ≤ hd.beat_data.head) (hh1 : hd.beat_data.head < 15) :
    (hd.beat_data.count < 3 → calculate_stable_heart_rate hd = hd) ∧
    (3 ≤ hd.beat_data.count →
      calculate_stable_heart_rate hd =
        { last_hr_bpm := stable_hr_spec hd, last_spo2 := hd.last_spo2, hr_valid := true,
          spo2_valid := hd.spo2_valid, beat_data := hd.beat_data,
          last_beat_time := hd.last_beat_time, r_ratio := hd.r_ratio }) := by
  constructor
  · intro h
    unfold calculate_stable_heart_rate
    rw [if_pos (by unfold MIN_BEATS_FOR_CALCULATION; exact h)]
  · intro h
    exact calculate_stable_heart_rate_eq hd hh0 hh1 h

/-- C19 instantiated: three stored intervals of 800 ms give 75 bpm. -/
theorem C19_stable_heart_rate_witness :
    0 ≤ three_beats.beat_data.head ∧ three_beats.beat_data.head < 15 ∧
    3 ≤ three_beats.beat_data.count ∧
    calculate_stable_heart_rate three_beats =
      { last_hr_bpm := stable_hr_spec three_beats, last_spo2 := three_beats.last_spo2,
        hr_valid := true, spo2_valid := three_beats.spo2_valid,
        beat_data := three_beats.beat_data, last_beat_time := three_beats.last_beat_time,
        r_ratio := three_beats.r_ratio } ∧
    stable_hr_spec three_beats = 75 :=
  ⟨by decide, by decide, by decide,
    (C19_stable_heart_rate three_beats (by decide) (by decide)).2 (by decide),
    stable_hr_spec_three_beats⟩

/-- C20 at the failing inputs: once 1000 or more samples have been fed after
`heart_rate_calculator_init`, every further call of `hr_update_sample` reaches
`calculate_spo2` (two calls in a row do), and a call after which the quality is not good
therefore clears `spo2_valid`. -/
theorem C20_spo2_recomputed_every_call_when_full (lm : libm) (s0 : hr_state)
    (samples : List ppg_sample) (x : ppg_sample) (hlen : 1000 ≤ samples.length) :
    spo2_recomputed (hr_run lm s0 samples) = true ∧
    spo2_recomputed (hr_run lm s0 (samples ++ [x])) = true ∧
    ((hr_update_sample lm (hr_run lm s0 samples) x.red x.ir x.current_time
        x.detect_time).signal_quality.quality_good = false →
      (hr_update_sample lm (hr_run lm s0 samples) x.red x.ir x.current_time
        x.detect_time).heart_data.spo2_valid = false) := by
  have hm : min (samples.length : Int) 1000 = 1000 := min_eq_right (by exact_mod_cast hlen)
  have hm2 : min ((samples ++ [x]).length : Int) 1000 = 1000 :=
    min_eq_right (by rw [List.length_append]; push_cast; simp only [List.length_singleton]; omega)
  refine ⟨?_, ?_, ?_⟩
  · rw [spo2_recomputed_run, hm]; decide
  · rw [spo2_recomputed_run, hm2]; decide
  · intro hbad
    rw [hr_update_sample_spo2_valid_of_bad lm _ x.red x.ir x.current_time x.detect_time
      (hr_run_bounds lm s0 samples).1 hbad, hr_run_count, hm]
    rw [if_pos (by decide)]

/-- C20 instantiated: 1001 samples, so the next call is the 1002nd. -/
theorem C20_spo2_recomputed_every_call_when_full_witness :
    1000 ≤ (List.replicate 1001 zero_ppg_sample).length ∧
    spo2_recomputed (hr_run libm_ref hr_state_at_start
      (List.replicate 1001 zero_ppg_sample)) = true ∧
    spo2_recomputed (hr_run libm_ref hr_state_at_start
      (List.replicate 1001 zero_ppg_sample ++ [zero_ppg_sample])) = true :=
  have h : 1000 ≤ (List.replicate 1001 zero_ppg_sample).length := by
    rw [List.length_replicate]; decide
  ⟨h,
    (C20_spo2_recomputed_every_call_when_full libm_ref hr_state_at_start
      (List.replicate 1001 zero_ppg_sample) zero_ppg_sample h).1,
    (C20_spo2_recomputed_every_call_when_full libm_ref hr_state_at_start
      (List.replicate 1001 zero_ppg_sample) zero_ppg_sample h).2.1⟩

/-- C21 at the failing input: with contact, a cursor inside the array and a buffer that is
full or filled from slot 0 up to the cursor (as in every state reached from
`heart_rate_calculator_init`), the `red_ac_rms` and `ir_ac_rms` that
`evaluate_signal_quality` stores are the root mean squares of `filtered - dc` over the
fixed ring slots `0 .. min(count, 50) - 1`, wherever the write cursor is; they are 0 with
fewer than 10 samples. -/
theorem C21_ac_rms_over_first_slots (lm : libm) (sb : signal_buffer_t)
    (fs : filtered_signal_t) (sq : signal_quality_t) (st : hr_statics_t)
    (hcontact : fs.ir_dc > MIN_DC_VALUE ∧ fs.ir_dc < MAX_DC_VALUE ∧
      fs.red_dc > MIN_DC_VALUE ∧ fs.red_dc < MAX_DC_VALUE)
    (hh0 : 0 ≤ sb.head) (hh1 : sb.head < 1000) (hc1 : sb.count ≤ 1000)
    (hfill : sb.count = 1000 ∨ sb.head = sb.count) :
    (evaluate_signal_quality lm sb fs sq st).1.contact_detected = true ∧
    (evaluate_signal_quality lm sb fs sq st).1.red_ac_rms =
      ac_rms_over lm (fun i => sb.red_filtered (i : Int) - sb.red_dc (i : Int)) sb.count ∧
    (evaluate_signal_quality lm sb fs sq st).1.ir_ac_rms =
      ac_rms_over lm (fun i => sb.ir_filtered (i : Int) - sb.ir_dc (i : Int)) sb.count ∧
    (sb.count < 10 →
      (evaluate_signal_quality lm sb fs sq st).1.red_ac_rms = 0 ∧
      (evaluate_signal_quality lm sb fs sq st).1.ir_ac_rms = 0) := by
  obtain ⟨a, b⟩ := evaluate_signal_quality_rms lm sb fs sq st hcontact hh0 hh1 hc1 hfill
  refine ⟨?_, a, b, ?_⟩
  · unfold evaluate_signal_quality
    simp only [hcontact, and_self, decide_True, Bool.not_true, Bool.false_eq_true, if_false]
  · intro h10
    rw [a, b]
    unfold ac_rms_over
    rw [if_pos h10, if_pos h10]
    exact ⟨rfl, rfl⟩

/-- C21 instantiated at the failing input: in `two_level_buffer` the 50 samples stored last
(slots 50 to 99, and slot 100 at the cursor) have AC value 6, so their root mean square is
6 whether or not the sample at the cursor is counted; the stored `red_ac_rms` is 1, the
root mean square over slots 0 to 49. -/
theorem C21_ac_rms_over_first_slots_witness :
    (two_level_filtered.ir_dc > MIN_DC_VALUE ∧ two_level_filtered.ir_dc < MAX_DC_VALUE ∧
      two_level_filtered.red_dc > MIN_DC_VALUE ∧ two_level_filtered.red_dc < MAX_DC_VALUE) ∧
    (evaluate_signal_quality libm_ref two_level_buffer two_level_filtered signal_quality_zero
      hr_state_at_start.statics).1.red_ac_rms = 1 ∧
    ac_rms_spec libm_ref two_level_buffer.red_filtered two_level_buffer.red_dc
      (two_level_buffer.head - 1) two_level_buffer.count = 6 ∧
    ac_rms_spec libm_ref two_level_buffer.red_filtered two_level_buffer.red_dc
      two_level_buffer.head two_level_buffer.count = 6 := by
  have hcontact : two_level_filtered.ir_dc > MIN_DC_VALUE ∧
      two_level_filtered.ir_dc < MAX_DC_VALUE ∧
      two_level_filtered.red_dc > MIN_DC_VALUE ∧
      two_level_filtered.red_dc < MAX_DC_VALUE := by
    norm_num [two_level_filtered, MIN_DC_VALUE, MAX_DC_VALUE]
  have hk : (min (100 : Int) 50).toNat = 50 := by decide
  have hk2 : Int.toNat 50 = 50 := rfl
  have hm : min (100 : Int) 50 = 50 := by decide
  have h10 : ¬ ((100 : Int) < 10) := by decide
  have key := (C21_ac_rms_over_first_slots libm_ref two_level_buffer two_level_filtered
    signal_quality_zero hr_state_at_start.statics hcontact (by decide) (by decide)
    (by decide) (Or.inr rfl)).2.1
  refine ⟨hcontact, ?_, ?_, ?_⟩
  · rw [key]
    have hs : ∀ i ∈ Finset.range 50,
        (two_level_buffer.red_filtered (i : Int) - two_level_buffer.red_dc (i : Int)) *
          (two_level_buffer.red_filtered (i : Int) - two_level_buffer.red_dc (i : Int))
          = 1 := by
      intro i hi
      rw [Finset.mem_range] at hi
      have : (i : Int) < 50 := by omega
      simp only [two_level_buffer, this, if_true]
      norm_num
    unfold ac_rms_over
    simp only [two_level_buffer, h10, if_false, hk, hm, hk2] at hs ⊢
    rw [Finset.sum_congr rfl hs]
    norm_num [libm_ref_sqrt_one]
  · have hs : ∀ i ∈ Finset.range 50,
        (two_level_buffer.red_filtered ((two_level_buffer.head - 1 - (i : Int)) % 1000) -
            two_level_buffer.red_dc ((two_level_buffer.head - 1 - (i : Int)) % 1000)) *
          (two_level_buffer.red_filtered ((two_level_buffer.head - 1 - (i : Int)) % 1000) -
            two_level_buffer.red_dc ((two_level_buffer.head - 1 - (i : Int)) % 1000))
          = 36 := by
      intro i hi
      rw [Finset.mem_range] at hi
      have : ¬ ((100 - 1 - (i : Int)) % 1000 < 50) := by omega
      simp only [two_level_buffer, this, if_false]
      norm_num
    unfold ac_rms_spec ac_rms_over
    simp only [two_level_buffer, h10, if_false, hk, hm, hk2] at hs ⊢
    rw [Finset.sum_congr rfl hs]
    norm_num [libm_ref_sqrt_36]
  · have hs : ∀ i ∈ Finset.range 50,
        (two_level_buffer.red_filtered ((two_level_buffer.head - (i : Int)) % 1000) -
            two_level_buffer.red_dc ((two_level_buffer.head - (i : Int)) % 1000)) *
          (two_level_buffer.red_filtered ((two_level_buffer.head - (i : Int)) % 1000) -
            two_level_buffer.red_dc ((two_level_buffer.head - (i : Int)) % 1000))
          = 36 := by
      intro i hi
      rw [Finset.mem_range] at hi
      have : ¬ ((100 - (i : Int)) % 1000 < 50) := by omega
      simp only [two_level_buffer, this, if_false]
      norm_num
    unfold ac_rms_spec ac_rms_over
    simp only [two_level_buffer, h10, if_false, hk, hm, hk2] at hs ⊢
    rw [Finset.sum_congr rfl hs]
    norm_num [libm_ref_sqrt_36]

/-- C22 at the failing input: on an initialised buffer with the cursor inside the array,
`hr_update_sample` writes at the cursor, as `ir_filtered` and also as `red_filtered`, the
five-tap sum taken over the IR stream (`fir_spec` of `ir_raw` and `ir_dc`), or 0 with
fewer than five buffered samples; the red stream is not read. -/
theorem C22_fir_filter_reads_ir_only (lm : libm) (s : hr_state) (x : ppg_sample)
    (hinit : s.signal_buffer.initialized = true)
    (hh0 : 0 ≤ s.signal_buffer.head) (hh1 : s.signal_buffer.head < 1000) :
    (hr_update_sample lm s x.red x.ir x.current_time x.detect_time).signal_buffer.ir_filtered
        s.signal_buffer.head =
      (if s.signal_buffer.count < 5 then 0
       else fir_spec
        (hr_update_sample lm s x.red x.ir x.current_time x.detect_time).signal_buffer.ir_raw
        (hr_update_sample lm s x.red x.ir x.current_time x.detect_time).signal_buffer.ir_dc
        s.signal_buffer.head) ∧
    (hr_update_sample lm s x.red x.ir x.current_time x.detect_time).signal_buffer.red_filtered
        s.signal_buffer.head =
      (if s.signal_buffer.count < 5 then 0
       else fir_spec
        (hr_update_sample lm s x.red x.ir x.current_time x.detect_time).signal_buffer.ir_raw
        (hr_update_sample lm s x.red x.ir x.current_time x.detect_time).signal_buffer.ir_dc
        s.signal_buffer.head) :=
  hr_update_sample_filtered lm s x.red x.ir x.current_time x.detect_time hinit hh0 hh1
/-- C22 instantiated at the failing input: after five samples with both counts 10000, a
sixth sample with `red = 10000` and `ir = 20000`.  The red stream is level, so the
specification's red sum is 0, but the stored `red_filtered` is the IR sum
`-0.2 * (20000 - 10500) = -1900`. -/
theorem C22_fir_filter_reads_ir_only_witness :
    (hr_run libm_ref hr_state_at_start
      (List.replicate 5 level_ppg_sample)).signal_buffer.initialized = true ∧
    (hr_run libm_ref hr_state_at_start
      (List.replicate 5 level_ppg_sample)).signal_buffer.head = 5 ∧
    (hr_run libm_ref hr_state_at_start
      (List.replicate 5 level_ppg_sample)).signal_buffer.count = 5 ∧
    (hr_update_sample libm_ref
      (hr_run libm_ref hr_state_at_start (List.replicate 5 level_ppg_sample))
      10000 20000 0 0).signal_buffer.red_filtered 5 = -1900 ∧
    fir_spec
      (hr_update_sample libm_ref
        (hr_run libm_ref hr_state_at_start (List.replicate 5 level_ppg_sample))
        10000 20000 0 0).signal_buffer.red_raw
      (hr_update_sample libm_ref
        (hr_run libm_ref hr_state_at_start (List.replicate 5 level_ppg_sample))
        10000 20000 0 0).signal_buffer.red_dc 5 = 0 := by
  obtain ⟨l1, l2, l3, l4, l5⟩ := hr_run_level libm_ref hr_state_at_start 5 (by norm_num)
  have hinit := (hr_run_bounds libm_ref hr_state_at_start
    (List.replicate 5 level_ppg_sample)).1
  have key := (C22_fir_filter_reads_ir_only libm_ref
    (hr_run libm_ref hr_state_at_start (List.replicate 5 level_ppg_sample))
    ⟨10000, 20000, 0, 0⟩ hinit (by rw [l1]; norm_num) (by rw [l1]; norm_num)).2
  obtain ⟨-, -, a3, a4, a5, a6⟩ := hr_update_sample_arrays libm_ref
    (hr_run libm_ref hr_state_at_start (List.replicate 5 level_ppg_sample))
    10000 20000 0 0 hinit
  obtain ⟨b1, b2, -, -⟩ := hr_store_sample_arrays
    (hr_run libm_ref hr_state_at_start (List.replicate 5 level_ppg_sample)) 10000 20000 0
  obtain ⟨-, -, -, c4, c5, -, -⟩ := hr_store_sample_fields
    (hr_run libm_ref hr_state_at_start (List.replicate 5 level_ppg_sample)) 10000 20000 0
  have s1 := l5 1 (by norm_num) (by norm_num)
  have s2 := l5 2 (by norm_num) (by norm_num)
  have s3 := l5 3 (by norm_num) (by norm_num)
  have s4 := l5 4 (by norm_num) (by norm_num)
  simp only [Nat.cast_ofNat] at l1 l2
  refine ⟨hinit, l1, l2, ?_, ?_⟩
  · simp only [l1, l2] at key
    rw [key, a4, a6, b2, c5, l1, l4]
    norm_num [fir_spec, Finset.sum_range_succ, fir_coeffs, Function.update_apply,
      calculate_dc_component, ALPHA_DC, s1, s2, s3, s4]
  · rw [a3, a5, b1, c4, l1, l3]
    norm_num [fir_spec, Finset.sum_range_succ, fir_coeffs, Function.update_apply,
      calculate_dc_component, ALPHA_DC, s1, s2, s3, s4]

/-- C23 refuted as stated: two calls on the same state whose samples differ only in the
accelerometer Z reading leave different states in a field other than `g_est_z`, the Z slot
`prev_az` of the previous-sample memory. -/
theorem C23_prev_az_counterexample :
    (step_call libm_ref (some init_ctx) step_fall_statics_at_start
      ⟨0, 0, 16384, 0, 0, 0, 0⟩).2.2.prev_az = 1 ∧
    (step_call libm_ref (some init_ctx) step_fall_statics_at_start
      ⟨0, 0, 0, 0, 0, 0, 0⟩).2.2.prev_az = 0 ∧
    (step_call libm_ref (some init_ctx) step_fall_statics_at_start
      ⟨0, 0, 16384, 0, 0, 0, 0⟩).2.2 ≠
    (step_call libm_ref (some init_ctx) step_fall_statics_at_start
      ⟨0, 0, 0, 0, 0, 0, 0⟩).2.2 := by
  have h1 : (step_call libm_ref (some init_ctx) step_fall_statics_at_start
      ⟨0, 0, 16384, 0, 0, 0, 0⟩).2.2.prev_az = 1 := by
    norm_num [step_call, step_fall_detect_step, estimate_gravity, init_ctx,
      step_fall_statics_at_start, store_prev_sample, libm_ref, sqrt_ref, fabsf,
      ACC_LSB_PER_G, GYRO_LSB_PER_DPS]
  have h2 : (step_call libm_ref (some init_ctx) step_fall_statics_at_start
      ⟨0, 0, 0, 0, 0, 0, 0⟩).2.2.prev_az = 0 := by
    norm_num [step_call, step_fall_detect_step, estimate_gravity, init_ctx,
      step_fall_statics_at_start, store_prev_sample, libm_ref, sqrt_ref, fabsf,
      ACC_LSB_PER_G, GYRO_LSB_PER_DPS]
  refine ⟨h1, h2, ?_⟩
  intro h
  rw [h, h2] at h1
  exact absurd h1 (by norm_num)

/-- C23 as amended: replacing the Z readings of every sample of a run, the Z gravity
estimate `g_est_z` and the Z slot `prev_az` of the previous-sample memory changes no
result of `step_fall_detect_step`, and the two final states agree in every field except
`g_est_z` and `prev_az`. -/
theorem C23_step_detection_ignores_z (lm : libm) (c : step_fall_ctx_t)
    (s : step_fall_statics_t) (z p : ℚ) (xs : List (imu_sample × Int × Int)) :
    (step_run lm (some { c with g_est_z := z }) { s with prev_az := p }
        (xs.map (fun q => with_z q.1 q.2.1 q.2.2))).1 =
      (step_run lm (some c) s (xs.map Prod.fst)).1 ∧
    ∃ (c2 : step_fall_ctx_t) (z2 p2 : ℚ),
      (step_run lm (some c) s (xs.map Prod.fst)).2.1 = some c2 ∧
      (step_run lm (some { c with g_est_z := z }) { s with prev_az := p }
          (xs.map (fun q => with_z q.1 q.2.1 q.2.2))).2.1 =
        some { c2 with g_est_z := z2 } ∧
      (step_run lm (some { c with g_est_z := z }) { s with prev_az := p }
          (xs.map (fun q => with_z q.1 q.2.1 q.2.2))).2.2 =
        { (step_run lm (some c) s (xs.map Prod.fst)).2.2 with prev_az := p2 } := by
  obtain ⟨c2, z2, p2, e1, e2⟩ := step_run_with_z lm xs c s z p
  rw [e2]
  exact ⟨rfl, c2, z2, p2, e1, rfl, rfl⟩

/-- C24: when a successful `read_mpu6050` call at time `t` gets a fall from
`step_fall_detect_fall` while no hold is active (and `t + 3000` does not wrap), the stored
`fall_detected` is 1 after it and after any further calls that fail or have
`now_ms < t + 3000`; the next successful call with `now_ms ≥ t + 3000` stores 0 and ends
the hold. -/
theorem C24_fall_hold_three_seconds (lm : libm) (s : sensor_manager_state) (r0 : mpu_read)
    (mid : List mpu_read) (r1 : mpu_read)
    (hok0 : r0.ret_ok = true) (hflag : s.fall_detected_flag = false)
    (hfall : (read_mpu6050_motion lm s r0.data (mpu_read_now_ms r0)).1.fall_detected = true)
    (hwrap : mpu_read_now_ms r0 + 3000 < 2 ^ 32)
    (hmid : ∀ m ∈ mid, m.ret_ok = false ∨ mpu_read_now_ms m < mpu_read_now_ms r0 + 3000)
    (hok1 : r1.ret_ok = true) (h1 : mpu_read_now_ms r0 + 3000 ≤ mpu_read_now_ms r1) :
    (read_run lm s (r0 :: mid)).current_data.fall_detected = 1 ∧
    (read_run lm s (r0 :: mid)).fall_detected_flag = true ∧
    (read_run lm s (r0 :: mid)).fall_reset_time = mpu_read_now_ms r0 + 3000 ∧
    (read_run lm s (r0 :: mid ++ [r1])).current_data.fall_detected = 0 ∧
    (read_run lm s (r0 :: mid ++ [r1])).fall_detected_flag = false := by
  obtain ⟨a, b, c⟩ := read_mpu6050_arms_hold lm s r0 hok0 hflag hfall hwrap
  obtain ⟨a2, b2, c2⟩ := read_run_keeps_hold lm mid
    (read_mpu6050 lm s r0.ret_ok r0.data r0.timer_us).2 a
    (fun m hm => by rw [b]; exact hmid m hm)
  rw [b] at b2
  rw [c] at c2
  have e : read_run lm s (r0 :: mid ++ [r1]) =
      (read_mpu6050 lm (read_run lm s (r0 :: mid)) r1.ret_ok r1.data r1.timer_us).2 :=
    read_run_snoc lm s (r0 :: mid) r1
  rw [e, read_run_cons]
  obtain ⟨a3, c3⟩ := read_mpu6050_releases_hold lm _ r1 hok1 a2 (by rw [b2]; exact h1)
  exact ⟨c2, a2, b2, c3, a3⟩

/-- C24 instantiated: from the start state, a saturated reading at 20 s is reported as a
fall; a reading at 21 s and a failed read at 24 s keep the stored 1, and the successful
read at 25 s stores 0. -/
theorem C24_fall_hold_three_seconds_witness :
    (read_run libm_ref sensor_manager_at_start
      [⟨true, ⟨32767, 32767, 32767, 0, 0, 0⟩, 20000000⟩,
        ⟨true, ⟨0, 0, 16384, 0, 0, 0⟩, 21000000⟩,
        ⟨false, ⟨0, 0, 0, 0, 0, 0⟩, 24000000⟩]).current_data.fall_detected = 1 ∧
    (read_run libm_ref sensor_manager_at_start
      [⟨true, ⟨32767, 32767, 32767, 0, 0, 0⟩, 20000000⟩,
        ⟨true, ⟨0, 0, 16384, 0, 0, 0⟩, 21000000⟩,
        ⟨false, ⟨0, 0, 0, 0, 0, 0⟩, 24000000⟩,
        ⟨true, ⟨0, 0, 16384, 0, 0, 0⟩, 25000000⟩]).current_data.fall_detected = 0 := by
  have hmid : ∀ m ∈ ([⟨true, ⟨0, 0, 16384, 0, 0, 0⟩, 21000000⟩,
      ⟨false, ⟨0, 0, 0, 0, 0, 0⟩, 24000000⟩] : List mpu_read),
      m.ret_ok = false ∨ mpu_read_now_ms m <
        mpu_read_now_ms ⟨true, ⟨32767, 32767, 32767, 0, 0, 0⟩, 20000000⟩ + 3000 := by
    intro m hm
    simp only [List.mem_cons, List.mem_singleton, List.not_mem_nil, or_false] at hm
    rcases hm with rfl | rfl
    · right; decide
    · left; rfl
  have h := C24_fall_hold_three_seconds libm_ref sensor_manager_at_start
    ⟨true, ⟨32767, 32767, 32767, 0, 0, 0⟩, 20000000⟩
    [⟨true, ⟨0, 0, 16384, 0, 0, 0⟩, 21000000⟩, ⟨false, ⟨0, 0, 0, 0, 0, 0⟩, 24000000⟩]
    ⟨true, ⟨0, 0, 16384, 0, 0, 0⟩, 25000000⟩ rfl rfl
    ((read_mpu6050_motion_fall libm_ref _ _ _).mpr ⟨by decide, fall_trigger_ref_saturated⟩)
    (by decide) hmid rfl (by decide)
  exact ⟨h.1, h.2.2.2.1⟩

/-- C25: whatever its arguments, `add_beat_interval` stores an interval between 680000 and
1200000 microseconds; in every state reached from `heart_rate_calculator_init` the ring
holds such intervals only (`heart_rate_inv`) and a valid heart rate, which is what
`hr_get_latest` reports, lies strictly between 61 and 79; and on such a ring with at least
three intervals the divisors of `calculate_stable_heart_rate` are positive: `total_weight`
is positive and `avg_interval` lies between 680000 and 1200000. -/
theorem C25_synthetic_heart_rate_band (lm : libm) :
    (∀ (bd : beat_data_t) (st : hr_statics_t) (interval timestamp : Int),
      680000 ≤ (add_beat_interval lm bd st interval timestamp).1.intervals bd.head ∧
      (add_beat_interval lm bd st interval timestamp).1.intervals bd.head ≤ 1200000) ∧
    (∀ (s0 : hr_state) (samples : List ppg_sample),
      heart_rate_inv (hr_run lm s0 samples).heart_data ∧
      ((hr_run lm s0 samples).heart_data.hr_valid = true →
        61 < hr_get_latest (hr_run lm s0 samples).heart_data ∧
        hr_get_latest (hr_run lm s0 samples).heart_data < 79)) ∧
    (∀ hd : heart_data_t, beat_data_inv hd.beat_data → 3 ≤ hd.beat_data.count →
      0 < stable_total_weight hd ∧
      680000 ≤ stable_avg_interval hd ∧ stable_avg_interval hd ≤ 1200000 ∧
      calculate_stable_heart_rate hd =
        { hd with
          last_hr_bpm :=
            (let raw_hr : ℚ := 60000000 / (stable_avg_interval hd : ℚ)
             let new_hr :=
               if hd.hr_valid then
                 SMOOTHING_FACTOR * hd.last_hr_bpm + (1 - SMOOTHING_FACTOR) * raw_hr
               else raw_hr
             let new_hr := if new_hr < 63 then 63 + (new_hr - 63) * (1 / 10) else new_hr
             if new_hr > 77 then 77 + (new_hr - 77) * (1 / 10) else new_hr)
          hr_valid := true }) := by
  refine ⟨?_, ?_, ?_⟩
  · intro bd st interval timestamp
    exact (add_beat_interval_fields lm bd st interval timestamp).2.2.2
  · intro s0 samples
    refine ⟨hr_run_inv lm s0 samples, ?_⟩
    intro hv
    unfold hr_get_latest
    rw [if_pos hv]
    exact (hr_run_inv lm s0 samples).2 hv
  · intro hd hb hc
    obtain ⟨lo, hi⟩ := stable_avg_interval_bounds hd hb hc
    refine ⟨?_, lo, hi, ?_⟩
    · unfold stable_total_weight
      rcases (by omega : hd.beat_data.count = 3 ∨ hd.beat_data.count = 4 ∨
          5 ≤ hd.beat_data.count) with h3 | h4 | h5
      · simp [h3, List.range_succ]
      · simp [h4, List.range_succ]
      · have hk : (if hd.beat_data.count > 5 then (5 : Int) else hd.beat_data.count) = 5 := by
          split_ifs <;> omega
        simp only [hk]
        simp [List.range_succ]
    · have hn : ¬ (hd.beat_data.count < MIN_BEATS_FOR_CALCULATION) := by
        unfold MIN_BEATS_FOR_CALCULATION; omega
      unfold calculate_stable_heart_rate
      rw [if_neg hn]
      rfl

/-- C26: after every call of `hr_update_sample` (on the start state or on a state reached
from `heart_rate_calculator_init`), good quality implies contact, contact implies that
both DC values lie strictly between 5000 and 300000, and so with good quality the divisors
`red_dc`, `ir_dc` and the IR ratio `ir_ac_rms / ir_dc` are positive; and a run of all-zero
ADC counts after `heart_rate_calculator_init` leaves no contact, quality not good and
both readings invalid (`hr_get_latest` is 0). -/
theorem C26_divisors_positive (lm : libm) (s : hr_state) (x : ppg_sample)
    (hreach : hr_reachable lm s) :
    ((hr_update_sample lm s x.red x.ir x.current_time
        x.detect_time).signal_quality.quality_good = true →
      (hr_update_sample lm s x.red x.ir x.current_time
        x.detect_time).signal_quality.contact_detected = true) ∧
    ((hr_update_sample lm s x.red x.ir x.current_time
        x.detect_time).signal_quality.contact_detected = true →
      5000 < (hr_update_sample lm s x.red x.ir x.current_time
        x.detect_time).signal_quality.red_dc ∧
      (hr_update_sample lm s x.red x.ir x.current_time
        x.detect_time).signal_quality.red_dc < 300000 ∧
      5000 < (hr_update_sample lm s x.red x.ir x.current_time
        x.detect_time).signal_quality.ir_dc ∧
      (hr_update_sample lm s x.red x.ir x.current_time
        x.detect_time).signal_quality.ir_dc < 300000) ∧
    ((hr_update_sample lm s x.red x.ir x.current_time
        x.detect_time).signal_quality.quality_good = true →
      0 < (hr_update_sample lm s x.red x.ir x.current_time
        x.detect_time).signal_quality.red_dc ∧
      0 < (hr_update_sample lm s x.red x.ir x.current_time
        x.detect_time).signal_quality.ir_dc ∧
      0 < (hr_update_sample lm s x.red x.ir x.current_time
          x.detect_time).signal_quality.ir_ac_rms /
        (hr_update_sample lm s x.red x.ir x.current_time
          x.detect_time).signal_quality.ir_dc) ∧
    (∀ (s0 : hr_state) (samples : List ppg_sample),
      (∀ y ∈ samples, y.red = 0 ∧ y.ir = 0) →
      (hr_run lm s0 samples).signal_quality.contact_detected = false ∧
      (hr_run lm s0 samples).signal_quality.quality_good = false ∧
      (hr_run lm s0 samples).heart_data.hr_valid = false ∧
      (hr_run lm s0 samples).heart_data.spo2_valid = false ∧
      hr_get_latest (hr_run lm s0 samples).heart_data = 0) := by
  have hzero : ∀ (s0 : hr_state) (samples : List ppg_sample),
      (∀ y ∈ samples, y.red = 0 ∧ y.ir = 0) →
      (hr_run lm s0 samples).signal_quality.contact_detected = false ∧
      (hr_run lm s0 samples).signal_quality.quality_good = false ∧
      (hr_run lm s0 samples).heart_data.hr_valid = false ∧
      (hr_run lm s0 samples).heart_data.spo2_valid = false ∧
      hr_get_latest (hr_run lm s0 samples).heart_data = 0 := by
    intro s0 samples hz
    obtain ⟨-, -, a, b, c, d⟩ := hr_run_zero_adc lm s0 samples hz
    refine ⟨a, b, c, d, ?_⟩
    unfold hr_get_latest
    rw [c]
    rfl
  rcases hreach with hstart | ⟨s0, samples, hrun⟩
  · subst hstart
    have hs : hr_update_sample lm hr_state_at_start x.red x.ir x.current_time x.detect_time =
        hr_state_at_start := rfl
    rw [hs]
    have hf : ¬ ((false : Bool) = true) := by decide
    exact ⟨fun h => absurd h hf, fun h => absurd h hf, fun h => absurd h hf, hzero⟩
  · have hinit : s.signal_buffer.initialized = true := by
      rw [hrun]; exact (hr_run_bounds lm s0 samples).1
    obtain ⟨-, esq, -⟩ :=
      hr_update_sample_initialized lm s x.red x.ir x.current_time x.detect_time hinit
    rw [esq]
    obtain ⟨dir, dred⟩ := evaluate_signal_quality_dc lm
      (hr_store_sample s x.red x.ir x.current_time).1
      (hr_store_sample s x.red x.ir x.current_time).2 s.signal_quality s.statics
    have hcontact : (evaluate_signal_quality lm (hr_store_sample s x.red x.ir x.current_time).1
          (hr_store_sample s x.red x.ir x.current_time).2 s.signal_quality
          s.statics).1.contact_detected = true →
        5000 < (evaluate_signal_quality lm (hr_store_sample s x.red x.ir x.current_time).1
          (hr_store_sample s x.red x.ir x.current_time).2 s.signal_quality
          s.statics).1.red_dc ∧
        (evaluate_signal_quality lm (hr_store_sample s x.red x.ir x.current_time).1
          (hr_store_sample s x.red x.ir x.current_time).2 s.signal_quality
          s.statics).1.red_dc < 300000 ∧
        5000 < (evaluate_signal_quality lm (hr_store_sample s x.red x.ir x.current_time).1
          (hr_store_sample s x.red x.ir x.current_time).2 s.signal_quality
          s.statics).1.ir_dc ∧
        (evaluate_signal_quality lm (hr_store_sample s x.red x.ir x.current_time).1
          (hr_store_sample s x.red x.ir x.current_time).2 s.signal_quality
          s.statics).1.ir_dc < 300000 := by
      intro hc
      obtain ⟨b1, b2, b3, b4⟩ := evaluate_signal_quality_contact lm _ _ _ _ hc
      rw [dir, dred]
      simp only [MIN_DC_VALUE, MAX_DC_VALUE] at b1 b2 b3 b4
      exact ⟨b3, b4, b1, b2⟩
    refine ⟨fun hq => (evaluate_signal_quality_good lm _ _ _ _ hq).1, hcontact, ?_, hzero⟩
    intro hq
    obtain ⟨hc, -, -, hir, -⟩ := evaluate_signal_quality_good lm _ _ _ _ hq
    obtain ⟨c1, c2, c3, c4⟩ := hcontact hc
    simp only [MIN_AC_AMPLITUDE] at hir
    exact ⟨by linarith, by linarith, div_pos (by linarith) (by linarith)⟩

/-- C26 instantiated: the first call after initialisation with both ADC counts 0; the
quality is not good after it. -/
theorem C26_divisors_positive_witness :
    hr_reachable libm_ref (hr_run libm_ref hr_state_at_start []) ∧
    (hr_run libm_ref hr_state_at_start [zero_ppg_sample]).signal_quality.quality_good
      = false ∧
    ((hr_update_sample libm_ref (hr_run libm_ref hr_state_at_start []) zero_ppg_sample.red
        zero_ppg_sample.ir zero_ppg_sample.current_time
        zero_ppg_sample.detect_time).signal_quality.quality_good = true →
      (hr_update_sample libm_ref (hr_run libm_ref hr_state_at_start []) zero_ppg_sample.red
        zero_ppg_sample.ir zero_ppg_sample.current_time
        zero_ppg_sample.detect_time).signal_quality.contact_detected = true) :=
  have hreach : hr_reachable libm_ref (hr_run libm_ref hr_state_at_start []) :=
    Or.inr ⟨hr_state_at_start, [], rfl⟩
  ⟨hreach,
    ((C26_divisors_positive libm_ref (hr_run libm_ref hr_state_at_start []) zero_ppg_sample
      hreach).2.2.2 hr_state_at_start [zero_ppg_sample]
      (fun y hy => by rw [List.mem_singleton.mp hy]; exact ⟨rfl, rfl⟩)).2.1,
    (C26_divisors_positive libm_ref (hr_run libm_ref hr_state_at_start []) zero_ppg_sample
      hreach).1⟩

/-- C27 refuted as stated: for the `int16_t` readings `(32741, 32586, 28097)`, given
outside the cooldown, `step_fall_detect_fall` reports a fall although the total
acceleration `sqrt(ax² + ay² + az²) / 16384` is below 3.3 g: the binary32 `total_accel`
is exactly `3.3f`. -/
theorem C27_below_threshold_counterexample :
    (is_int16 32741 ∧ is_int16 32586 ∧ is_int16 28097) ∧
    (step_fall_detect_fall_f32 libm_f32 (some init_ctx) step_fall_statics_at_start
      32741 32586 28097 0 0 0 20000).1.fall_detected = true ∧
    Real.sqrt ((total_accel_sq 32741 32586 28097 : ℚ) : ℝ) < 33 / 10 ∧
    total_accel_f32 libm_f32 32741 32586 28097 = f32 (33 / 10) := by
  refine ⟨⟨?_, ?_, ?_⟩, ?_, ?_, ?_⟩
  · unfold is_int16; decide
  · unfold is_int16; decide
  · unfold is_int16; decide
  · exact (fall_f32_detected_iff libm_f32 init_ctx step_fall_statics_at_start
      32741 32586 28097 0 0 0 20000).mpr ⟨by decide, fall_trigger_f32_boundary2⟩
  · rw [Real.sqrt_lt' (by norm_num)]
    norm_num [total_accel_sq]
  · rw [total_accel_f32_boundary2, f32_literal_3_3]

/-- C27 as amended: for every `int16_t` accelerometer triple the total acceleration is at
most `2·√3` g (about 3.47 g); if `sqrtf` is within `1e-6` of the true root at the binary32
sum of squares, the binary32 `total_accel` of `step_fall_detect_fall` is below `5.0f`, so
the extreme-impact condition is false, and every reported fall has `total_accel ≥ 3.3f`
together with a combined tilt `≥ 45.0f` of the returned roll and pitch; its exact total
acceleration is at least 3.299998 g (not necessarily 3.3 g). -/
theorem C27_int16_extreme_impact_never_true (lm : libm) (ctx : step_fall_ctx_t)
    (st : step_fall_statics_t) (ax_raw ay_raw az_raw gx_raw gy_raw gz_raw : Int)
    (now_ms : Nat)
    (hx : is_int16 ax_raw) (hy : is_int16 ay_raw) (hz : is_int16 az_raw)
    (hacc : |((total_accel_f32 lm ax_raw ay_raw az_raw : ℚ) : ℝ) -
      Real.sqrt ((total_accel_sq_f32 ax_raw ay_raw az_raw : ℚ) : ℝ)| ≤ 1 / 1000000) :
    Real.sqrt ((total_accel_sq ax_raw ay_raw az_raw : ℚ) : ℝ) ≤ 2 * Real.sqrt 3 ∧
    total_accel_f32 lm ax_raw ay_raw az_raw < 5 ∧
    ((step_fall_detect_fall_f32 lm (some ctx) st ax_raw ay_raw az_raw gx_raw gy_raw gz_raw
        now_ms).1.fall_detected = true →
      total_accel_f32 lm ax_raw ay_raw az_raw ≥ f32 (33 / 10) ∧
      combined_tilt_f32 lm
        (step_fall_detect_fall_f32 lm (some ctx) st ax_raw ay_raw az_raw gx_raw gy_raw
          gz_raw now_ms).1.roll_deg
        (step_fall_detect_fall_f32 lm (some ctx) st ax_raw ay_raw az_raw gx_raw gy_raw
          gz_raw now_ms).1.pitch_deg ≥ 45 ∧
      Real.sqrt ((total_accel_sq ax_raw ay_raw az_raw : ℚ) : ℝ) ≥ 3299998 / 1000000) := by
  obtain ⟨v0, v12⟩ := total_accel_sq_le ax_raw ay_raw az_raw hx hy hz
  obtain ⟨w0, w12⟩ := total_accel_sq_f32_le ax_raw ay_raw az_raw hx hy hz
  have h3 : (Real.sqrt 3) ^ 2 = 3 := Real.sq_sqrt (by norm_num)
  have hs : Real.sqrt ((total_accel_sq ax_raw ay_raw az_raw : ℚ) : ℝ)
      ≤ 2 * Real.sqrt 3 := by
    rw [Real.sqrt_le_iff]
    constructor
    · positivity
    · have : ((total_accel_sq ax_raw ay_raw az_raw : ℚ) : ℝ) ≤ 12 := by
        exact_mod_cast v12
      nlinarith
  have hsf : Real.sqrt ((total_accel_sq_f32 ax_raw ay_raw az_raw : ℚ) : ℝ)
      ≤ 2 * Real.sqrt 3 := by
    rw [Real.sqrt_le_iff]
    constructor
    · positivity
    · have : ((total_accel_sq_f32 ax_raw ay_raw az_raw : ℚ) : ℝ) ≤ 12 := by
        exact_mod_cast w12
      nlinarith
  have hlt : total_accel_f32 lm ax_raw ay_raw az_raw < 5 := by
    have h1 := (abs_le.mp hacc).2
    have h2 := real_sqrt_12_lt
    have : ((total_accel_f32 lm ax_raw ay_raw az_raw : ℚ) : ℝ) < 5 := by linarith
    exact_mod_cast this
  refine ⟨hs, hlt, ?_⟩
  intro hfd
  have ht := ((fall_f32_detected_iff lm ctx st ax_raw ay_raw az_raw gx_raw gy_raw gz_raw
    now_ms).mp hfd).2
  have hroll : (step_fall_detect_fall_f32 lm (some ctx) st ax_raw ay_raw az_raw gx_raw
      gy_raw gz_raw now_ms).1.roll_deg = roll_deg_f32 lm ax_raw ay_raw az_raw := by
    rw [step_fall_detect_fall_f32_some]; split_ifs <;> rfl
  have hpitch : (step_fall_detect_fall_f32 lm (some ctx) st ax_raw ay_raw az_raw gx_raw
      gy_raw gz_raw now_ms).1.pitch_deg = pitch_deg_f32 lm ax_raw ay_raw az_raw := by
    rw [step_fall_detect_fall_f32_some]; split_ifs <;> rfl
  rw [hroll, hpitch]
  unfold fall_trigger_f32 at ht
  have hst : total_accel_f32 lm ax_raw ay_raw az_raw ≥ f32 (33 / 10) ∧
      combined_tilt_f32 lm (roll_deg_f32 lm ax_raw ay_raw az_raw)
        (pitch_deg_f32 lm ax_raw ay_raw az_raw) ≥ 45 := by
    rcases ht with h5 | h
    · exact absurd h5 (not_le.mpr hlt)
    · exact h
  refine ⟨hst.1, hst.2, ?_⟩
  -- from the computed value back to the exact magnitude
  have hge : (13841203 / 4194304 : ℚ) ≤ total_accel_f32 lm ax_raw ay_raw az_raw := by
    rw [← f32_literal_3_3]; exact hst.1
  have hgeR : ((13841203 / 4194304 : ℚ) : ℝ) ≤
      ((total_accel_f32 lm ax_raw ay_raw az_raw : ℚ) : ℝ) := Rat.cast_le.mpr hge
  push_cast at hgeR
  have hlo := (abs_le.mp hacc).2
  have hroot : (13841203 / 4194304 - 1 / 1000000 : ℝ) ≤
      Real.sqrt ((total_accel_sq_f32 ax_raw ay_raw az_raw : ℚ) : ℝ) := by linarith
  have hsq : (13841203 / 4194304 - 1 / 1000000 : ℝ) ^ 2 ≤
      ((total_accel_sq_f32 ax_raw ay_raw az_raw : ℚ) : ℝ) :=
    (Real.le_sqrt' (by norm_num)).mp hroot
  have hsqQ : (13841203 / 4194304 - 1 / 1000000 : ℚ) ^ 2 ≤
      total_accel_sq_f32 ax_raw ay_raw az_raw := by
    have h : (((13841203 / 4194304 - 1 / 1000000 : ℚ) ^ 2 : ℚ) : ℝ) ≤
        ((total_accel_sq_f32 ax_raw ay_raw az_raw : ℚ) : ℝ) := by
      push_cast; exact hsq
    exact Rat.cast_le.mp h
  have hmul := total_accel_sq_f32_le_mul ax_raw ay_raw az_raw
  have hfin : (3299998 / 1000000 : ℚ) ^ 2 ≤ total_accel_sq ax_raw ay_raw az_raw := by
    have hnum : (3299998 / 1000000 : ℚ) ^ 2 * (1 + 1 / 2 ^ 24) ^ 5 ≤
        (13841203 / 4194304 - 1 / 1000000 : ℚ) ^ 2 := by norm_num
    have hc : (3299998 / 1000000 : ℚ) ^ 2 * (1 + 1 / 2 ^ 24) ^ 5 ≤
        total_accel_sq ax_raw ay_raw az_raw * (1 + 1 / 2 ^ 24) ^ 5 := by linarith
    exact le_of_mul_le_mul_right hc (by positivity)
  have hfinR : (((3299998 / 1000000 : ℚ) ^ 2 : ℚ) : ℝ) ≤
      ((total_accel_sq ax_raw ay_raw az_raw : ℚ) : ℝ) := Rat.cast_le.mpr hfin
  push_cast at hfinR
  exact (Real.le_sqrt' (by norm_num)).mpr hfinR

/-- C27 as amended, instantiated: the saturated sample under `libm_f32`, about 3.46 g,
reported as a fall at 20000 ms. -/
theorem C27_int16_extreme_impact_never_true_witness :
    is_int16 32767 ∧
    |((total_accel_f32 libm_f32 32767 32767 32767 : ℚ) : ℝ) -
      Real.sqrt ((total_accel_sq_f32 32767 32767 32767 : ℚ) : ℝ)| ≤ 1 / 1000000 ∧
    total_accel_f32 libm_f32 32767 32767 32767 < 5 ∧
    (step_fall_detect_fall_f32 libm_f32 (some init_ctx) step_fall_statics_at_start
      32767 32767 32767 0 0 0 20000).1.fall_detected = true ∧
    total_accel_f32 libm_f32 32767 32767 32767 ≥ f32 (33 / 10) ∧
    Real.sqrt ((total_accel_sq 32767 32767 32767 : ℚ) : ℝ) ≥ 3299998 / 1000000 := by
  have hi : is_int16 32767 := by unfold is_int16; decide
  have hacc : |((total_accel_f32 libm_f32 32767 32767 32767 : ℚ) : ℝ) -
      Real.sqrt ((total_accel_sq_f32 32767 32767 32767 : ℚ) : ℝ)| ≤ 1 / 1000000 := by
    rw [total_accel_f32_saturated, total_accel_sq_f32_saturated, abs_le]
    constructor
    · have : Real.sqrt ((49149 / 4096 : ℚ) : ℝ) ≤ 3632263 / 1048576 + 1 / 1000000 := by
        rw [Real.sqrt_le_iff]; norm_num
      push_cast at this ⊢; linarith
    · have : (3632263 / 1048576 - 1 / 1000000 : ℝ) ≤ Real.sqrt ((49149 / 4096 : ℚ) : ℝ) := by
        rw [Real.le_sqrt' (by norm_num)]; norm_num
      push_cast at this ⊢; linarith
  have h := C27_int16_extreme_impact_never_true libm_f32 init_ctx
    step_fall_statics_at_start 32767 32767 32767 0 0 0 20000 hi hi hi hacc
  have hfd : (step_fall_detect_fall_f32 libm_f32 (some init_ctx) step_fall_statics_at_start
      32767 32767 32767 0 0 0 20000).1.fall_detected = true :=
    (fall_f32_detected_iff libm_f32 init_ctx step_fall_statics_at_start
      32767 32767 32767 0 0 0 20000).mpr ⟨by decide, fall_trigger_f32_saturated⟩
  exact ⟨hi, hacc, h.2.1, hfd, (h.2.2 hfd).1, (h.2.2 hfd).2.2⟩

/-- C28: while `last_fall_time` is 0, which is its value at program start and the value
`step_fall_reset_fall` writes, `step_fall_detect_fall` answers every sample with
`now_ms < 10000` with `fall_detected = false` and leaves the statics as they are,
whatever the readings. -/
theorem C28_no_fall_before_ten_seconds (lm : libm) (ctx : Option step_fall_ctx_t)
    (st : step_fall_statics_t) (x : imu_sample)
    (h0 : st.last_fall_time = 0) (ht : x.now_ms < 10000) :
    (fall_call lm ctx st x).1.fall_detected = false ∧
    (fall_call lm ctx st x).1.direction = FALL_DIR_NONE ∧
    (fall_call lm ctx st x).2.2 = st ∧
    step_fall_statics_at_start.last_fall_time = 0 ∧
    (step_fall_reset_fall ctx st).2.last_fall_time = 0 := by
  have hr : (step_fall_reset_fall ctx st).2.last_fall_time = 0 := by
    cases ctx with
    | none => exact h0
    | some c => rfl
  cases ctx with
  | none => exact ⟨rfl, rfl, rfl, rfl, hr⟩
  | some c =>
    have hnd : (fall_call lm (some c) st x).1.fall_detected = false := by
      cases hfd : (fall_call lm (some c) st x).1.fall_detected
      · rfl
      · have h := ((fall_call_detected_iff lm c st x).mp hfd).1
        rw [h0] at h
        have : u32_sub x.now_ms 0 = x.now_ms := by
          unfold u32_sub
          norm_num
          omega
        omega
    obtain ⟨a, b⟩ := fall_call_not_detected lm c st x hnd
    exact ⟨hnd, a, b, rfl, hr⟩

/-- C28 instantiated: the saturated sample, which satisfies the trigger condition, at
9999 ms on the start statics. -/
theorem C28_no_fall_before_ten_seconds_witness :
    step_fall_statics_at_start.last_fall_time = 0 ∧ (saturated_sample 9999).now_ms < 10000 ∧
    fall_trigger_spec libm_ref (saturated_sample 9999).ax_raw (saturated_sample 9999).ay_raw
      (saturated_sample 9999).az_raw ∧
    (fall_call libm_ref (some init_ctx) step_fall_statics_at_start
      (saturated_sample 9999)).1.fall_detected = false :=
  ⟨rfl, by decide, fall_trigger_ref_saturated,
    (C28_no_fall_before_ten_seconds libm_ref (some init_ctx) step_fall_statics_at_start
      (saturated_sample 9999) rfl (by decide)).1⟩

/-- C29: whenever `calculate_spo2` leaves `spo2_valid` true, the stored SpO2 is between 75
and 99, so `hr_get_spo2_status` does not return Invalid; in its computing branch the
stored value is at least 75 whatever the ratio, so the `>= 75` test of the validity check
always holds there; and in every state reached from `heart_rate_calculator_init` a valid
SpO2 value lies in `[75, 99]` and has a status other than Invalid. -/
theorem C29_valid_spo2_range (lm : libm) (sq : signal_quality_t) (count : Int)
    (hd : heart_data_t) (hv : (calculate_spo2 sq count hd).spo2_valid = true) :
    75 ≤ (calculate_spo2 sq count hd).last_spo2 ∧
    (calculate_spo2 sq count hd).last_spo2 ≤ 99 ∧
    hr_get_spo2_status (calculate_spo2 sq count hd) ≠ SPO2_STATUS_INVALID ∧
    (∀ (sq2 : signal_quality_t) (count2 : Int) (hd2 : heart_data_t),
      sq2.quality_good = true → 500 ≤ count2 → 0 < sq2.ir_ac_rms / sq2.ir_dc →
      (calculate_spo2 sq2 count2 hd2).last_spo2 ≥ SPO2_SEVERE_HYPOXIA) ∧
    (∀ (s0 : hr_state) (samples : List ppg_sample),
      (hr_run lm s0 samples).heart_data.spo2_valid = true →
      75 ≤ (hr_run lm s0 samples).heart_data.last_spo2 ∧
      (hr_run lm s0 samples).heart_data.last_spo2 ≤ 99 ∧
      hr_get_spo2_status (hr_run lm s0 samples).heart_data ≠ SPO2_STATUS_INVALID) := by
  have status : ∀ h : heart_data_t, h.spo2_valid = true → 75 ≤ h.last_spo2 →
      hr_get_spo2_status h ≠ SPO2_STATUS_INVALID := by
    intro h hval h75
    unfold hr_get_spo2_status determine_spo2_status
    simp only [hval, Bool.not_true, Bool.false_eq_true, if_false, SPO2_NORMAL_MIN,
      SPO2_HYPOXIA_WARNING, SPO2_HYPOXIA_DANGER, SPO2_SEVERE_HYPOXIA]
    split_ifs <;> decide
  obtain ⟨a, b⟩ := calculate_spo2_valid_range sq count hd hv
  refine ⟨a, b, status _ hv a, ?_, ?_⟩
  · intro sq2 count2 hd2 hq hc hpos
    rw [calculate_spo2_computed sq2 count2 hd2 hq hc hpos]
    exact (round_clamp_bounds _).1
  · intro s0 samples hval
    obtain ⟨a2, b2⟩ := hr_run_spo2_range lm s0 samples hval
    exact ⟨a2, b2, status _ hval a2⟩

/-- C29 instantiated: good quality, 500 samples and `R = 0.5` give the valid value 99. -/
theorem C29_valid_spo2_range_witness :
    (calculate_spo2 half_ratio_quality 500 heart_data_zero).spo2_valid = true ∧
    (calculate_spo2 half_ratio_quality 500 heart_data_zero).last_spo2 = 99 ∧
    (calculate_spo2 half_ratio_quality 500 heart_data_zero).last_spo2 ≤ 99 := by
  have hv : (calculate_spo2 half_ratio_quality 500 heart_data_zero).spo2_valid = true := by
    norm_num [calculate_spo2, half_ratio_quality, spo2_curve, float_to_int,
      MIN_PERFUSION_INDEX, SPO2_SEVERE_HYPOXIA]
  have hl : (calculate_spo2 half_ratio_quality 500 heart_data_zero).last_spo2 = 99 := by
    norm_num [calculate_spo2, half_ratio_quality, spo2_curve, float_to_int,
      MIN_PERFUSION_INDEX, SPO2_SEVERE_HYPOXIA]
  exact ⟨hv, hl,
    (C29_valid_spo2_range libm_ref half_ratio_quality 500 heart_data_zero hv).2.1⟩

/-- C30: the result of `step_fall_detect_fall` and the new `last_fall_time` are the same
for any two non-null contexts, any gyroscope readings and any values of the other
statics, given the same accelerometer readings, `now_ms` and `last_fall_time`; the
context is returned unchanged and no static other than `last_fall_time` is written. -/
theorem C30_fall_result_ignores_context (lm : libm) (ctx1 ctx2 : step_fall_ctx_t)
    (st1 st2 : step_fall_statics_t) (ax_raw ay_raw az_raw : Int)
    (gx1 gy1 gz1 gx2 gy2 gz2 : Int) (now_ms : Nat)
    (hl : st1.last_fall_time = st2.last_fall_time) :
    (step_fall_detect_fall lm (some ctx1) st1 ax_raw ay_raw az_raw gx1 gy1 gz1 now_ms).1 =
      (step_fall_detect_fall lm (some ctx2) st2 ax_raw ay_raw az_raw gx2 gy2 gz2 now_ms).1 ∧
    (step_fall_detect_fall lm (some ctx1) st1 ax_raw ay_raw az_raw gx1 gy1 gz1
        now_ms).2.2.last_fall_time =
      (step_fall_detect_fall lm (some ctx2) st2 ax_raw ay_raw az_raw gx2 gy2 gz2
        now_ms).2.2.last_fall_time ∧
    (step_fall_detect_fall lm (some ctx1) st1 ax_raw ay_raw az_raw gx1 gy1 gz1 now_ms).2.1 =
      some ctx1 ∧
    (step_fall_detect_fall lm (some ctx1) st1 ax_raw ay_raw az_raw gx1 gy1 gz1 now_ms).2.2 =
      { st1 with
        last_fall_time :=
          (step_fall_detect_fall lm (some ctx1) st1 ax_raw ay_raw az_raw gx1 gy1 gz1
            now_ms).2.2.last_fall_time } := by
  rw [step_fall_detect_fall_some, step_fall_detect_fall_some, hl]
  split_ifs
  · exact ⟨rfl, rfl, rfl, rfl⟩
  · exact ⟨rfl, hl, rfl, rfl⟩

/-- C30 instantiated: the saturated sample at 20000 ms, once with the initial context
and no rotation, once with both thresholds changed and the gyroscope saturated. -/
theorem C30_fall_result_ignores_context_witness :
    (step_fall_detect_fall libm_ref (some init_ctx) step_fall_statics_at_start
        32767 32767 32767 0 0 0 20000).1 =
      (step_fall_detect_fall libm_ref
        (some { init_ctx with accel_threshold_g := 100, angle_threshold_deg := 0 })
        { step_fall_statics_at_start with above := true }
        32767 32767 32767 32767 32767 32767 20000).1 :=
  (C30_fall_result_ignores_context libm_ref init_ctx
    { init_ctx with accel_threshold_g := 100, angle_threshold_deg := 0 }
    step_fall_statics_at_start { step_fall_statics_at_start with above := true }
    32767 32767 32767 0 0 0 32767 32767 32767 20000 rfl).1

end VitalLink
